import Mathlib

/-!
# Gimbal manager client (src/Gimbal/GimbalController.cc)

A shallow embedding of `GimbalController`: the record table, the discovery
handlers, `_checkComplete`, the command issuers and the joystick pipeline,
followed by theorems about them.

Conventions of the embedding

* `float` values are elements of a linear ordered field `α` (exact arithmetic);
  `NAN` arguments of outbound commands are the constructor `Param.nan`.
* 8-bit ids and `unsigned` counters are `Nat`; no arithmetic on them can wrap
  (every decrement is guarded by `> 0`).  `qint64` clock values are `Int`.
* A `Gimbal *` is the key of the record in `_potentialGimbals` (records are
  never removed from the table); `nullptr` is `none`.
* Every function returns the new controller together with the list of what it
  emitted (commands, messages, Qt signals), oldest first.  Logging is omitted.
-/

namespace GimbalController

/-! ## Constants of the MAVLink common dialect -/

def MAVLINK_MSG_ID_HEARTBEAT : Int := 0
def MAVLINK_MSG_ID_GIMBAL_MANAGER_INFORMATION : Int := 280
def MAVLINK_MSG_ID_GIMBAL_MANAGER_STATUS : Int := 281
def MAVLINK_MSG_ID_GIMBAL_DEVICE_ATTITUDE_STATUS : Int := 285

def GIMBAL_DEVICE_FLAGS_RETRACT : Nat := 1
def GIMBAL_DEVICE_FLAGS_NEUTRAL : Nat := 2
def GIMBAL_DEVICE_FLAGS_ROLL_LOCK : Nat := 4
def GIMBAL_DEVICE_FLAGS_PITCH_LOCK : Nat := 8
def GIMBAL_DEVICE_FLAGS_YAW_LOCK : Nat := 16
def GIMBAL_DEVICE_FLAGS_YAW_IN_VEHICLE_FRAME : Nat := 32
def GIMBAL_DEVICE_FLAGS_YAW_IN_EARTH_FRAME : Nat := 64

def GIMBAL_MANAGER_FLAGS_ROLL_LOCK : Nat := 4
def GIMBAL_MANAGER_FLAGS_PITCH_LOCK : Nat := 8
def GIMBAL_MANAGER_FLAGS_YAW_LOCK : Nat := 16
def GIMBAL_MANAGER_FLAGS_YAW_IN_VEHICLE_FRAME : Nat := 32
def GIMBAL_MANAGER_FLAGS_YAW_IN_EARTH_FRAME : Nat := 64

/-- The four MAVLink commands the controller sends through `sendMavCommand`. -/
inductive MavCmd where
  | MAV_CMD_REQUEST_MESSAGE
  | MAV_CMD_SET_MESSAGE_INTERVAL
  | MAV_CMD_DO_GIMBAL_MANAGER_PITCHYAW
  | MAV_CMD_DO_GIMBAL_MANAGER_CONFIGURE
  deriving DecidableEq, Repr

/-- A `float` argument of an outbound command or message, kept as the source
writes it: `NAN`, a float expression, or an integer expression (an id, a flags
word, a message id, an interval) that C++ converts implicitly. -/
inductive Param (α : Type) where
  | nan
  | num (x : α)
  | int (n : Int)
  deriving DecidableEq

/-- One call `_vehicle->sendMavCommand(compId, command, showError, param1 .. param7)`. -/
structure MavCommand (α : Type) where
  compId : Nat
  command : MavCmd
  showError : Bool
  param1 : Param α
  param2 : Param α
  param3 : Param α
  param4 : Param α
  param5 : Param α
  param6 : Param α
  param7 : Param α
  deriving DecidableEq

/-- The arguments of `mavlink_msg_gimbal_manager_set_attitude_pack_chan`
that the controller supplies (the frame buffer apart). -/
structure GimbalManagerSetAttitude (α : Type) where
  systemId : Nat
  componentId : Nat
  chan : Nat
  targetSystem : Nat
  targetComponent : Nat
  flags : Nat
  gimbalDeviceId : Nat
  q : List (Param α)
  angularVelocityX : Param α
  angularVelocityY : Param α
  angularVelocityZ : Param α
  deriving DecidableEq

/-- The arguments of `mavlink_msg_gimbal_device_set_attitude_pack_chan`
that the controller supplies (the frame buffer apart). -/
structure GimbalDeviceSetAttitude (α : Type) where
  systemId : Nat
  componentId : Nat
  chan : Nat
  targetSystem : Nat
  targetComponent : Nat
  flags : Nat
  q : List (Param α)
  angularVelocityX : Param α
  angularVelocityY : Param α
  angularVelocityZ : Param α
  deriving DecidableEq

/-- Key of `_potentialGimbals`. -/
structure GimbalPairId where
  managerCompid : Nat
  deviceId : Nat
  deriving DecidableEq, Repr

/-- Everything the controller emits: commands and messages to the vehicle,
the fact group registration, and Qt signals. -/
inductive Output (α : Type) where
  | mavCommand (c : MavCommand α)
  | gimbalManagerSetAttitude (m : GimbalManagerSetAttitude α)
  | gimbalDeviceSetAttitude (m : GimbalDeviceSetAttitude α)
  | addFactGroup (pairId : GimbalPairId)
  | activeGimbalChanged
  | showAcquireGimbalControlPopup
  | gimbalMessageLogChanged
  deriving DecidableEq

/-- Attitude quaternion of `GIMBAL_DEVICE_ATTITUDE_STATUS`, `q[0] .. q[3]`. -/
structure Quat (α : Type) where
  w : α
  x : α
  y : α
  z : α
  deriving DecidableEq

/-- The decoded fields of an inbound frame that `_mavlinkMessageReceived`
dispatches on (`compid` is `message.compid`). -/
inductive Frame (α : Type) where
  | heartbeat (compid : Nat)
  | gimbalManagerInformation (compid gimbalDeviceId capFlags : Nat)
  | gimbalManagerStatus (compid gimbalDeviceId primaryControlSysid primaryControlCompid : Nat)
  | gimbalDeviceAttitudeStatus (compid gimbalDeviceId flags : Nat) (q : Quat α)
  | other (msgid : Nat)

/-! ## Data model -/

/-- Entry of `_potentialGimbalManagers`. -/
structure PotentialGimbalManager where
  receivedGimbalManagerInformation : Bool
  requestGimbalManagerInformationRetries : Nat
  deriving DecidableEq, Repr

/-- Modelled from the spec: the default-constructed `PotentialGimbalManager`
(declared in GimbalController.h, which is not among the sources); the spec's
data model gives `request_info_retries` the initial value 5. -/
def PotentialGimbalManager.new : PotentialGimbalManager :=
  { receivedGimbalManagerInformation := false
    requestGimbalManagerInformationRetries := 5 }

/-- The fields of a `Gimbal` that the controller reads or writes. -/
structure Gimbal (α : Type) where
  managerCompid : Nat
  deviceId : Nat
  capabilityFlags : Nat
  absoluteRoll : α
  absolutePitch : α
  bodyYaw : α
  absoluteYaw : α
  pitchRate : α
  yawRate : α
  yawLock : Bool
  retracted : Bool
  neutral : Bool
  gimbalHaveControl : Bool
  gimbalOthersHaveControl : Bool
  receivedGimbalManagerInformation : Bool
  receivedGimbalManagerStatus : Bool
  receivedGimbalDeviceAttitudeStatus : Bool
  isComplete : Bool
  requestInformationRetries : Nat
  requestStatusRetries : Nat
  requestAttitudeRetries : Nat
  deriving DecidableEq

/-- One line of the joystick message log (the formatted `QString`, field by field). -/
structure LogEntry (α : Type) where
  pitchAngle : α
  yawAngle : α
  q0 : α
  q1 : α
  q2 : α
  q3 : α
  deriving DecidableEq

/-- The settings facts of `GimbalControllerSettings` that the controller reads. -/
structure GimbalControllerSettings (α : Type) where
  CameraVFov : α
  CameraHFov : α
  CameraSlideSpeed : α
  joystickButtonsSpeed : Int
  joystickGimbalEnabled : Bool
  joystickGimbalPitchAxisIndex : Int
  joystickGimbalYawAxisIndex : Int
  joystickGimbalDeadband : α
  joystickGimbalExpo : α
  joystickGimbalSmoothing : α
  joystickGimbalPitchLimit : α
  joystickGimbalYawLimit : α

/-- What a call reads from its collaborators: the vehicle (parameters ready,
heading, id, primary link channel), `MAVLinkProtocol` (our system and
component id), the wall clock, the settings, and the library functions
`mavlink_quaternion_to_euler`, `qRadiansToDegrees`, `qDegreesToRadians`,
`std::cos`, `std::sin`, and the rounding of the `float` sums of the attitude
handler that a comparison follows. -/
structure Env (α : Type) where
  parametersReady : Bool
  now : Int
  heading : α
  systemId : Nat
  componentId : Nat
  vehicleId : Nat
  primaryLink : Option Nat
  settings : GimbalControllerSettings α
  /-- Function `mavlink_quaternion_to_euler` followed by `qRadiansToDegrees`: (roll, pitch, yaw) in degrees. -/
  eulerDegrees : Quat α → α × α × α
  degreesToRadians : α → α
  cos : α → α
  sin : α → α
  /-- The `float` nearest to a real number: the value of a `float` sum or
  difference is the rounded exact one (lines 259-261 and 270-272 compare the
  rounded value with the bound). -/
  roundFloat : α → α

/-! ## Tables

`_potentialGimbalManagers` and `_potentialGimbals` are association lists: a key
occurs once, `find` returns the value stored under it, `set` overwrites it or
adds the key.  Keys are never removed. -/

/-- Lookup of a key (the map's `find`). -/
def Table.find {κ ν : Type} [DecidableEq κ] : List (κ × ν) → κ → Option ν
  | [], _ => none
  | (k', v) :: t, k => if k' = k then some v else Table.find t k

/-- Modelled from the spec: the container type of the two tables is declared in
GimbalController.h, which is not among the sources, so the order in which
`std::find_if` walks `_potentialGimbals` is not known; the spec's reverse
lookup takes "any existing record".  The model walks the table in insertion
order: `set` overwrites the entry of a key that is present, in place, and adds a
new key at the end. -/
def Table.set {κ ν : Type} [DecidableEq κ] : List (κ × ν) → κ → ν → List (κ × ν)
  | [], k, v => [(k, v)]
  | (k', v') :: t, k, v => if k' = k then (k, v) :: t else (k', v') :: Table.set t k v

/-- The controller's member variables. -/
structure State (α : Type) where
  potentialGimbalManagers : List (Nat × PotentialGimbalManager)
  potentialGimbals : List (GimbalPairId × Gimbal α)
  activeGimbal : Option GimbalPairId
  /-- The exposed list `_gimbals` (a `QmlObjectListModel` of record pointers). -/
  gimbals : List GimbalPairId
  /-- The function-local `static qint64 lastRequestStatusMessage` of `_checkComplete`. -/
  lastRequestStatusMessage : Int
  rateSenderTimerActive : Bool
  joystickGimbalSendTimerActive : Bool
  joystickGimbalActive : Bool
  joystickPitchInput : α
  joystickYawInput : α
  joystickSmoothedPitch : α
  joystickSmoothedYaw : α
  gimbalMessageLog : List (LogEntry α)

section Model

variable {α : Type} [LinearOrderedField α]

/-- Modelled from the spec: the default-constructed `Gimbal` (declared in
Gimbal.h, which is not among the sources).  The spec's data model gives each of
the three retry budgets the initial value 5; ids, flags, pose and rates start
at zero and every boolean at false. -/
def Gimbal.new : Gimbal α :=
  { managerCompid := 0
    deviceId := 0
    capabilityFlags := 0
    absoluteRoll := 0
    absolutePitch := 0
    bodyYaw := 0
    absoluteYaw := 0
    pitchRate := 0
    yawRate := 0
    yawLock := false
    retracted := false
    neutral := false
    gimbalHaveControl := false
    gimbalOthersHaveControl := false
    receivedGimbalManagerInformation := false
    receivedGimbalManagerStatus := false
    receivedGimbalDeviceAttitudeStatus := false
    isComplete := false
    requestInformationRetries := 5
    requestStatusRetries := 5
    requestAttitudeRetries := 5 }

/-- Modelled from the spec: the controller right after its constructor.  The
member initialisers are in GimbalController.h, which is not among the sources;
the spec starts from "no state": empty tables, no active gimbal, zero joystick
inputs and smoothed values, empty log.  The constructor (lines 16-45) itself
only fixes the timer intervals, which no method reads, and leaves both timers
idle. -/
def State.empty : State α :=
  { potentialGimbalManagers := []
    potentialGimbals := []
    activeGimbal := none
    gimbals := []
    lastRequestStatusMessage := 0
    rateSenderTimerActive := false
    joystickGimbalSendTimerActive := false
    joystickGimbalActive := false
    joystickPitchInput := 0
    joystickYawInput := 0
    joystickSmoothedPitch := 0
    joystickSmoothedYaw := 0
    gimbalMessageLog := [] }

/-- The record `_activeGimbal` points to, if any. -/
def State.activeRecord (s : State α) : Option (Gimbal α) :=
  match s.activeGimbal with
  | none => none
  | some k => Table.find s.potentialGimbals k

/-- Apply a setter to the record `_activeGimbal` points to. -/
def State.modifyActive (s : State α) (f : Gimbal α → Gimbal α) : State α :=
  match s.activeGimbal with
  | none => s
  | some k =>
    match Table.find s.potentialGimbals k with
    | none => s
    | some g => { s with potentialGimbals := Table.set s.potentialGimbals k (f g) }

/-- Method `setActiveGimbal(gimbal)`, lines 52-64. -/
def setActiveGimbal (s : State α) (gimbal : Option GimbalPairId) : State α × List (Output α) :=
  match gimbal with
  | none => (s, [])
  | some g =>
    if some g ≠ s.activeGimbal then
      ({ s with activeGimbal := some g }, [Output.activeGimbalChanged])
    else
      (s, [])

/-- Method `_requestGimbalInformation(compid)`, lines 283-293. -/
def requestGimbalInformation (compid : Nat) : Output α :=
  Output.mavCommand
    { compId := compid
      command := MavCmd.MAV_CMD_REQUEST_MESSAGE
      showError := false
      param1 := Param.int MAVLINK_MSG_ID_GIMBAL_MANAGER_INFORMATION
      param2 := Param.num 0
      param3 := Param.num 0
      param4 := Param.num 0
      param5 := Param.num 0
      param6 := Param.num 0
      param7 := Param.num 0 }

/-- Method `_handleHeartbeat`, lines 92-107. -/
def handleHeartbeat (s : State α) (compid : Nat) : State α × List (Output α) :=
  let gimbalManager :=
    (Table.find s.potentialGimbalManagers compid).getD PotentialGimbalManager.new
  if gimbalManager.receivedGimbalManagerInformation = false ∧
      0 < gimbalManager.requestGimbalManagerInformationRetries then
    let gimbalManager := { gimbalManager with
      requestGimbalManagerInformationRetries :=
        gimbalManager.requestGimbalManagerInformationRetries - 1 }
    ({ s with potentialGimbalManagers := Table.set s.potentialGimbalManagers compid gimbalManager },
     [requestGimbalInformation compid])
  else
    ({ s with potentialGimbalManagers := Table.set s.potentialGimbalManagers compid gimbalManager },
     [])

/-- First block of `_checkComplete`, lines 302-305: probe for GIMBAL_MANAGER_INFORMATION. -/
def checkCompleteInformation (gimbal : Gimbal α) (pairId : GimbalPairId) :
    Gimbal α × List (Output α) :=
  if gimbal.receivedGimbalManagerInformation = false ∧ 0 < gimbal.requestInformationRetries then
    ({ gimbal with requestInformationRetries := gimbal.requestInformationRetries - 1 },
     [requestGimbalInformation pairId.managerCompid])
  else
    (gimbal, [])

/-- The SET_MESSAGE_INTERVAL(GIMBAL_MANAGER_STATUS) command of lines 311-315. -/
def requestStatusInterval (compid : Nat) (retries : Nat) : Output α :=
  Output.mavCommand
    { compId := compid
      command := MavCmd.MAV_CMD_SET_MESSAGE_INTERVAL
      showError := false
      param1 := Param.int MAVLINK_MSG_ID_GIMBAL_MANAGER_STATUS
      param2 := Param.int (if 2 < retries then 0 else 5000000)
      param3 := Param.num 0
      param4 := Param.num 0
      param5 := Param.num 0
      param6 := Param.num 0
      param7 := Param.num 0 }

/-- Second block of `_checkComplete`, lines 306-321: throttled probe for
GIMBAL_MANAGER_STATUS.  Returns the record and the new value of the static
`lastRequestStatusMessage`. -/
def checkCompleteStatus (now last : Int) (gimbal : Gimbal α) (pairId : GimbalPairId) :
    Gimbal α × Int × List (Output α) :=
  if gimbal.receivedGimbalManagerStatus = false ∧ 0 < gimbal.requestStatusRetries ∧
      1000 < now - last then
    ({ gimbal with requestStatusRetries := gimbal.requestStatusRetries - 1 },
     now,
     [requestStatusInterval pairId.managerCompid gimbal.requestStatusRetries])
  else
    (gimbal, last, [])

/-- The SET_MESSAGE_INTERVAL(GIMBAL_DEVICE_ATTITUDE_STATUS) command of lines 333-337. -/
def requestAttitudeInterval (compid : Nat) : Output α :=
  Output.mavCommand
    { compId := compid
      command := MavCmd.MAV_CMD_SET_MESSAGE_INTERVAL
      showError := false
      param1 := Param.int MAVLINK_MSG_ID_GIMBAL_DEVICE_ATTITUDE_STATUS
      param2 := Param.int 0
      param3 := Param.num 0
      param4 := Param.num 0
      param5 := Param.num 0
      param6 := Param.num 0
      param7 := Param.num 0 }

/-- Third block of `_checkComplete`, lines 323-340: probe for
GIMBAL_DEVICE_ATTITUDE_STATUS. -/
def checkCompleteAttitude (gimbal : Gimbal α) (pairId : GimbalPairId) :
    Gimbal α × List (Output α) :=
  if gimbal.receivedGimbalDeviceAttitudeStatus = false ∧ 0 < gimbal.requestAttitudeRetries ∧
      gimbal.receivedGimbalManagerInformation = true ∧ pairId.deviceId ≠ 0 then
    let gimbalDeviceCompid := if pairId.deviceId ≤ 6 then pairId.managerCompid else pairId.deviceId
    ({ gimbal with requestAttitudeRetries := gimbal.requestAttitudeRetries - 1 },
     [requestAttitudeInterval gimbalDeviceCompid])
  else
    (gimbal, [])

/-- Method `_checkComplete(gimbal, pairId)`, lines 295-357.  `gimbal` is the record
stored under `pairId` as the calling handler has just updated it; the result
stores it back. -/
def checkComplete (env : Env α) (s : State α) (gimbal : Gimbal α) (pairId : GimbalPairId) :
    State α × List (Output α) :=
  if gimbal.isComplete = true then
    ({ s with potentialGimbals := Table.set s.potentialGimbals pairId gimbal }, [])
  else
    let r1 := checkCompleteInformation gimbal pairId
    let r2 := checkCompleteStatus env.now s.lastRequestStatusMessage r1.1 pairId
    let r3 := checkCompleteAttitude r2.1 pairId
    let gimbal3 := r3.1
    let probes := r1.2 ++ r2.2.2 ++ r3.2
    let s1 := { s with lastRequestStatusMessage := r2.2.1 }
    if gimbal3.receivedGimbalManagerInformation = false ∨
        gimbal3.receivedGimbalManagerStatus = false ∨
        gimbal3.receivedGimbalDeviceAttitudeStatus = false then
      ({ s1 with potentialGimbals := Table.set s1.potentialGimbals pairId gimbal3 }, probes)
    else
      let s2 := { s1 with
        potentialGimbals := Table.set s1.potentialGimbals pairId { gimbal3 with isComplete := true } }
      let r4 := if s2.activeGimbal = none then setActiveGimbal s2 (some pairId) else (s2, [])
      ({ r4.1 with gimbals := r4.1.gimbals ++ [pairId] },
       probes ++ r4.2 ++ [Output.addFactGroup pairId])

/-- Method `_handleGimbalManagerInformation`, lines 109-145. -/
def handleGimbalManagerInformation (env : Env α) (s : State α)
    (compid gimbalDeviceId capFlags : Nat) : State α × List (Output α) :=
  if gimbalDeviceId = 0 then
    (s, [])
  else
    let pairId : GimbalPairId := { managerCompid := compid, deviceId := gimbalDeviceId }
    let gimbal := (Table.find s.potentialGimbals pairId).getD Gimbal.new
    let gimbal := { gimbal with
      managerCompid := compid
      deviceId := gimbalDeviceId
      capabilityFlags := capFlags
      receivedGimbalManagerInformation := true }
    let gimbalManager :=
      (Table.find s.potentialGimbalManagers compid).getD PotentialGimbalManager.new
    let gimbalManager := { gimbalManager with receivedGimbalManagerInformation := true }
    let s1 := { s with
      potentialGimbalManagers := Table.set s.potentialGimbalManagers compid gimbalManager }
    checkComplete env s1 gimbal pairId

/-- Method `_handleGimbalManagerStatus`, lines 147-204. -/
def handleGimbalManagerStatus (env : Env α) (s : State α)
    (compid gimbalDeviceId primaryControlSysid primaryControlCompid : Nat) :
    State α × List (Output α) :=
  if gimbalDeviceId = 0 then
    (s, [])
  else
    let pairId : GimbalPairId := { managerCompid := compid, deviceId := gimbalDeviceId }
    let gimbal := (Table.find s.potentialGimbals pairId).getD Gimbal.new
    let gimbal := if gimbal.deviceId = 0 then { gimbal with deviceId := gimbalDeviceId } else gimbal
    let gimbal := if gimbal.managerCompid = 0 then { gimbal with managerCompid := compid } else gimbal
    let haveControl : Bool :=
      decide (primaryControlSysid = env.systemId) && decide (primaryControlCompid = env.componentId)
    let othersHaveControl : Bool :=
      !haveControl && (decide (primaryControlSysid ≠ 0) && decide (primaryControlCompid ≠ 0))
    let gimbal := { gimbal with
      receivedGimbalManagerStatus := true
      gimbalHaveControl := haveControl
      gimbalOthersHaveControl := othersHaveControl }
    checkComplete env s gimbal pairId

/-- Method `_yawInVehicleFrame(flags)`, lines 378-388. -/
def yawInVehicleFrame (flags : Nat) : Bool :=
  if 0 < flags &&& GIMBAL_DEVICE_FLAGS_YAW_IN_VEHICLE_FRAME then
    true
  else if 0 < flags &&& GIMBAL_DEVICE_FLAGS_YAW_IN_EARTH_FRAME then
    false
  else
    decide (flags &&& GIMBAL_DEVICE_FLAGS_YAW_LOCK = 0)

/-- Lines 211-237 of `_handleGimbalDeviceAttitudeStatus`: the pair a frame is
about, `none` when the frame is dropped.  The reverse lookup takes the first
record, in table order, whose stored device id is the frame's compid. -/
def attitudePairId (s : State α) (compid gimbalDeviceId : Nat) : Option GimbalPairId :=
  if gimbalDeviceId = 0 then
    match s.potentialGimbals.find? (fun kv => decide (kv.2.deviceId = compid)) with
    | none => none
    | some foundGimbal => some { managerCompid := foundGimbal.1.managerCompid, deviceId := compid }
  else if gimbalDeviceId ≤ 6 then
    some { managerCompid := compid, deviceId := gimbalDeviceId }
  else
    none

/-- Method `_handleGimbalDeviceAttitudeStatus`, lines 206-281. -/
def handleGimbalDeviceAttitudeStatus (env : Env α) (s : State α)
    (compid gimbalDeviceId flags : Nat) (q : Quat α) : State α × List (Output α) :=
  match attitudePairId s compid gimbalDeviceId with
  | none => (s, [])
  | some pairId =>
    let gimbal := (Table.find s.potentialGimbals pairId).getD Gimbal.new
    let euler := env.eulerDegrees q
    let roll := euler.1
    let pitch := euler.2.1
    let yaw := euler.2.2
    let gimbal := { gimbal with
      retracted := decide (0 < flags &&& GIMBAL_DEVICE_FLAGS_RETRACT)
      yawLock := decide (0 < flags &&& GIMBAL_DEVICE_FLAGS_YAW_LOCK)
      neutral := decide (0 < flags &&& GIMBAL_DEVICE_FLAGS_NEUTRAL)
      absoluteRoll := roll
      absolutePitch := pitch }
    let gimbal :=
      if yawInVehicleFrame flags = true then
        let bodyYaw := yaw
        let absoluteYaw := env.roundFloat (bodyYaw + env.heading)
        let absoluteYaw :=
          if 180 < absoluteYaw then env.roundFloat (absoluteYaw - 360) else absoluteYaw
        { gimbal with bodyYaw := bodyYaw, absoluteYaw := absoluteYaw }
      else
        let absoluteYaw := yaw
        let bodyYaw := env.roundFloat (absoluteYaw - env.heading)
        let bodyYaw := if bodyYaw < -180 then env.roundFloat (bodyYaw + 360) else bodyYaw
        { gimbal with bodyYaw := bodyYaw, absoluteYaw := absoluteYaw }
    let gimbal := { gimbal with receivedGimbalDeviceAttitudeStatus := true }
    checkComplete env s gimbal pairId

/-- Method `_mavlinkMessageReceived`, lines 66-90. -/
def mavlinkMessageReceived (env : Env α) (s : State α) (message : Frame α) :
    State α × List (Output α) :=
  if env.parametersReady = false then
    (s, [])
  else
    match message with
    | Frame.heartbeat compid => handleHeartbeat s compid
    | Frame.gimbalManagerInformation compid dev cap =>
      handleGimbalManagerInformation env s compid dev cap
    | Frame.gimbalManagerStatus compid dev psys pcomp =>
      handleGimbalManagerStatus env s compid dev psys pcomp
    | Frame.gimbalDeviceAttitudeStatus compid dev flags q =>
      handleGimbalDeviceAttitudeStatus env s compid dev flags q
    | Frame.other _ => (s, [])

/-! ## Command issuer -/

/-- Method `acquireGimbalControl`, lines 701-719 (the controller is not modified). -/
def acquireGimbalControl (env : Env α) (s : State α) : List (Output α) :=
  match s.activeRecord with
  | none => []
  | some g =>
    [Output.mavCommand
      { compId := g.managerCompid
        command := MavCmd.MAV_CMD_DO_GIMBAL_MANAGER_CONFIGURE
        showError := true
        param1 := Param.int env.systemId
        param2 := Param.int env.componentId
        param3 := Param.num (-1)
        param4 := Param.num (-1)
        param5 := Param.nan
        param6 := Param.nan
        param7 := Param.int g.deviceId }]

/-- Method `releaseGimbalControl`, lines 721-739 (the controller is not modified). -/
def releaseGimbalControl (s : State α) : List (Output α) :=
  match s.activeRecord with
  | none => []
  | some g =>
    [Output.mavCommand
      { compId := g.managerCompid
        command := MavCmd.MAV_CMD_DO_GIMBAL_MANAGER_CONFIGURE
        showError := true
        param1 := Param.num (-3)
        param2 := Param.num (-3)
        param3 := Param.num (-1)
        param4 := Param.num (-1)
        param5 := Param.nan
        param6 := Param.nan
        param7 := Param.int g.deviceId }]

/-- Method `_tryGetGimbalControl`, lines 359-376: the returned bool and what was
emitted (the controller is not modified). -/
def tryGetGimbalControl (env : Env α) (s : State α) : Bool × List (Output α) :=
  match s.activeRecord with
  | none => (false, [])
  | some g =>
    if g.gimbalOthersHaveControl = true then
      (false, [Output.showAcquireGimbalControlPopup])
    else if g.gimbalHaveControl = false then
      (true, acquireGimbalControl env s)
    else
      (true, [])

/-- The DO_GIMBAL_MANAGER_PITCHYAW command sent to the active gimbal's manager,
with the gimbal's device id as seventh parameter. -/
def pitchYawCommand (g : Gimbal α) (showError : Bool) (p1 p2 p3 p4 : Param α) (flags : Nat) :
    Output α :=
  Output.mavCommand
    { compId := g.managerCompid
      command := MavCmd.MAV_CMD_DO_GIMBAL_MANAGER_PITCHYAW
      showError := showError
      param1 := p1
      param2 := p2
      param3 := p3
      param4 := p4
      param5 := Param.int flags
      param6 := Param.int 0
      param7 := Param.int g.deviceId }

/-- Method `sendPitchBodyYaw(pitch, yaw, showError)`, lines 490-517. -/
def sendPitchBodyYaw (env : Env α) (s : State α) (pitch yaw : α) (showError : Bool) :
    State α × List (Output α) :=
  let r := tryGetGimbalControl env s
  if r.1 = false then
    (s, r.2)
  else
    let s1 := { s with rateSenderTimerActive := false }
    let s2 := s1.modifyActive (fun g => { g with absolutePitch := 0 })
    let s3 := s2.modifyActive (fun g => { g with yawRate := 0 })
    let flags := GIMBAL_MANAGER_FLAGS_ROLL_LOCK ||| GIMBAL_MANAGER_FLAGS_PITCH_LOCK |||
      GIMBAL_MANAGER_FLAGS_YAW_IN_VEHICLE_FRAME
    match s3.activeRecord with
    | none => (s3, r.2)
    | some g =>
      (s3, r.2 ++ [pitchYawCommand g showError (Param.num pitch) (Param.num yaw) Param.nan
                    Param.nan flags])

/-- Method `sendPitchAbsoluteYaw(pitch, yaw, showError)`, lines 519-555. -/
def sendPitchAbsoluteYaw (env : Env α) (s : State α) (pitch yaw : α) (showError : Bool) :
    State α × List (Output α) :=
  let r := tryGetGimbalControl env s
  if r.1 = false then
    (s, r.2)
  else
    let s1 := { s with rateSenderTimerActive := false }
    let s2 := s1.modifyActive (fun g => { g with absolutePitch := 0 })
    let s3 := s2.modifyActive (fun g => { g with yawRate := 0 })
    let yaw := if 180 < yaw then yaw - 360 else yaw
    let yaw := if yaw < -180 then yaw + 360 else yaw
    let flags := GIMBAL_MANAGER_FLAGS_ROLL_LOCK ||| GIMBAL_MANAGER_FLAGS_PITCH_LOCK |||
      GIMBAL_MANAGER_FLAGS_YAW_LOCK ||| GIMBAL_MANAGER_FLAGS_YAW_IN_EARTH_FRAME
    match s3.activeRecord with
    | none => (s3, r.2)
    | some g =>
      (s3, r.2 ++ [pitchYawCommand g showError (Param.num pitch) (Param.num yaw) Param.nan
                    Param.nan flags])

/-- Method `sendPitchYawFlags(flags)`, lines 684-699.  The source dereferences
`_activeGimbal` without a test: `none` is the null dereference. -/
def sendPitchYawFlags (s : State α) (flags : Nat) : Option (List (Output α)) :=
  match s.activeRecord with
  | none => none
  | some g =>
    let yaw_in_vehicle_frame := yawInVehicleFrame flags
    some [pitchYawCommand g true (Param.num g.absolutePitch)
            (Param.num (if yaw_in_vehicle_frame = true then g.bodyYaw else g.absoluteYaw))
            Param.nan Param.nan flags]

/-- Method `setGimbalRetract(set)`, lines 557-571; `~` is taken on 32 bits. -/
def setGimbalRetract (env : Env α) (s : State α) (set : Bool) :
    Option (State α × List (Output α)) :=
  let r := tryGetGimbalControl env s
  if r.1 = false then
    some (s, r.2)
  else
    let flags : Nat := 0
    let flags :=
      if set = true then flags ||| GIMBAL_DEVICE_FLAGS_RETRACT
      else flags &&& (4294967295 - GIMBAL_DEVICE_FLAGS_RETRACT)
    (sendPitchYawFlags s flags).map (fun o => (s, r.2 ++ o))

/-- Method `setGimbalYawLock(set)`, lines 669-682. -/
def setGimbalYawLock (env : Env α) (s : State α) (set : Bool) :
    Option (State α × List (Output α)) :=
  let r := tryGetGimbalControl env s
  if r.1 = false then
    some (s, r.2)
  else
    let flags := GIMBAL_DEVICE_FLAGS_ROLL_LOCK ||| GIMBAL_DEVICE_FLAGS_PITCH_LOCK
    let flags := if set = true then flags ||| GIMBAL_DEVICE_FLAGS_YAW_LOCK else flags
    (sendPitchYawFlags s flags).map (fun o => (s, r.2 ++ o))

/-- Method `sendRate`, lines 573-605. -/
def sendRate (env : Env α) (s : State α) : State α × List (Output α) :=
  let r := tryGetGimbalControl env s
  if r.1 = false then
    (s, r.2)
  else
    match s.activeRecord with
    | none => (s, r.2)
    | some g =>
      let flags := GIMBAL_MANAGER_FLAGS_ROLL_LOCK ||| GIMBAL_MANAGER_FLAGS_PITCH_LOCK
      let flags := if g.yawLock = true then flags ||| GIMBAL_MANAGER_FLAGS_YAW_LOCK else flags
      let out := r.2 ++ [pitchYawCommand g false Param.nan Param.nan (Param.num g.pitchRate)
                          (Param.num g.yawRate) flags]
      if g.pitchRate = 0 ∧ g.yawRate = 0 then
        ({ s with rateSenderTimerActive := false }, out)
      else
        ({ s with rateSenderTimerActive := true }, out)

/-- Method `_rateSenderTimeout`, lines 663-667. -/
def rateSenderTimeout (env : Env α) (s : State α) : State α × List (Output α) :=
  sendRate env s

/-- Method `_sendGimbalAttitudeRates`, lines 622-661 (the controller is not modified). -/
def sendGimbalAttitudeRates (env : Env α) (s : State α) (pitch_rate_deg_s yaw_rate_deg_s : α) :
    List (Output α) :=
  match env.primaryLink with
  | none => []
  | some chan =>
    match s.activeRecord with
    | none => []
    | some g =>
      let flags := GIMBAL_MANAGER_FLAGS_ROLL_LOCK ||| GIMBAL_MANAGER_FLAGS_PITCH_LOCK |||
        GIMBAL_MANAGER_FLAGS_YAW_IN_VEHICLE_FRAME
      let flags := if g.yawLock = true then flags ||| GIMBAL_MANAGER_FLAGS_YAW_LOCK else flags
      [Output.gimbalManagerSetAttitude
        { systemId := env.systemId
          componentId := env.componentId
          chan := chan
          targetSystem := env.vehicleId
          targetComponent := g.managerCompid % 256
          flags := flags
          gimbalDeviceId := g.deviceId % 256
          q := [Param.nan, Param.nan, Param.nan, Param.nan]
          angularVelocityX := Param.nan
          angularVelocityY := Param.num (env.degreesToRadians pitch_rate_deg_s)
          angularVelocityZ := Param.num (env.degreesToRadians yaw_rate_deg_s) }]

/-- Method `sendGimbalRate`, lines 607-620. -/
def sendGimbalRate (env : Env α) (s : State α) (pitch_rate_deg_s yaw_rate_deg_s : α) :
    State α × List (Output α) :=
  let r := tryGetGimbalControl env s
  if r.1 = false then
    (s, r.2)
  else
    let out := r.2 ++ sendGimbalAttitudeRates env s pitch_rate_deg_s yaw_rate_deg_s
    if pitch_rate_deg_s = 0 ∧ yaw_rate_deg_s = 0 then
      ({ s with rateSenderTimerActive := false }, out)
    else
      ({ s with rateSenderTimerActive := true }, out)

/-- Method `gimbalPitchStart(direction)`, lines 390-401. -/
def gimbalPitchStart (env : Env α) (s : State α) (direction : Int) : State α × List (Output α) :=
  match s.activeGimbal with
  | none => (s, [])
  | some _ =>
    let speed : α := (env.settings.joystickButtonsSpeed : α)
    sendRate env (s.modifyActive (fun g => { g with pitchRate := (direction : α) * speed }))

/-- Method `gimbalYawStart(direction)`, lines 403-413. -/
def gimbalYawStart (env : Env α) (s : State α) (direction : Int) : State α × List (Output α) :=
  match s.activeGimbal with
  | none => (s, [])
  | some _ =>
    let speed : α := (env.settings.joystickButtonsSpeed : α)
    sendRate env (s.modifyActive (fun g => { g with yawRate := (direction : α) * speed }))

/-- Method `gimbalPitchStop`, lines 415-424. -/
def gimbalPitchStop (env : Env α) (s : State α) : State α × List (Output α) :=
  match s.activeGimbal with
  | none => (s, [])
  | some _ => sendRate env (s.modifyActive (fun g => { g with pitchRate := 0 }))

/-- Method `gimbalYawStop`, lines 426-435. -/
def gimbalYawStop (env : Env α) (s : State α) : State α × List (Output α) :=
  match s.activeGimbal with
  | none => (s, [])
  | some _ => sendRate env (s.modifyActive (fun g => { g with yawRate := 0 }))

/-- Method `centerGimbal`, lines 437-444. -/
def centerGimbal (env : Env α) (s : State α) : State α × List (Output α) :=
  match s.activeGimbal with
  | none => (s, [])
  | some _ => sendPitchBodyYaw env s 0 0 true

/-- Method `gimbalOnScreenControl`, lines 446-488 (the last four arguments are unused). -/
def gimbalOnScreenControl (env : Env α) (s : State α) (panPct tiltPct : α)
    (clickAndPoint clickAndDrag : Bool) : State α × List (Output α) :=
  match s.activeRecord with
  | none => (s, [])
  | some g =>
    if clickAndPoint = true then
      let hFov := env.settings.CameraHFov
      let vFov := env.settings.CameraVFov
      let panIncDesired := panPct * hFov * (1 / 2)
      let tiltIncDesired := tiltPct * vFov * (1 / 2)
      let panDesired := panIncDesired + g.bodyYaw
      let tiltDesired := tiltIncDesired + g.absolutePitch
      if g.yawLock = true then
        sendPitchAbsoluteYaw env s tiltDesired (panDesired + env.heading) false
      else
        sendPitchBodyYaw env s tiltDesired panDesired false
    else if clickAndDrag = true then
      let maxSpeed := env.settings.CameraSlideSpeed
      let panIncDesired := panPct * maxSpeed * (1 / 10)
      let tiltIncDesired := tiltPct * maxSpeed * (1 / 10)
      let panDesired := panIncDesired + g.bodyYaw
      let tiltDesired := tiltIncDesired + g.absolutePitch
      if g.yawLock = true then
        sendPitchAbsoluteYaw env s tiltDesired (panDesired + env.heading) false
      else
        sendPitchBodyYaw env s tiltDesired panDesired false
    else
      (s, [])

/-! ## Joystick pipeline -/

/-- Function `std::copysign(y, value)` in exact arithmetic (zero counts as positive). -/
def copysign (y value : α) : α :=
  if value < 0 then -|y| else |y|

/-- Method `_applyDeadband(value, deadband)`, lines 741-748. -/
def applyDeadband (value deadband : α) : α :=
  if |value| ≤ deadband then
    0
  else
    let y := (|value| - deadband) / (1 - deadband)
    copysign y value

/-- Method `_applyExpo(value, expo)`, lines 750-753. -/
def applyExpo (value expo : α) : α :=
  (1 - expo) * value + expo * (value * value * value)

/-- The expression `(idx < axisValues.size()) ? axisValues[idx] : 0.0f` of lines
777-778, with `int idx`: `none` is an access outside the vector. -/
def axisValue (idx : Int) (axisValues : List α) : Option α :=
  if idx < (axisValues.length : Int) then
    if 0 ≤ idx then axisValues[idx.toNat]? else none
  else
    some 0

/-- Method `_handleJoystickGimbalInput(axisValues)`, lines 762-802; `none` when an
axis read falls outside the vector. -/
def handleJoystickGimbalInput (env : Env α) (s : State α) (axisValues : List α) :
    Option (State α × List (Output α)) :=
  let settings := env.settings
  if settings.joystickGimbalEnabled = false then
    some (s, [])
  else
    let pitchIdx := settings.joystickGimbalPitchAxisIndex
    let yawIdx := settings.joystickGimbalYawAxisIndex
    match axisValue pitchIdx axisValues, axisValue yawIdx axisValues with
    | some pitchAxis, some yawAxis =>
      let deadband := settings.joystickGimbalDeadband
      let expo := settings.joystickGimbalExpo
      let processedPitch := applyExpo (applyDeadband pitchAxis deadband) expo
      let processedYaw := applyExpo (applyDeadband yawAxis deadband) expo
      let s1 := { s with joystickPitchInput := processedPitch, joystickYawInput := processedYaw }
      let hasInput : Bool := decide ((1 / 1000 : α) < |processedPitch|) || decide ((1 / 1000 : α) < |processedYaw|)
      if hasInput = true ∧ s1.joystickGimbalSendTimerActive = false then
        some ({ s1 with joystickGimbalActive := true, joystickGimbalSendTimerActive := true }, [])
      else
        some (s1, [])
    | _, _ => none

/-- Modelled from the spec: the constant `_maxLogEntries` (declared in
GimbalController.h, which is not among the sources); the spec keeps "the most
recent 100 entries". -/
def maxLogEntries : Nat := 100

/-- The loop `while (size() > _maxLogEntries) removeLast()` of lines 899-901,
run for at most `fuel` iterations. -/
def removeLastWhile {μ : Type} (fuel : Nat) (log : List μ) : List μ :=
  match fuel with
  | 0 => log
  | fuel + 1 => if maxLogEntries < log.length then removeLastWhile fuel log.dropLast else log

/-- Method `_addMessageLog(message)`, lines 896-903: the new log (the caller emits
`gimbalMessageLogChanged`).  The loop ends within `size()` iterations. -/
def addMessageLog {μ : Type} (log : List μ) (message : μ) : List μ :=
  removeLastWhile (message :: log).length (message :: log)

/-- Method `clearMessageLog`, lines 905-909. -/
def clearMessageLog (s : State α) : State α × List (Output α) :=
  ({ s with gimbalMessageLog := [] }, [Output.gimbalMessageLogChanged])

/-- Method `_sendJoystickGimbalCommand`, lines 809-894. -/
def sendJoystickGimbalCommand (env : Env α) (s : State α) : State α × List (Output α) :=
  match s.activeRecord with
  | none => (s, [])
  | some g =>
    let r := tryGetGimbalControl env s
    if r.1 = false then
      (s, r.2)
    else
      match env.primaryLink with
      | none => (s, r.2)
      | some chan =>
        let settings := env.settings
        let smoothingAlpha := settings.joystickGimbalSmoothing
        let pitchLimit := settings.joystickGimbalPitchLimit
        let yawLimit := settings.joystickGimbalYawLimit
        let smoothedPitch :=
          smoothingAlpha * s.joystickPitchInput + (1 - smoothingAlpha) * s.joystickSmoothedPitch
        let smoothedYaw :=
          smoothingAlpha * s.joystickYawInput + (1 - smoothingAlpha) * s.joystickSmoothedYaw
        let s1 := { s with joystickSmoothedPitch := smoothedPitch, joystickSmoothedYaw := smoothedYaw }
        let pitchAngle := -smoothedPitch * pitchLimit
        let yawAngle := smoothedYaw * yawLimit
        let inputActive : Bool :=
          decide ((1 / 1000 : α) < |s1.joystickPitchInput|) || decide ((1 / 1000 : α) < |s1.joystickYawInput|)
        let smoothedActive : Bool :=
          decide ((1 / 1000 : α) < |smoothedPitch|) || decide ((1 / 1000 : α) < |smoothedYaw|)
        if inputActive = false ∧ smoothedActive = false then
          ({ s1 with joystickGimbalSendTimerActive := false, joystickGimbalActive := false }, r.2)
        else
          let roll : α := 0
          let pitch := env.degreesToRadians pitchAngle
          let yaw := env.degreesToRadians yawAngle
          let cr := env.cos (roll / 2)
          let sr := env.sin (roll / 2)
          let cp := env.cos (pitch / 2)
          let sp := env.sin (pitch / 2)
          let cy := env.cos (yaw / 2)
          let sy := env.sin (yaw / 2)
          let q0 := cr * cp * cy + sr * sp * sy
          let q1 := sr * cp * cy - cr * sp * sy
          let q2 := cr * sp * cy + sr * cp * sy
          let q3 := cr * cp * sy - sr * sp * cy
          let msg : GimbalDeviceSetAttitude α :=
            { systemId := env.systemId
              componentId := env.componentId
              chan := chan
              targetSystem := env.vehicleId
              targetComponent := g.managerCompid % 256
              flags := GIMBAL_DEVICE_FLAGS_ROLL_LOCK ||| GIMBAL_DEVICE_FLAGS_PITCH_LOCK |||
                GIMBAL_DEVICE_FLAGS_YAW_IN_VEHICLE_FRAME
              q := [Param.num q0, Param.num q1, Param.num q2, Param.num q3]
              angularVelocityX := Param.nan
              angularVelocityY := Param.nan
              angularVelocityZ := Param.nan }
          let logMsg : LogEntry α :=
            { pitchAngle := pitchAngle, yawAngle := yawAngle, q0 := q0, q1 := q1, q2 := q2, q3 := q3 }
          ({ s1 with gimbalMessageLog := addMessageLog s1.gimbalMessageLog logMsg },
           r.2 ++ [Output.gimbalDeviceSetAttitude msg, Output.gimbalMessageLogChanged])

/-- Method `_joystickGimbalSendTimeout`, lines 804-807. -/
def joystickGimbalSendTimeout (env : Env α) (s : State α) : State α × List (Output α) :=
  sendJoystickGimbalCommand env s

/-! ## Calls -/

/-- The entry points of the controller: the inbound-frame slot, the public
command methods, the timer slots and the joystick slot. -/
inductive Call (α : Type) where
  | mavlinkMessageReceived (message : Frame α)
  | setActiveGimbal (gimbal : Option GimbalPairId)
  | gimbalPitchStart (direction : Int)
  | gimbalYawStart (direction : Int)
  | gimbalPitchStop
  | gimbalYawStop
  | centerGimbal
  | gimbalOnScreenControl (panPct tiltPct : α) (clickAndPoint clickAndDrag : Bool)
  | sendPitchBodyYaw (pitch yaw : α) (showError : Bool)
  | sendPitchAbsoluteYaw (pitch yaw : α) (showError : Bool)
  | setGimbalRetract (set : Bool)
  | sendRate
  | sendGimbalRate (pitch_rate_deg_s yaw_rate_deg_s : α)
  | rateSenderTimeout
  | setGimbalYawLock (set : Bool)
  | sendPitchYawFlags (flags : Nat)
  | acquireGimbalControl
  | releaseGimbalControl
  | handleJoystickGimbalInput (axisValues : List α)
  | joystickGimbalSendTimeout
  | clearMessageLog

/-- Run one call; `none` when the source runs into undefined behaviour (the
null dereference of `sendPitchYawFlags`, an axis read outside the vector). -/
def step (env : Env α) (s : State α) : Call α → Option (State α × List (Output α))
  | Call.mavlinkMessageReceived message => some (mavlinkMessageReceived env s message)
  | Call.setActiveGimbal gimbal => some (setActiveGimbal s gimbal)
  | Call.gimbalPitchStart direction => some (gimbalPitchStart env s direction)
  | Call.gimbalYawStart direction => some (gimbalYawStart env s direction)
  | Call.gimbalPitchStop => some (gimbalPitchStop env s)
  | Call.gimbalYawStop => some (gimbalYawStop env s)
  | Call.centerGimbal => some (centerGimbal env s)
  | Call.gimbalOnScreenControl panPct tiltPct clickAndPoint clickAndDrag =>
    some (gimbalOnScreenControl env s panPct tiltPct clickAndPoint clickAndDrag)
  | Call.sendPitchBodyYaw pitch yaw showError => some (sendPitchBodyYaw env s pitch yaw showError)
  | Call.sendPitchAbsoluteYaw pitch yaw showError =>
    some (sendPitchAbsoluteYaw env s pitch yaw showError)
  | Call.setGimbalRetract set => setGimbalRetract env s set
  | Call.sendRate => some (sendRate env s)
  | Call.sendGimbalRate p y => some (sendGimbalRate env s p y)
  | Call.rateSenderTimeout => some (rateSenderTimeout env s)
  | Call.setGimbalYawLock set => setGimbalYawLock env s set
  | Call.sendPitchYawFlags flags => (sendPitchYawFlags s flags).map (fun o => (s, o))
  | Call.acquireGimbalControl => some (s, acquireGimbalControl env s)
  | Call.releaseGimbalControl => some (s, releaseGimbalControl s)
  | Call.handleJoystickGimbalInput axisValues => handleJoystickGimbalInput env s axisValues
  | Call.joystickGimbalSendTimeout => some (joystickGimbalSendTimeout env s)
  | Call.clearMessageLog => some (clearMessageLog s)

/-- Deliver a sequence of inbound frames, each with the environment read while
it is handled; the result is the final controller and everything emitted. -/
def receiveAll (s : State α) : List (Env α × Frame α) → State α × List (Output α)
  | [] => (s, [])
  | (env, message) :: rest =>
    let r := mavlinkMessageReceived env s message
    let r2 := receiveAll r.1 rest
    (r2.1, r.2 ++ r2.2)

/-! ## Observations on runs

Definitions used to state the properties: what a frame is about, which outputs
are discovery probes, and the closed form of what `_checkComplete` does to the
record it is given. -/

/-- The pair whose record a frame updates, that is, the `pairId` of the
`_checkComplete` call its handler ends with; `none` for a heartbeat, for a
message id the controller ignores and for a frame its handler drops. -/
def framePairId (s : State α) : Frame α → Option GimbalPairId
  | Frame.heartbeat _ => none
  | Frame.gimbalManagerInformation compid gimbalDeviceId _ =>
    if gimbalDeviceId = 0 then none else some { managerCompid := compid, deviceId := gimbalDeviceId }
  | Frame.gimbalManagerStatus compid gimbalDeviceId _ _ =>
    if gimbalDeviceId = 0 then none else some { managerCompid := compid, deviceId := gimbalDeviceId }
  | Frame.gimbalDeviceAttitudeStatus compid gimbalDeviceId _ _ =>
    attitudePairId s compid gimbalDeviceId
  | Frame.other _ => none

/-- The record `_checkComplete` leaves under `pairId`. -/
def checkCompleteRecord (now last : Int) (gimbal : Gimbal α) (pairId : GimbalPairId) : Gimbal α :=
  if gimbal.isComplete = true then
    gimbal
  else
    let g3 := (checkCompleteAttitude (checkCompleteStatus now last
      (checkCompleteInformation gimbal pairId).1 pairId).1 pairId).1
    if g3.receivedGimbalManagerInformation = false ∨ g3.receivedGimbalManagerStatus = false ∨
        g3.receivedGimbalDeviceAttitudeStatus = false then
      g3
    else
      { g3 with isComplete := true }

/-- The three discovery flags of a record are all set. -/
def Gimbal.allReceived (g : Gimbal α) : Bool :=
  g.receivedGimbalManagerInformation && g.receivedGimbalManagerStatus &&
    g.receivedGimbalDeviceAttitudeStatus

/-- A record is stored under `p` and it is complete. -/
def State.isCompleteAt (s : State α) (p : GimbalPairId) : Prop :=
  ∃ g, Table.find s.potentialGimbals p = some g ∧ g.isComplete = true

/-- An output is one of the discovery probes: REQUEST_MESSAGE or SET_MESSAGE_INTERVAL. -/
def isProbe : Output α → Bool
  | Output.mavCommand c =>
    decide (c.command = MavCmd.MAV_CMD_REQUEST_MESSAGE) ||
      decide (c.command = MavCmd.MAV_CMD_SET_MESSAGE_INTERVAL)
  | _ => false

/-- An output is SET_MESSAGE_INTERVAL(GIMBAL_MANAGER_STATUS, _). -/
def isStatusIntervalRequest : Output α → Bool
  | Output.mavCommand c =>
    decide (c.command = MavCmd.MAV_CMD_SET_MESSAGE_INTERVAL) &&
      decide (c.param1 = Param.int MAVLINK_MSG_ID_GIMBAL_MANAGER_STATUS)
  | _ => false

/-- An output goes out to the vehicle: a command or a message (not a Qt signal,
not the fact group registration). -/
def isOutbound : Output α → Bool
  | Output.mavCommand _ => true
  | Output.gimbalManagerSetAttitude _ => true
  | Output.gimbalDeviceSetAttitude _ => true
  | _ => false

/-- A frame concerns the pair `p`: a heartbeat of the manager of `p`, or a frame
whose handler runs `_checkComplete` for `p`. -/
def isAbout (p : GimbalPairId) (s : State α) : Frame α → Bool
  | Frame.heartbeat compid => decide (compid = p.managerCompid)
  | message => decide (framePairId s message = some p)

/-- Number of discovery probes emitted on behalf of the pair `p` while the frames
are delivered: the probes of every `_checkComplete` call made for `p`, and the
heartbeat-driven REQUEST_MESSAGE probes sent to the manager of `p`. -/
def probesFor (p : GimbalPairId) (s : State α) : List (Env α × Frame α) → Nat
  | [] => 0
  | (env, message) :: rest =>
    let r := mavlinkMessageReceived env s message
    (if isAbout p s message = true then (r.2.filter isProbe).length else 0) +
      probesFor p r.1 rest

/-- Heartbeat-driven probes the manager `c` can still be sent: its remaining
retries while its information has not been received (5 for an unseen manager). -/
def managerBudget (s : State α) (c : Nat) : Nat :=
  let m := (Table.find s.potentialGimbalManagers c).getD PotentialGimbalManager.new
  if m.receivedGimbalManagerInformation = true then 0
  else m.requestGimbalManagerInformationRetries

/-- Probes `_checkComplete` can still emit for a record: the retry budgets of the
frames it has not received. -/
def Gimbal.probeBudget (g : Gimbal α) : Nat :=
  (if g.receivedGimbalManagerInformation = true then 0 else g.requestInformationRetries) +
    (if g.receivedGimbalManagerStatus = true then 0 else g.requestStatusRetries) +
    (if g.receivedGimbalDeviceAttitudeStatus = true then 0 else g.requestAttitudeRetries)

/-- Probes `_checkComplete` can still emit for the pair `p`; a record that does
not exist yet is created by a frame that sets one of its three flags, which
leaves the budgets of the two others, 5 each. -/
def pairBudget (s : State α) (p : GimbalPairId) : Nat :=
  match Table.find s.potentialGimbals p with
  | none => 10
  | some g => g.probeBudget

/-- The clock values at which a SET_MESSAGE_INTERVAL(GIMBAL_MANAGER_STATUS) is
emitted while the frames are delivered, oldest first. -/
def statusRequestTimes (s : State α) : List (Env α × Frame α) → List Int
  | [] => []
  | (env, message) :: rest =>
    let r := mavlinkMessageReceived env s message
    (r.2.filter isStatusIntervalRequest).map (fun _ => env.now) ++ statusRequestTimes r.1 rest

/-- Handle the same frame `n` times in the same environment. -/
def receiveTimes (env : Env α) (message : Frame α) : Nat → State α → State α
  | 0, s => s
  | n + 1, s => receiveTimes env message n (mavlinkMessageReceived env s message).1

/-- The record `_handleGimbalManagerInformation` passes to `_checkComplete`,
from the record `g0` it found or created (lines 129-139). -/
def informationRecord (g0 : Gimbal α) (compid gimbalDeviceId capFlags : Nat) : Gimbal α :=
  { g0 with
    managerCompid := compid
    deviceId := gimbalDeviceId
    capabilityFlags := capFlags
    receivedGimbalManagerInformation := true }

/-- The record `_handleGimbalManagerStatus` passes to `_checkComplete`, from the
record `g0` it found or created (lines 167-201). -/
def statusRecord (env : Env α) (g0 : Gimbal α)
    (compid gimbalDeviceId primaryControlSysid primaryControlCompid : Nat) : Gimbal α :=
  let gimbal := if g0.deviceId = 0 then { g0 with deviceId := gimbalDeviceId } else g0
  let gimbal := if gimbal.managerCompid = 0 then { gimbal with managerCompid := compid } else gimbal
  let haveControl : Bool :=
    decide (primaryControlSysid = env.systemId) && decide (primaryControlCompid = env.componentId)
  let othersHaveControl : Bool :=
    !haveControl && (decide (primaryControlSysid ≠ 0) && decide (primaryControlCompid ≠ 0))
  { gimbal with
    receivedGimbalManagerStatus := true
    gimbalHaveControl := haveControl
    gimbalOthersHaveControl := othersHaveControl }

/-- The record `_handleGimbalDeviceAttitudeStatus` passes to `_checkComplete`,
from the record `g0` it found or created (lines 244-278). -/
def attitudeRecord (env : Env α) (g0 : Gimbal α) (flags : Nat) (q : Quat α) : Gimbal α :=
  let euler := env.eulerDegrees q
  let roll := euler.1
  let pitch := euler.2.1
  let yaw := euler.2.2
  let gimbal := { g0 with
    retracted := decide (0 < flags &&& GIMBAL_DEVICE_FLAGS_RETRACT)
    yawLock := decide (0 < flags &&& GIMBAL_DEVICE_FLAGS_YAW_LOCK)
    neutral := decide (0 < flags &&& GIMBAL_DEVICE_FLAGS_NEUTRAL)
    absoluteRoll := roll
    absolutePitch := pitch }
  let gimbal :=
    if yawInVehicleFrame flags = true then
      let bodyYaw := yaw
      let absoluteYaw := env.roundFloat (bodyYaw + env.heading)
      let absoluteYaw :=
        if 180 < absoluteYaw then env.roundFloat (absoluteYaw - 360) else absoluteYaw
      { gimbal with bodyYaw := bodyYaw, absoluteYaw := absoluteYaw }
    else
      let absoluteYaw := yaw
      let bodyYaw := env.roundFloat (absoluteYaw - env.heading)
      let bodyYaw := if bodyYaw < -180 then env.roundFloat (bodyYaw + 360) else bodyYaw
      { gimbal with bodyYaw := bodyYaw, absoluteYaw := absoluteYaw }
  { gimbal with receivedGimbalDeviceAttitudeStatus := true }

/-- The manager table after `_handleGimbalManagerInformation` (lines 141-142). -/
def informationManagers (s : State α) (compid : Nat) : List (Nat × PotentialGimbalManager) :=
  Table.set s.potentialGimbalManagers compid
    { (Table.find s.potentialGimbalManagers compid).getD PotentialGimbalManager.new with
      receivedGimbalManagerInformation := true }

/-- Every record of `s` is still stored in `s2`, under the same key, with the
same completion and discovery flags. -/
def FlagsKept (s s2 : State α) : Prop :=
  ∀ p g, Table.find s.potentialGimbals p = some g →
    ∃ g2, Table.find s2.potentialGimbals p = some g2 ∧
      g2.isComplete = g.isComplete ∧
      g2.receivedGimbalManagerInformation = g.receivedGimbalManagerInformation ∧
      g2.receivedGimbalManagerStatus = g.receivedGimbalManagerStatus ∧
      g2.receivedGimbalDeviceAttitudeStatus = g.receivedGimbalDeviceAttitudeStatus

/-- The controller after `sendPitchBodyYaw` or `sendPitchAbsoluteYaw` has passed
the control test: rate timer stopped, then the two setters of lines 497-498
(526-527) applied to the active gimbal. -/
def absoluteCommandState (s : State α) : State α :=
  (({ s with rateSenderTimerActive := false } : State α).modifyActive
    (fun g => { g with absolutePitch := 0 })).modifyActive (fun g => { g with yawRate := 0 })

/-- The record after the three probe blocks of `_checkComplete` (lines 302-340). -/
def probedRecord (now last : Int) (gimbal : Gimbal α) (pairId : GimbalPairId) : Gimbal α :=
  (checkCompleteAttitude (checkCompleteStatus now last
    (checkCompleteInformation gimbal pairId).1 pairId).1 pairId).1

/-- The static `lastRequestStatusMessage` after the probe blocks of `_checkComplete`. -/
def probedLast (now last : Int) (gimbal : Gimbal α) (pairId : GimbalPairId) : Int :=
  (checkCompleteStatus now last (checkCompleteInformation gimbal pairId).1 pairId).2.1

/-- The probes emitted by the three probe blocks of `_checkComplete`. -/
def probedOutput (now last : Int) (gimbal : Gimbal α) (pairId : GimbalPairId) :
    List (Output α) :=
  (checkCompleteInformation gimbal pairId).2 ++
    (checkCompleteStatus now last (checkCompleteInformation gimbal pairId).1 pairId).2.2 ++
    (checkCompleteAttitude (checkCompleteStatus now last
      (checkCompleteInformation gimbal pairId).1 pairId).1 pairId).2

/-- A record without the two retry budgets that a duplicate frame can use up. -/
def Gimbal.forgetProbeBudgets (g : Gimbal α) : Gimbal α :=
  { g with requestInformationRetries := 0, requestAttitudeRetries := 0 }

/-- A controller without the information and attitude retry budgets of its records. -/
def State.forgetProbeBudgets (s : State α) : State α :=
  { s with potentialGimbals := s.potentialGimbals.map (fun kv => (kv.1, kv.2.forgetProbeBudgets)) }

/-- The yaw `sendPitchAbsoluteYaw` transmits for the argument `yaw` (lines 529-535). -/
def wrapYaw (yaw : α) : α :=
  let yaw := if 180 < yaw then yaw - 360 else yaw
  if yaw < -180 then yaw + 360 else yaw

/-- Run a sequence of calls, each with the environment read while it runs; the
result is the final controller and everything emitted, `none` as soon as a call
runs into undefined behaviour. -/
def runCalls (s : State α) : List (Env α × Call α) → Option (State α × List (Output α))
  | [] => some (s, [])
  | (env, call) :: rest =>
    match step env s call with
    | none => none
    | some r =>
      match runCalls r.1 rest with
      | none => none
      | some r2 => some (r2.1, r.2 ++ r2.2)

/-- The four frames of a first discovery of the pair `(c, d)`: heartbeat,
manager information, manager status naming nobody as primary, and a device
attitude status with the yaw in the vehicle frame; each is delivered with the
environment read at that time. -/
def happyFrames (e1 e2 e3 e4 : Env α) (c d caps : Nat) (q : Quat α) : List (Env α × Frame α) :=
  [(e1, Frame.heartbeat c), (e2, Frame.gimbalManagerInformation c d caps),
   (e3, Frame.gimbalManagerStatus c d 0 0),
   (e4, Frame.gimbalDeviceAttitudeStatus c d GIMBAL_DEVICE_FLAGS_YAW_IN_VEHICLE_FRAME q)]

/-- The value `_applyExpo(_applyDeadband(axis, deadband), expo)` that
`_handleJoystickGimbalInput` stores for an axis reading (lines 784-785). -/
def processedAxis (settings : GimbalControllerSettings α) (axis : α) : α :=
  applyExpo (applyDeadband axis settings.joystickGimbalDeadband) settings.joystickGimbalExpo

/-- The smoothed pitch a sender tick computes (line 829). -/
def nextSmoothedPitch (env : Env α) (s : State α) : α :=
  env.settings.joystickGimbalSmoothing * s.joystickPitchInput +
    (1 - env.settings.joystickGimbalSmoothing) * s.joystickSmoothedPitch

/-- The smoothed yaw a sender tick computes (line 830). -/
def nextSmoothedYaw (env : Env α) (s : State α) : α :=
  env.settings.joystickGimbalSmoothing * s.joystickYawInput +
    (1 - env.settings.joystickGimbalSmoothing) * s.joystickSmoothedYaw

/-- The pitch angle, in degrees, a sender tick maps the smoothed pitch to (line 833). -/
def joystickPitchAngle (env : Env α) (s : State α) : α :=
  -nextSmoothedPitch env s * env.settings.joystickGimbalPitchLimit

/-- The yaw angle, in degrees, a sender tick maps the smoothed yaw to (line 834). -/
def joystickYawAngle (env : Env α) (s : State α) : α :=
  nextSmoothedYaw env s * env.settings.joystickGimbalYawLimit

/-- The quaternion `q[0..3]` a sender tick builds from the two angles, roll
being 0 (lines 849-865). -/
def joystickQuaternion (env : Env α) (pitchAngle yawAngle : α) : Quat α :=
  let roll : α := 0
  let pitch := env.degreesToRadians pitchAngle
  let yaw := env.degreesToRadians yawAngle
  let cr := env.cos (roll / 2)
  let sr := env.sin (roll / 2)
  let cp := env.cos (pitch / 2)
  let sp := env.sin (pitch / 2)
  let cy := env.cos (yaw / 2)
  let sy := env.sin (yaw / 2)
  { w := cr * cp * cy + sr * sp * sy
    x := sr * cp * cy - cr * sp * sy
    y := cr * sp * cy + sr * cp * sy
    z := cr * cp * sy - sr * sp * cy }

/-- The squared norm `w² + x² + y² + z²`. -/
def Quat.normSq (q : Quat α) : α :=
  q.w * q.w + q.x * q.x + q.y * q.y + q.z * q.z

/-- The test of lines 837-840: neither a stored input nor a new smoothed value
is above 0.001 in absolute value, so the sender stops. -/
def joystickIdle (env : Env α) (s : State α) : Prop :=
  (decide ((1 / 1000 : α) < |s.joystickPitchInput|) ||
      decide ((1 / 1000 : α) < |s.joystickYawInput|)) = false ∧
    (decide ((1 / 1000 : α) < |nextSmoothedPitch env s|) ||
      decide ((1 / 1000 : α) < |nextSmoothedYaw env s|)) = false

instance joystickIdleDecidable (env : Env α) (s : State α) : Decidable (joystickIdle env s) :=
  inferInstanceAs (Decidable (_ ∧ _))

/-- The GIMBAL_DEVICE_SET_ATTITUDE message a sender tick packs for the active
gimbal `g` on channel `chan` (lines 867-880). -/
def joystickMessage (env : Env α) (s : State α) (g : Gimbal α) (chan : Nat) :
    GimbalDeviceSetAttitude α :=
  let q := joystickQuaternion env (joystickPitchAngle env s) (joystickYawAngle env s)
  { systemId := env.systemId
    componentId := env.componentId
    chan := chan
    targetSystem := env.vehicleId
    targetComponent := g.managerCompid % 256
    flags := GIMBAL_DEVICE_FLAGS_ROLL_LOCK ||| GIMBAL_DEVICE_FLAGS_PITCH_LOCK |||
      GIMBAL_DEVICE_FLAGS_YAW_IN_VEHICLE_FRAME
    q := [Param.num q.w, Param.num q.x, Param.num q.y, Param.num q.z]
    angularVelocityX := Param.nan
    angularVelocityY := Param.nan
    angularVelocityZ := Param.nan }

/-- The log line a sender tick adds (lines 884-892). -/
def joystickLogEntry (env : Env α) (s : State α) : LogEntry α :=
  let q := joystickQuaternion env (joystickPitchAngle env s) (joystickYawAngle env s)
  { pitchAngle := joystickPitchAngle env s
    yawAngle := joystickYawAngle env s
    q0 := q.w
    q1 := q.x
    q2 := q.y
    q3 := q.z }

/-- The joystick settings in the ranges the specification gives them. -/
def JoystickSettingsOk (settings : GimbalControllerSettings α) : Prop :=
  0 ≤ settings.joystickGimbalDeadband ∧ settings.joystickGimbalDeadband < 1 ∧
  0 ≤ settings.joystickGimbalExpo ∧ settings.joystickGimbalExpo ≤ 1 ∧
  0 < settings.joystickGimbalSmoothing ∧ settings.joystickGimbalSmoothing ≤ 1 ∧
  0 ≤ settings.joystickGimbalPitchLimit ∧ 0 ≤ settings.joystickGimbalYawLimit

/-- Both configured axis indices are non-negative, so that no axis read falls
before the vector. -/
def AxisIndicesOk (settings : GimbalControllerSettings α) : Prop :=
  0 ≤ settings.joystickGimbalPitchAxisIndex ∧ 0 ≤ settings.joystickGimbalYawAxisIndex

/-- A joystick sample with every axis value in [-1, 1], or a sender tick, under
settings in range. -/
def JoystickCall : Env α × Call α → Prop
  | (env, Call.handleJoystickGimbalInput axisValues) =>
    JoystickSettingsOk env.settings ∧ ∀ a ∈ axisValues, |a| ≤ 1
  | (env, Call.joystickGimbalSendTimeout) => JoystickSettingsOk env.settings
  | _ => False

/-- The stored inputs and the smoothed values all lie in [-1, 1]. -/
def JoystickBounded (s : State α) : Prop :=
  |s.joystickPitchInput| ≤ 1 ∧ |s.joystickYawInput| ≤ 1 ∧
  |s.joystickSmoothedPitch| ≤ 1 ∧ |s.joystickSmoothedYaw| ≤ 1

/-- The frame is not a device attitude status with device id field 0 sent from
component id 0. -/
def NonZeroSender : Frame α → Prop
  | Frame.gimbalDeviceAttitudeStatus compid gimbalDeviceId _ _ =>
    gimbalDeviceId = 0 → compid ≠ 0
  | _ => True

/-- The stored identity of a record agrees with the key `k` it is stored under:
each of the two stored ids is 0 (not yet set) or the key's, and both are the
key's once the manager information has been received or the record is complete. -/
def Gimbal.agreesWith (g : Gimbal α) (k : GimbalPairId) : Prop :=
  (g.managerCompid = 0 ∨ g.managerCompid = k.managerCompid) ∧
  (g.deviceId = 0 ∨ g.deviceId = k.deviceId) ∧
  ((g.receivedGimbalManagerInformation = true ∨ g.isComplete = true) →
    g.managerCompid = k.managerCompid ∧ g.deviceId = k.deviceId)

/-- The tests of the two "conflicting GIMBAL_MANAGER_STATUS" branches of
`_handleGimbalManagerStatus` (lines 170 and 176) on the record `g0` it found. -/
def statusConflict (g0 : Gimbal α) (compid gimbalDeviceId : Nat) : Prop :=
  (g0.deviceId ≠ 0 ∧ g0.deviceId ≠ gimbalDeviceId) ∨
  ((if g0.deviceId = 0 then { g0 with deviceId := gimbalDeviceId } else g0).managerCompid ≠ 0 ∧
    (if g0.deviceId = 0 then { g0 with deviceId := gimbalDeviceId } else g0).managerCompid ≠ compid)

/-- The interval parameters of the SET_MESSAGE_INTERVAL(GIMBAL_MANAGER_STATUS)
commands among the outputs, in order of emission. -/
def statusIntervals : List (Output α) → List Int
  | [] => []
  | Output.mavCommand c :: rest =>
    if c.command = MavCmd.MAV_CMD_SET_MESSAGE_INTERVAL ∧
        c.param1 = Param.int MAVLINK_MSG_ID_GIMBAL_MANAGER_STATUS then
      match c.param2 with
      | Param.int n => n :: statusIntervals rest
      | _ => statusIntervals rest
    else statusIntervals rest
  | _ :: rest => statusIntervals rest

/-- The intervals of the status-interval requests that `_checkComplete` emits
for the pair `p` while the frames are delivered, oldest first. -/
def statusIntervalsFor (p : GimbalPairId) (s : State α) : List (Env α × Frame α) → List Int
  | [] => []
  | (env, message) :: rest =>
    let r := mavlinkMessageReceived env s message
    (if framePairId s message = some p then statusIntervals r.2 else []) ++
      statusIntervalsFor p r.1 rest

/-- The status-retry budget of the pair `p`: that of its record, or of the
record a frame would create for it. -/
def statusRetriesOf (s : State α) (p : GimbalPairId) : Nat :=
  ((Table.find s.potentialGimbals p).getD Gimbal.new).requestStatusRetries

/-- The intervals line 315 chooses while the budget goes from `retries` down to 1. -/
def statusSchedule : Nat → List Int
  | 0 => []
  | retries + 1 => (if 2 < retries + 1 then 0 else 5000000) :: statusSchedule retries

/-- How a handler leaves the record `g0` it found (or created) when it calls
`_checkComplete` with `g`: discovery flags are only ever set, at least one is
set, completion and the retry budgets are not touched, and the two control
flags are not both set unless they were. -/
structure Updated (g0 g : Gimbal α) : Prop where
  isComplete : g.isComplete = g0.isComplete
  information : g0.receivedGimbalManagerInformation = true →
    g.receivedGimbalManagerInformation = true
  status : g0.receivedGimbalManagerStatus = true → g.receivedGimbalManagerStatus = true
  attitude : g0.receivedGimbalDeviceAttitudeStatus = true →
    g.receivedGimbalDeviceAttitudeStatus = true
  received : g.receivedGimbalManagerInformation = true ∨ g.receivedGimbalManagerStatus = true ∨
    g.receivedGimbalDeviceAttitudeStatus = true
  control : ¬ (g0.gimbalHaveControl = true ∧ g0.gimbalOthersHaveControl = true) →
    ¬ (g.gimbalHaveControl = true ∧ g.gimbalOthersHaveControl = true)
  informationRetries : g.requestInformationRetries = g0.requestInformationRetries
  statusRetries : g.requestStatusRetries = g0.requestStatusRetries
  attitudeRetries : g.requestAttitudeRetries = g0.requestAttitudeRetries

end Model

/-! ## Concrete inputs -/

namespace Example

/-- Settings of the spec's joystick scenario. -/
def settings : GimbalControllerSettings ℚ :=
  { CameraVFov := 45
    CameraHFov := 60
    CameraSlideSpeed := 20
    joystickButtonsSpeed := 30
    joystickGimbalEnabled := true
    joystickGimbalPitchAxisIndex := 1
    joystickGimbalYawAxisIndex := 2
    joystickGimbalDeadband := 1 / 10
    joystickGimbalExpo := 4 / 10
    joystickGimbalSmoothing := 2 / 10
    joystickGimbalPitchLimit := 45
    joystickGimbalYawLimit := 90 }

/-- An environment with our ids (255, 190), heading 90 and the given clock.  The
library functions are stand-ins that are exact at the identity attitude; the
`float` rounding is the identity, every number of the examples that use this
environment being a `float`. -/
def env (now : Int) : Env ℚ :=
  { parametersReady := true
    now := now
    heading := 90
    systemId := 255
    componentId := 190
    vehicleId := 1
    primaryLink := some 0
    settings := settings
    eulerDegrees := fun _ => (0, 0, 0)
    degreesToRadians := fun x => x
    cos := fun _ => 1
    sin := fun _ => 0
    roundFloat := fun x => x }

/-- The identity attitude. -/
def qIdentity : Quat ℚ := { w := 1, x := 0, y := 0, z := 0 }

/-- Discovery of the gimbal (154, 1); the status frame names station (9, 200)
as primary. -/
def contestedFrames : List (Env ℚ × Frame ℚ) :=
  [(env 2000, Frame.heartbeat 154),
   (env 2000, Frame.gimbalManagerInformation 154 1 127),
   (env 2000, Frame.gimbalManagerStatus 154 1 9 200),
   (env 2000, Frame.gimbalDeviceAttitudeStatus 154 1 GIMBAL_DEVICE_FLAGS_YAW_IN_VEHICLE_FRAME
      qIdentity)]

/-- The controller after `contestedFrames`: (154, 1) is complete and active, and
another station holds control. -/
def contested : State ℚ := (receiveAll State.empty contestedFrames).1

/-- Discovery of the gimbal (154, 1) with nobody in control. -/
def freeFrames : List (Env ℚ × Frame ℚ) :=
  [(env 2000, Frame.heartbeat 154),
   (env 2000, Frame.gimbalManagerInformation 154 1 127),
   (env 2000, Frame.gimbalManagerStatus 154 1 0 0),
   (env 2000, Frame.gimbalDeviceAttitudeStatus 154 1 GIMBAL_DEVICE_FLAGS_YAW_IN_VEHICLE_FRAME
      qIdentity)]

/-- The controller after `freeFrames`. -/
def free : State ℚ := (receiveAll State.empty freeFrames).1

/-- A controller whose only record, (154, 1), has received the information and
attitude frames, has no status-retry budget left and is not complete. -/
def exhausted : State ℚ :=
  { (State.empty : State ℚ) with
    potentialGimbals :=
      [({ managerCompid := 154, deviceId := 1 },
        { (Gimbal.new : Gimbal ℚ) with
          managerCompid := 154
          deviceId := 1
          receivedGimbalManagerInformation := true
          receivedGimbalDeviceAttitudeStatus := true
          requestStatusRetries := 0
          requestAttitudeRetries := 4 })] }

/-- The record of gimbal (154, 1) in `contested`. -/
def contestedRecord : Gimbal ℚ :=
  (Table.find contested.potentialGimbals { managerCompid := 154, deviceId := 1 }).getD Gimbal.new

/-- The record of gimbal (154, 1) in `free`. -/
def freeRecord : Gimbal ℚ :=
  (Table.find free.potentialGimbals { managerCompid := 154, deviceId := 1 }).getD Gimbal.new

/-- Attitude frames only: first from component 5 about its device 1, then from
component 0 with device id field 0. -/
def zeroKeyFrames : List (Env ℚ × Frame ℚ) :=
  [(env 2000, Frame.gimbalDeviceAttitudeStatus 5 1 GIMBAL_DEVICE_FLAGS_YAW_IN_VEHICLE_FRAME
      qIdentity),
   (env 2000, Frame.gimbalDeviceAttitudeStatus 0 0 GIMBAL_DEVICE_FLAGS_YAW_IN_VEHICLE_FRAME
      qIdentity)]

/-- The environment `env 0` with another vehicle heading. -/
def headingEnv (heading : ℚ) : Env ℚ :=
  { env 0 with heading := heading }

/-- An environment at the edge of the wrap test: the decoded yaw is 90 and the
heading is the `float` 90 + 2^-17.  Their exact sum 180 + 2^-17 is not a
`float`: it lies halfway between the neighbouring floats 180 and 180 + 2^-16
and rounds to the even one, 180, which is all the rounding this stand-in does. -/
def roundingEnv : Env ℚ :=
  { env 0 with
    heading := 90 + 1 / 131072
    eulerDegrees := fun _ => (0, 0, 90)
    roundFloat := fun x => if x = 180 + 1 / 131072 then 180 else x }

/-- The environment `env now` without a primary link. -/
def linkDownEnv (now : Int) : Env ℚ :=
  { env now with primaryLink := none }

/-- The joystick sample of the spec's sender scenario. -/
def sample : List ℚ := [0, 1 / 2, -1 / 4]

/-- An environment over any field of numbers, with the scenario's settings and
the given library functions. -/
def trigEnv {α : Type} [LinearOrderedField α] (cos sin degreesToRadians : α → α) : Env α :=
  { parametersReady := true
    now := 0
    heading := 90
    systemId := 255
    componentId := 190
    vehicleId := 1
    primaryLink := some 0
    settings :=
      { CameraVFov := 45
        CameraHFov := 60
        CameraSlideSpeed := 20
        joystickButtonsSpeed := 30
        joystickGimbalEnabled := true
        joystickGimbalPitchAxisIndex := 1
        joystickGimbalYawAxisIndex := 2
        joystickGimbalDeadband := 1 / 10
        joystickGimbalExpo := 4 / 10
        joystickGimbalSmoothing := 2 / 10
        joystickGimbalPitchLimit := 45
        joystickGimbalYawLimit := 90 }
    eulerDegrees := fun _ => (0, 0, 0)
    degreesToRadians := degreesToRadians
    cos := cos
    sin := sin
    roundFloat := fun x => x }

/-- A sample with a stick movement, a tick, the sample of the scenario, two ticks. -/
def joystickCalls : List (Env ℚ × Call ℚ) :=
  [(env 3000, Call.handleJoystickGimbalInput [1, -1, 1 / 3]),
   (env 3020, Call.joystickGimbalSendTimeout),
   (env 3030, Call.handleJoystickGimbalInput sample),
   (env 3040, Call.joystickGimbalSendTimeout),
   (env 3060, Call.joystickGimbalSendTimeout)]

/-- The controller after the pitch-up button is pressed at `free`: the stored
pitch rate is 30 and the rate keep-alive timer runs. -/
def rateRunning : State ℚ := (gimbalPitchStart (env 3000) free 1).1

/-- Another station takes control while the button is held, then the button is
released. -/
def takenOverCalls : List (Env ℚ × Call ℚ) :=
  [(env 3500, Call.mavlinkMessageReceived (Frame.gimbalManagerStatus 154 1 9 200)),
   (env 4200, Call.gimbalPitchStop)]

/-- Seven information frames for the gimbal (154, 1), two seconds apart, and no
status frame. -/
def unansweredFrames : List (Env ℚ × Frame ℚ) :=
  [(env 2000, Frame.gimbalManagerInformation 154 1 127),
   (env 4000, Frame.gimbalManagerInformation 154 1 127),
   (env 6000, Frame.gimbalManagerInformation 154 1 127),
   (env 8000, Frame.gimbalManagerInformation 154 1 127),
   (env 10000, Frame.gimbalManagerInformation 154 1 127),
   (env 12000, Frame.gimbalManagerInformation 154 1 127),
   (env 14000, Frame.gimbalManagerInformation 154 1 127)]

/-- The environment `env now` with an attitude decoder that reports a pitch of
-20 degrees. -/
def tiltEnv (now : Int) : Env ℚ :=
  { env now with eulerDegrees := fun _ => (0, -20, 0) }

/-- Discovery of the gimbal (154, 1), pitched 20 degrees down, with our station
(255, 190) as primary. -/
def heldFrames : List (Env ℚ × Frame ℚ) :=
  [(env 2000, Frame.heartbeat 154),
   (env 2000, Frame.gimbalManagerInformation 154 1 127),
   (env 2000, Frame.gimbalManagerStatus 154 1 255 190),
   (tiltEnv 2000, Frame.gimbalDeviceAttitudeStatus 154 1
      GIMBAL_DEVICE_FLAGS_YAW_IN_VEHICLE_FRAME qIdentity)]

/-- The controller after `heldFrames`: (154, 1) is complete and active, and we
hold control. -/
def held : State ℚ := (receiveAll State.empty heldFrames).1

/-- The record of gimbal (154, 1) in `held`. -/
def heldRecord : Gimbal ℚ :=
  (Table.find held.potentialGimbals { managerCompid := 154, deviceId := 1 }).getD Gimbal.new

/-- The controller after the pitch-up button is pressed at `held`. -/
def rateHeld : State ℚ := (gimbalPitchStart (env 3000) held 1).1

/-- The environment `env now` with the pitch axis index set to -1. -/
def negativeIndexEnv (now : Int) : Env ℚ :=
  { env now with settings := { settings with joystickGimbalPitchAxisIndex := -1 } }

end Example

/-! ## Lemmas on tables -/

section Lemmas

set_option linter.unusedSectionVars false
set_option linter.unnecessarySeqFocus false

variable {α : Type} [LinearOrderedField α]

theorem Table.find_set_self {κ ν : Type} [DecidableEq κ] (t : List (κ × ν)) (k : κ) (v : ν) :
    Table.find (Table.set t k v) k = some v := by
  induction t with
  | nil => simp [Table.set, Table.find]
  | cons hd tl ih =>
    by_cases h : hd.1 = k
    · simp [Table.set, Table.find, h]
    · simp [Table.set, Table.find, h, ih]

theorem Table.find_set_ne {κ ν : Type} [DecidableEq κ] (t : List (κ × ν)) (k k' : κ) (v : ν)
    (h : k ≠ k') : Table.find (Table.set t k v) k' = Table.find t k' := by
  induction t with
  | nil => simp [Table.set, Table.find, h]
  | cons hd tl ih =>
    obtain ⟨a, b⟩ := hd
    by_cases h1 : a = k
    · by_cases h2 : a = k'
      · exact absurd (h1.symm.trans h2) h
      · simp [Table.set, Table.find, h1, h2, h]
    · by_cases h2 : a = k'
      · subst h2
        simp [Table.set, Table.find, h1]
      · simp [Table.set, Table.find, h1, h2, ih]

theorem Table.mem_set {κ ν : Type} [DecidableEq κ] (t : List (κ × ν)) (k : κ) (v : ν)
    (kv : κ × ν) (h : kv ∈ Table.set t k v) : kv = (k, v) ∨ kv ∈ t := by
  induction t with
  | nil => simpa [Table.set] using h
  | cons hd tl ih =>
    by_cases h1 : hd.1 = k
    · simp only [Table.set, h1, if_true, List.mem_cons] at h
      rcases h with h | h
      · exact Or.inl h
      · exact Or.inr (List.mem_cons_of_mem _ h)
    · simp only [Table.set, h1, if_false, List.mem_cons] at h
      rcases h with h | h
      · exact Or.inr (h ▸ List.mem_cons_self _ _)
      · rcases ih h with h | h
        · exact Or.inl h
        · exact Or.inr (List.mem_cons_of_mem _ h)

theorem Table.find_mem {κ ν : Type} [DecidableEq κ] (t : List (κ × ν)) (k : κ) (v : ν)
    (h : Table.find t k = some v) : (k, v) ∈ t := by
  induction t with
  | nil => simp [Table.find] at h
  | cons hd tl ih =>
    obtain ⟨a, b⟩ := hd
    by_cases h1 : a = k
    · simp only [Table.find, h1, if_true, Option.some.injEq] at h
      simp [h1, h]
    · simp only [Table.find, h1, if_false] at h
      exact List.mem_cons_of_mem _ (ih h)

/-! ## Lemmas on `_checkComplete` -/

theorem checkCompleteInformation_fst (g : Gimbal α) (p : GimbalPairId) :
    (checkCompleteInformation g p).1 = { g with requestInformationRetries :=
      (checkCompleteInformation g p).1.requestInformationRetries } := by
  unfold checkCompleteInformation
  split_ifs <;> rfl

theorem checkCompleteStatus_fst (now last : Int) (g : Gimbal α) (p : GimbalPairId) :
    (checkCompleteStatus now last g p).1 = { g with requestStatusRetries :=
      (checkCompleteStatus now last g p).1.requestStatusRetries } := by
  unfold checkCompleteStatus
  split_ifs <;> rfl

theorem checkCompleteAttitude_fst (g : Gimbal α) (p : GimbalPairId) :
    (checkCompleteAttitude g p).1 = { g with requestAttitudeRetries :=
      (checkCompleteAttitude g p).1.requestAttitudeRetries } := by
  unfold checkCompleteAttitude
  split_ifs <;> rfl

/-- The three probes change nothing but the retry budgets. -/
theorem probes_fst (now last : Int) (g : Gimbal α) (p : GimbalPairId) :
    ∃ ri rs ra : Nat,
      (checkCompleteAttitude (checkCompleteStatus now last
        (checkCompleteInformation g p).1 p).1 p).1 =
      { g with
        requestInformationRetries := ri
        requestStatusRetries := rs
        requestAttitudeRetries := ra } := by
  refine ⟨(checkCompleteInformation g p).1.requestInformationRetries,
    (checkCompleteStatus now last (checkCompleteInformation g p).1 p).1.requestStatusRetries,
    (checkCompleteAttitude (checkCompleteStatus now last
      (checkCompleteInformation g p).1 p).1 p).1.requestAttitudeRetries, ?_⟩
  rw [checkCompleteAttitude_fst, checkCompleteStatus_fst, checkCompleteInformation_fst]

theorem checkComplete_potentialGimbals (env : Env α) (s : State α) (g : Gimbal α)
    (p : GimbalPairId) :
    (checkComplete env s g p).1.potentialGimbals =
      Table.set s.potentialGimbals p
        (checkCompleteRecord env.now s.lastRequestStatusMessage g p) := by
  simp only [checkComplete, checkCompleteRecord, setActiveGimbal]
  split_ifs <;> rfl

/-- What `_checkComplete` keeps of the record it is given, and when it marks it
complete. -/
theorem checkCompleteRecord_fields (now last : Int) (g : Gimbal α) (p : GimbalPairId) :
    (checkCompleteRecord now last g p).receivedGimbalManagerInformation =
        g.receivedGimbalManagerInformation ∧
    (checkCompleteRecord now last g p).receivedGimbalManagerStatus =
        g.receivedGimbalManagerStatus ∧
    (checkCompleteRecord now last g p).receivedGimbalDeviceAttitudeStatus =
        g.receivedGimbalDeviceAttitudeStatus ∧
    (checkCompleteRecord now last g p).gimbalHaveControl = g.gimbalHaveControl ∧
    (checkCompleteRecord now last g p).gimbalOthersHaveControl = g.gimbalOthersHaveControl ∧
    (checkCompleteRecord now last g p).isComplete = (g.isComplete || g.allReceived) := by
  obtain ⟨ri, rs, ra, h⟩ := probes_fst now last g p
  simp only [checkCompleteRecord, h, Gimbal.allReceived]
  by_cases hc : g.isComplete = true
  · simp [hc]
  · cases hI : g.receivedGimbalManagerInformation <;>
      cases hS : g.receivedGimbalManagerStatus <;>
      cases hA : g.receivedGimbalDeviceAttitudeStatus <;> simp [hc, hI, hS, hA]

/-! ## The shape of a frame handler -/

theorem mavlinkMessageReceived_notReady (env : Env α) (s : State α) (f : Frame α)
    (h : env.parametersReady = false) : mavlinkMessageReceived env s f = (s, []) := by
  simp [mavlinkMessageReceived, h]

theorem mavlinkMessageReceived_heartbeat (env : Env α) (s : State α) (c : Nat)
    (h : env.parametersReady = true) :
    mavlinkMessageReceived env s (Frame.heartbeat c) = handleHeartbeat s c := by
  simp [mavlinkMessageReceived, h]

theorem mavlinkMessageReceived_other (env : Env α) (s : State α) (i : Nat)
    (h : env.parametersReady = true) :
    mavlinkMessageReceived env s (Frame.other i) = (s, []) := by
  simp [mavlinkMessageReceived, h]

theorem mavlinkMessageReceived_information (env : Env α) (s : State α) (c d cap : Nat)
    (h : env.parametersReady = true) :
    mavlinkMessageReceived env s (Frame.gimbalManagerInformation c d cap) =
      handleGimbalManagerInformation env s c d cap := by
  simp [mavlinkMessageReceived, h]

theorem mavlinkMessageReceived_status (env : Env α) (s : State α) (c d ps pc : Nat)
    (h : env.parametersReady = true) :
    mavlinkMessageReceived env s (Frame.gimbalManagerStatus c d ps pc) =
      handleGimbalManagerStatus env s c d ps pc := by
  simp [mavlinkMessageReceived, h]

theorem mavlinkMessageReceived_attitude (env : Env α) (s : State α) (c d fl : Nat) (q : Quat α)
    (h : env.parametersReady = true) :
    mavlinkMessageReceived env s (Frame.gimbalDeviceAttitudeStatus c d fl q) =
      handleGimbalDeviceAttitudeStatus env s c d fl q := by
  simp [mavlinkMessageReceived, h]

theorem handleHeartbeat_shape (s : State α) (c : Nat) :
    ∃ m out, handleHeartbeat s c = ({ s with potentialGimbalManagers := m }, out) ∧
      (out = [] ∨ ∃ c, out = [requestGimbalInformation c]) := by
  unfold handleHeartbeat
  by_cases hc : ((Table.find s.potentialGimbalManagers c).getD
      PotentialGimbalManager.new).receivedGimbalManagerInformation = false ∧
      0 < ((Table.find s.potentialGimbalManagers c).getD
        PotentialGimbalManager.new).requestGimbalManagerInformationRetries
  · simp only [hc, and_self, if_true]
    exact ⟨_, _, rfl, Or.inr ⟨c, rfl⟩⟩
  · simp only [hc, if_false]
    exact ⟨_, _, rfl, Or.inl rfl⟩

theorem handleGimbalManagerInformation_eq (env : Env α) (s : State α) (c d cap : Nat)
    (hd : d ≠ 0) :
    handleGimbalManagerInformation env s c d cap =
      checkComplete env { s with potentialGimbalManagers := informationManagers s c }
        (informationRecord ((Table.find s.potentialGimbals ⟨c, d⟩).getD Gimbal.new) c d cap)
        ⟨c, d⟩ := by
  simp only [handleGimbalManagerInformation, hd, if_false]
  rfl

theorem handleGimbalManagerStatus_eq (env : Env α) (s : State α) (c d ps pc : Nat)
    (hd : d ≠ 0) :
    handleGimbalManagerStatus env s c d ps pc =
      checkComplete env s
        (statusRecord env ((Table.find s.potentialGimbals ⟨c, d⟩).getD Gimbal.new) c d ps pc)
        ⟨c, d⟩ := by
  simp only [handleGimbalManagerStatus, hd, if_false]
  rfl

theorem handleGimbalDeviceAttitudeStatus_eq (env : Env α) (s : State α) (c d fl : Nat)
    (q : Quat α) (p : GimbalPairId) (hp : attitudePairId s c d = some p) :
    handleGimbalDeviceAttitudeStatus env s c d fl q =
      checkComplete env s
        (attitudeRecord env ((Table.find s.potentialGimbals p).getD Gimbal.new) fl q) p := by
  simp only [handleGimbalDeviceAttitudeStatus, hp]
  rfl

theorem informationRecord_updated (g0 : Gimbal α) (c d cap : Nat) :
    Updated g0 (informationRecord g0 c d cap) := by
  constructor <;> simp [informationRecord]

theorem statusRecord_updated (env : Env α) (g0 : Gimbal α) (c d ps pc : Nat) :
    Updated g0 (statusRecord env g0 c d ps pc) := by
  constructor <;> simp only [statusRecord] <;> (try split_ifs) <;> (try simp) <;> (try tauto)

theorem attitudeRecord_updated (env : Env α) (g0 : Gimbal α) (fl : Nat) (q : Quat α) :
    Updated g0 (attitudeRecord env g0 fl q) := by
  constructor <;> simp only [attitudeRecord] <;> (try split_ifs) <;> simp

/-- Every frame is either handled without touching records, exposed list,
active gimbal or throttle clock (emitting at most one REQUEST_MESSAGE), or ends
in `_checkComplete` on the record of `framePairId`, updated as `Updated` says. -/
theorem mavlinkMessageReceived_shape (env : Env α) (s : State α) (f : Frame α) :
    (framePairId s f = none ∨ env.parametersReady = false) ∧
      (∃ m out, mavlinkMessageReceived env s f = ({ s with potentialGimbalManagers := m }, out) ∧
        (out = [] ∨ ∃ c, out = [requestGimbalInformation c])) ∨
    (∃ p m g, env.parametersReady = true ∧ framePairId s f = some p ∧
      mavlinkMessageReceived env s f =
        checkComplete env { s with potentialGimbalManagers := m } g p ∧
      Updated ((Table.find s.potentialGimbals p).getD Gimbal.new) g) := by
  by_cases hr : env.parametersReady = false
  · left
    exact ⟨Or.inr hr, s.potentialGimbalManagers, [],
      mavlinkMessageReceived_notReady env s f hr, Or.inl rfl⟩
  · have hr1 : env.parametersReady = true := by simpa using hr
    cases f with
    | heartbeat c =>
      left
      rw [mavlinkMessageReceived_heartbeat env s c hr1]
      exact ⟨Or.inl rfl, handleHeartbeat_shape s c⟩
    | other id =>
      left
      exact ⟨Or.inl rfl, s.potentialGimbalManagers, [],
        mavlinkMessageReceived_other env s id hr1, Or.inl rfl⟩
    | gimbalManagerInformation c d cap =>
      rw [mavlinkMessageReceived_information env s c d cap hr1]
      by_cases hd : d = 0
      · left
        exact ⟨Or.inl (by simp [framePairId, hd]), s.potentialGimbalManagers, [],
          by simp [handleGimbalManagerInformation, hd], Or.inl rfl⟩
      · right
        exact ⟨⟨c, d⟩, _, _, hr1, by simp [framePairId, hd],
          handleGimbalManagerInformation_eq env s c d cap hd, informationRecord_updated _ c d cap⟩
    | gimbalManagerStatus c d ps pc =>
      rw [mavlinkMessageReceived_status env s c d ps pc hr1]
      by_cases hd : d = 0
      · left
        exact ⟨Or.inl (by simp [framePairId, hd]), s.potentialGimbalManagers, [],
          by simp [handleGimbalManagerStatus, hd], Or.inl rfl⟩
      · right
        exact ⟨⟨c, d⟩, s.potentialGimbalManagers, _, hr1, by simp [framePairId, hd],
          handleGimbalManagerStatus_eq env s c d ps pc hd, statusRecord_updated env _ c d ps pc⟩
    | gimbalDeviceAttitudeStatus c d fl q =>
      rw [mavlinkMessageReceived_attitude env s c d fl q hr1]
      cases hp : attitudePairId s c d with
      | none =>
        left
        exact ⟨Or.inl (by simp [framePairId, hp]), s.potentialGimbalManagers, [],
          by simp [handleGimbalDeviceAttitudeStatus, hp], Or.inl rfl⟩
      | some p =>
        right
        exact ⟨p, s.potentialGimbalManagers, _, hr1, by simp [framePairId, hp],
          handleGimbalDeviceAttitudeStatus_eq env s c d fl q p hp,
          attitudeRecord_updated env _ fl q⟩

/-! ## Invariants of frame-driven runs -/

theorem receiveAll_induct (P : State α → Prop)
    (hstep : ∀ env s f, P s → P (mavlinkMessageReceived env s f).1)
    (s : State α) (hs : P s) (evs : List (Env α × Frame α)) : P (receiveAll s evs).1 := by
  induction evs generalizing s with
  | nil => exact hs
  | cons ev rest ih =>
    obtain ⟨env, f⟩ := ev
    exact ih _ (hstep env s f hs)

theorem getD_new_of_forall (P : Gimbal α → Prop) (hnew : P Gimbal.new)
    (t : List (GimbalPairId × Gimbal α)) (ht : ∀ kv ∈ t, P kv.2) (p : GimbalPairId) :
    P ((Table.find t p).getD Gimbal.new) := by
  cases h : Table.find t p with
  | none => exact hnew
  | some g => exact ht _ (Table.find_mem t p g h)

/-- A property of records that holds of a fresh record and survives a handler's
update followed by `_checkComplete` holds of every record after every frame. -/
theorem mavlinkMessageReceived_records (P : Gimbal α → Prop) (hnew : P Gimbal.new)
    (hupd : ∀ g0 g now last p, P g0 → Updated g0 g → P (checkCompleteRecord now last g p))
    (env : Env α) (s : State α) (f : Frame α) (hs : ∀ kv ∈ s.potentialGimbals, P kv.2) :
    ∀ kv ∈ (mavlinkMessageReceived env s f).1.potentialGimbals, P kv.2 := by
  rcases mavlinkMessageReceived_shape env s f with ⟨_, m, out, h, _⟩ | ⟨p, m, g, _, _, h, hu⟩
  · rw [h]
    exact hs
  · rw [h, checkComplete_potentialGimbals]
    intro kv hkv
    rcases Table.mem_set _ _ _ _ hkv with hk | hk
    · rw [hk]
      exact hupd _ _ _ _ _ (getD_new_of_forall P hnew _ hs p) hu
    · exact hs kv hk

/-- C1 (control exclusivity).  In every state reached from the empty controller
by a sequence of inbound frames no record has `have_control` and
`others_have_control` both set; and whatever the state, our ids and the primary
ids, `_handleGimbalManagerStatus` on a frame it does not drop leaves the
addressed record with `have_control = (primary ids are ours)` and
`others_have_control = (not have_control and both primary ids non-zero)`. -/
theorem control_exclusivity (evs : List (Env α × Frame α)) (env : Env α) (s : State α)
    (c d ps pc : Nat) (hd : d ≠ 0) :
    (∀ kv ∈ (receiveAll State.empty evs).1.potentialGimbals,
      ¬ (kv.2.gimbalHaveControl = true ∧ kv.2.gimbalOthersHaveControl = true)) ∧
    ∃ g, Table.find (handleGimbalManagerStatus env s c d ps pc).1.potentialGimbals
          { managerCompid := c, deviceId := d } = some g ∧
      g.gimbalHaveControl = (decide (ps = env.systemId) && decide (pc = env.componentId)) ∧
      g.gimbalOthersHaveControl =
        (!g.gimbalHaveControl && (decide (ps ≠ 0) && decide (pc ≠ 0))) := by
  constructor
  · refine receiveAll_induct
      (fun s => ∀ kv ∈ s.potentialGimbals,
        ¬ (kv.2.gimbalHaveControl = true ∧ kv.2.gimbalOthersHaveControl = true))
      ?_ State.empty ?_ evs
    · intro env s f hs
      refine mavlinkMessageReceived_records
        (fun g => ¬ (g.gimbalHaveControl = true ∧ g.gimbalOthersHaveControl = true))
        ?_ ?_ env s f hs
      · simp [Gimbal.new]
      · intro g0 g now last p h0 hu
        obtain ⟨_, _, _, h4, h5, _⟩ := checkCompleteRecord_fields now last g p
        rw [h4, h5]
        exact hu.control h0
    · intro kv hkv
      simp [State.empty] at hkv
  · rw [handleGimbalManagerStatus_eq env s c d ps pc hd, checkComplete_potentialGimbals,
      Table.find_set_self]
    refine ⟨_, rfl, ?_⟩
    obtain ⟨_, _, _, h4, h5, _⟩ := checkCompleteRecord_fields env.now s.lastRequestStatusMessage
      (statusRecord env ((Table.find s.potentialGimbals ⟨c, d⟩).getD Gimbal.new) c d ps pc) ⟨c, d⟩
    rw [h4, h5]
    simp [statusRecord]

/-- Witness of C1: the status frame of station (9, 200) handled after the
discovery of gimbal (154, 1), our ids being (255, 190). -/
theorem control_exclusivity_witness :
    (∀ kv ∈ (receiveAll State.empty Example.contestedFrames).1.potentialGimbals,
      ¬ (kv.2.gimbalHaveControl = true ∧ kv.2.gimbalOthersHaveControl = true)) ∧
    ∃ g, Table.find (handleGimbalManagerStatus (Example.env 2000) Example.free 154 1 9 200).1.potentialGimbals
          { managerCompid := 154, deviceId := 1 } = some g ∧
      g.gimbalHaveControl = (decide (9 = (Example.env 2000).systemId) &&
        decide (200 = (Example.env 2000).componentId)) ∧
      g.gimbalOthersHaveControl =
        (!g.gimbalHaveControl && (decide (9 ≠ 0) && decide (200 ≠ 0))) :=
  control_exclusivity Example.contestedFrames (Example.env 2000) Example.free 154 1 9 200
    (by decide)

theorem receiveAll_completion (s : State α)
    (hs : ∀ kv ∈ s.potentialGimbals,
      kv.2.isComplete = (kv.2.receivedGimbalManagerInformation &&
        kv.2.receivedGimbalManagerStatus && kv.2.receivedGimbalDeviceAttitudeStatus))
    (evs : List (Env α × Frame α)) :
    ∀ kv ∈ (receiveAll s evs).1.potentialGimbals,
      kv.2.isComplete = (kv.2.receivedGimbalManagerInformation &&
        kv.2.receivedGimbalManagerStatus && kv.2.receivedGimbalDeviceAttitudeStatus) := by
  refine receiveAll_induct
    (fun s => ∀ kv ∈ s.potentialGimbals,
      kv.2.isComplete = (kv.2.receivedGimbalManagerInformation &&
        kv.2.receivedGimbalManagerStatus && kv.2.receivedGimbalDeviceAttitudeStatus))
    ?_ s hs evs
  intro env s f hs
  refine mavlinkMessageReceived_records
    (fun g => g.isComplete = (g.receivedGimbalManagerInformation &&
      g.receivedGimbalManagerStatus && g.receivedGimbalDeviceAttitudeStatus))
    ?_ ?_ env s f hs
  · simp [Gimbal.new]
  · intro g0 g now last p h0 hu
    obtain ⟨h1, h2, h3, _, _, h6⟩ := checkCompleteRecord_fields now last g p
    rw [h1, h2, h3, h6, hu.isComplete, h0]
    have hI := hu.information
    have hS := hu.status
    have hA := hu.attitude
    simp only [Gimbal.allReceived]
    cases h0I : g0.receivedGimbalManagerInformation <;>
      cases h0S : g0.receivedGimbalManagerStatus <;>
      cases h0A : g0.receivedGimbalDeviceAttitudeStatus <;>
      simp_all

/-- C2 (completion equals the three discovery flags).  After any sequence of
inbound frames delivered to the empty controller, every record has
`is_complete` equal to the conjunction of its three received-flags; and the
same holds after any sequence of frames delivered to any controller whose
records satisfy it, whatever their retry counters (a record whose status-retry
budget is exhausted still completes when the missing frame arrives). -/
theorem completion_matches_flags (s : State α)
    (hs : ∀ kv ∈ s.potentialGimbals,
      kv.2.isComplete = (kv.2.receivedGimbalManagerInformation &&
        kv.2.receivedGimbalManagerStatus && kv.2.receivedGimbalDeviceAttitudeStatus))
    (evs : List (Env α × Frame α)) :
    (∀ kv ∈ (receiveAll (State.empty : State α) evs).1.potentialGimbals,
      kv.2.isComplete = (kv.2.receivedGimbalManagerInformation &&
        kv.2.receivedGimbalManagerStatus && kv.2.receivedGimbalDeviceAttitudeStatus)) ∧
    ∀ kv ∈ (receiveAll s evs).1.potentialGimbals,
      kv.2.isComplete = (kv.2.receivedGimbalManagerInformation &&
        kv.2.receivedGimbalManagerStatus && kv.2.receivedGimbalDeviceAttitudeStatus) :=
  ⟨receiveAll_completion State.empty (fun kv hkv => by simp [State.empty] at hkv) evs,
   receiveAll_completion s hs evs⟩

/-- Witness of C2: the record (154, 1) lacks only the status frame and has no
status-retry budget left; the status frame then arrives. -/
theorem completion_matches_flags_witness :
    (∀ kv ∈ Example.exhausted.potentialGimbals,
      kv.2.isComplete = (kv.2.receivedGimbalManagerInformation &&
        kv.2.receivedGimbalManagerStatus && kv.2.receivedGimbalDeviceAttitudeStatus)) ∧
    (∀ kv ∈ (receiveAll Example.exhausted
        [(Example.env 2000, Frame.gimbalManagerStatus 154 1 0 0)]).1.potentialGimbals,
      kv.2.isComplete = (kv.2.receivedGimbalManagerInformation &&
        kv.2.receivedGimbalManagerStatus && kv.2.receivedGimbalDeviceAttitudeStatus)) ∧
    (receiveAll Example.exhausted
        [(Example.env 2000, Frame.gimbalManagerStatus 154 1 0 0)]).1.gimbals =
      [{ managerCompid := 154, deviceId := 1 }] :=
  ⟨by decide,
   (completion_matches_flags Example.exhausted (by decide)
     [(Example.env 2000, Frame.gimbalManagerStatus 154 1 0 0)]).2,
   by decide⟩


/-! ## Commands keep the discovery flags -/

theorem FlagsKept.of_eq (s s2 : State α) (h : s2.potentialGimbals = s.potentialGimbals) :
    FlagsKept s s2 := by
  intro p g hg
  exact ⟨g, by rw [h]; exact hg, rfl, rfl, rfl, rfl⟩

theorem FlagsKept.trans (s1 s2 s3 : State α) (h12 : FlagsKept s1 s2) (h23 : FlagsKept s2 s3) :
    FlagsKept s1 s3 := by
  intro p g hg
  obtain ⟨g2, hg2, a1, a2, a3, a4⟩ := h12 p g hg
  obtain ⟨g3, hg3, b1, b2, b3, b4⟩ := h23 p g2 hg2
  exact ⟨g3, hg3, b1.trans a1, b2.trans a2, b3.trans a3, b4.trans a4⟩

theorem modifyActive_find (s : State α) (f : Gimbal α → Gimbal α) (p : GimbalPairId) :
    Table.find (s.modifyActive f).potentialGimbals p =
      (Table.find s.potentialGimbals p).map
        (fun g => if s.activeGimbal = some p then f g else g) := by
  cases ha : s.activeGimbal with
  | none => simp [State.modifyActive, ha]
  | some k =>
    cases hk : Table.find s.potentialGimbals k with
    | none =>
      simp only [State.modifyActive, ha, hk]
      by_cases hkp : k = p
      · subst hkp
        simp [hk]
      · simp [hkp]
    | some g =>
      simp only [State.modifyActive, ha, hk]
      by_cases hkp : k = p
      · subst hkp
        simp [hk, Table.find_set_self]
      · simp [hkp, Table.find_set_ne _ _ _ _ hkp]

theorem FlagsKept.modifyActive (s : State α) (f : Gimbal α → Gimbal α)
    (hf : ∀ g, (f g).isComplete = g.isComplete ∧
      (f g).receivedGimbalManagerInformation = g.receivedGimbalManagerInformation ∧
      (f g).receivedGimbalManagerStatus = g.receivedGimbalManagerStatus ∧
      (f g).receivedGimbalDeviceAttitudeStatus = g.receivedGimbalDeviceAttitudeStatus) :
    FlagsKept s (s.modifyActive f) := by
  intro p g hg
  rw [modifyActive_find, hg]
  by_cases h : s.activeGimbal = some p
  · simp only [Option.map_some', h, if_true]
    exact ⟨_, rfl, hf g⟩
  · simp only [Option.map_some', h, if_false]
    exact ⟨_, rfl, rfl, rfl, rfl, rfl⟩

theorem sendRate_potentialGimbals (env : Env α) (s : State α) :
    (sendRate env s).1.potentialGimbals = s.potentialGimbals := by
  simp only [sendRate]
  split_ifs <;> (try rfl)
  all_goals (split <;> (try rfl))
  all_goals (split_ifs <;> rfl)

theorem sendPitchBodyYaw_fst (env : Env α) (s : State α) (pitch yaw : α) (e : Bool) :
    (sendPitchBodyYaw env s pitch yaw e).1 =
      if (tryGetGimbalControl env s).1 = false then s else absoluteCommandState s := by
  by_cases h : (tryGetGimbalControl env s).1 = false
  · simp only [sendPitchBodyYaw, h, if_true]
  · simp only [sendPitchBodyYaw, h, if_false]
    cases h3 : (absoluteCommandState s).activeRecord with
    | none =>
      simp only [absoluteCommandState] at h3
      simp only [h3]
      rfl
    | some _ =>
      simp only [absoluteCommandState] at h3
      simp only [h3]
      rfl

theorem sendPitchAbsoluteYaw_fst (env : Env α) (s : State α) (pitch yaw : α) (e : Bool) :
    (sendPitchAbsoluteYaw env s pitch yaw e).1 =
      if (tryGetGimbalControl env s).1 = false then s else absoluteCommandState s := by
  by_cases h : (tryGetGimbalControl env s).1 = false
  · simp only [sendPitchAbsoluteYaw, h, if_true]
  · simp only [sendPitchAbsoluteYaw, h, if_false]
    cases h3 : (absoluteCommandState s).activeRecord with
    | none =>
      simp only [absoluteCommandState] at h3
      simp only [h3]
      rfl
    | some _ =>
      simp only [absoluteCommandState] at h3
      simp only [h3]
      rfl

theorem absoluteCommandState_kept (s : State α) : FlagsKept s (absoluteCommandState s) :=
  FlagsKept.trans _ _ _
    (FlagsKept.trans _ _ _ (FlagsKept.of_eq s { s with rateSenderTimerActive := false } rfl)
      (FlagsKept.modifyActive _ (fun g : Gimbal α => { g with absolutePitch := 0 })
        (fun _ => ⟨rfl, rfl, rfl, rfl⟩)))
    (FlagsKept.modifyActive _ (fun g : Gimbal α => { g with yawRate := 0 })
      (fun _ => ⟨rfl, rfl, rfl, rfl⟩))

theorem sendPitchBodyYaw_kept (env : Env α) (s : State α) (pitch yaw : α) (e : Bool) :
    FlagsKept s (sendPitchBodyYaw env s pitch yaw e).1 := by
  rw [sendPitchBodyYaw_fst]
  split_ifs
  · exact FlagsKept.of_eq s s rfl
  · exact absoluteCommandState_kept s

theorem sendPitchAbsoluteYaw_kept (env : Env α) (s : State α) (pitch yaw : α) (e : Bool) :
    FlagsKept s (sendPitchAbsoluteYaw env s pitch yaw e).1 := by
  rw [sendPitchAbsoluteYaw_fst]
  split_ifs
  · exact FlagsKept.of_eq s s rfl
  · exact absoluteCommandState_kept s

theorem sendRate_modifyActive_kept (env : Env α) (s : State α) (f : Gimbal α → Gimbal α)
    (hf : ∀ g, (f g).isComplete = g.isComplete ∧
      (f g).receivedGimbalManagerInformation = g.receivedGimbalManagerInformation ∧
      (f g).receivedGimbalManagerStatus = g.receivedGimbalManagerStatus ∧
      (f g).receivedGimbalDeviceAttitudeStatus = g.receivedGimbalDeviceAttitudeStatus) :
    FlagsKept s (sendRate env (s.modifyActive f)).1 :=
  FlagsKept.trans _ _ _ (FlagsKept.modifyActive s f hf)
    (FlagsKept.of_eq _ _ (sendRate_potentialGimbals env _))


theorem sendGimbalRate_potentialGimbals (env : Env α) (s : State α) (a b : α) :
    (sendGimbalRate env s a b).1.potentialGimbals = s.potentialGimbals := by
  simp only [sendGimbalRate]
  split_ifs <;> rfl

theorem setActiveGimbal_potentialGimbals (s : State α) (k : Option GimbalPairId) :
    (setActiveGimbal s k).1.potentialGimbals = s.potentialGimbals := by
  cases k with
  | none => rfl
  | some g =>
    simp only [setActiveGimbal]
    split_ifs <;> rfl

theorem setGimbalRetract_fst (env : Env α) (s s2 : State α) (b : Bool) (out : List (Output α))
    (h : setGimbalRetract env s b = some (s2, out)) : s2 = s := by
  simp only [setGimbalRetract] at h
  split_ifs at h
  · simp only [Option.some.injEq, Prod.mk.injEq] at h
    exact h.1.symm
  all_goals
    obtain ⟨o, _, ho⟩ := Option.map_eq_some'.mp h
    simp only [Prod.mk.injEq] at ho
    exact ho.1.symm

theorem setGimbalYawLock_fst (env : Env α) (s s2 : State α) (b : Bool) (out : List (Output α))
    (h : setGimbalYawLock env s b = some (s2, out)) : s2 = s := by
  simp only [setGimbalYawLock] at h
  split_ifs at h
  · simp only [Option.some.injEq, Prod.mk.injEq] at h
    exact h.1.symm
  all_goals
    obtain ⟨o, _, ho⟩ := Option.map_eq_some'.mp h
    simp only [Prod.mk.injEq] at ho
    exact ho.1.symm

theorem handleJoystickGimbalInput_potentialGimbals (env : Env α) (s s2 : State α)
    (axisValues : List α) (out : List (Output α))
    (h : handleJoystickGimbalInput env s axisValues = some (s2, out)) :
    s2.potentialGimbals = s.potentialGimbals := by
  simp only [handleJoystickGimbalInput] at h
  split_ifs at h
  · simp only [Option.some.injEq, Prod.mk.injEq] at h
    rw [← h.1]
  · split at h
    · split_ifs at h <;>
        (simp only [Option.some.injEq, Prod.mk.injEq] at h; rw [← h.1])
    · exact absurd h (by simp)

theorem sendJoystickGimbalCommand_potentialGimbals (env : Env α) (s : State α) :
    (sendJoystickGimbalCommand env s).1.potentialGimbals = s.potentialGimbals := by
  simp only [sendJoystickGimbalCommand]
  repeat' split
  all_goals rfl

theorem gimbalOnScreenControl_kept (env : Env α) (s : State α) (a b : α) (c d : Bool) :
    FlagsKept s (gimbalOnScreenControl env s a b c d).1 := by
  simp only [gimbalOnScreenControl]
  split
  · exact FlagsKept.of_eq s s rfl
  · split_ifs
    all_goals first
      | exact sendPitchAbsoluteYaw_kept _ _ _ _ _
      | exact sendPitchBodyYaw_kept _ _ _ _ _
      | exact FlagsKept.of_eq s s rfl

/-- No command call, timer slot or joystick sample changes the completion or
discovery flags of a stored record, or removes a record. -/
theorem step_command_kept (env : Env α) (s s2 : State α) (call : Call α) (out : List (Output α))
    (hcall : ∀ f, call ≠ Call.mavlinkMessageReceived f)
    (h : step env s call = some (s2, out)) : FlagsKept s s2 := by
  cases call with
  | mavlinkMessageReceived f => exact absurd rfl (hcall f)
  | setActiveGimbal k =>
    simp only [step, Option.some.injEq] at h
    rw [show s2 = (setActiveGimbal s k).1 by rw [h]]
    exact FlagsKept.of_eq _ _ (setActiveGimbal_potentialGimbals s k)
  | gimbalPitchStart dir =>
    simp only [step, Option.some.injEq] at h
    rw [show s2 = (gimbalPitchStart env s dir).1 by rw [h]]
    simp only [gimbalPitchStart]
    split
    · exact FlagsKept.of_eq s s rfl
    · exact sendRate_modifyActive_kept env s _ (fun g => ⟨rfl, rfl, rfl, rfl⟩)
  | gimbalYawStart dir =>
    simp only [step, Option.some.injEq] at h
    rw [show s2 = (gimbalYawStart env s dir).1 by rw [h]]
    simp only [gimbalYawStart]
    split
    · exact FlagsKept.of_eq s s rfl
    · exact sendRate_modifyActive_kept env s _ (fun g => ⟨rfl, rfl, rfl, rfl⟩)
  | gimbalPitchStop =>
    simp only [step, Option.some.injEq] at h
    rw [show s2 = (gimbalPitchStop env s).1 by rw [h]]
    simp only [gimbalPitchStop]
    split
    · exact FlagsKept.of_eq s s rfl
    · exact sendRate_modifyActive_kept env s _ (fun g => ⟨rfl, rfl, rfl, rfl⟩)
  | gimbalYawStop =>
    simp only [step, Option.some.injEq] at h
    rw [show s2 = (gimbalYawStop env s).1 by rw [h]]
    simp only [gimbalYawStop]
    split
    · exact FlagsKept.of_eq s s rfl
    · exact sendRate_modifyActive_kept env s _ (fun g => ⟨rfl, rfl, rfl, rfl⟩)
  | centerGimbal =>
    simp only [step, Option.some.injEq] at h
    rw [show s2 = (centerGimbal env s).1 by rw [h]]
    simp only [centerGimbal]
    split
    · exact FlagsKept.of_eq s s rfl
    · exact sendPitchBodyYaw_kept _ _ _ _ _
  | gimbalOnScreenControl a b c d =>
    simp only [step, Option.some.injEq] at h
    rw [show s2 = (gimbalOnScreenControl env s a b c d).1 by rw [h]]
    exact gimbalOnScreenControl_kept env s a b c d
  | sendPitchBodyYaw a b e =>
    simp only [step, Option.some.injEq] at h
    rw [show s2 = (sendPitchBodyYaw env s a b e).1 by rw [h]]
    exact sendPitchBodyYaw_kept _ _ _ _ _
  | sendPitchAbsoluteYaw a b e =>
    simp only [step, Option.some.injEq] at h
    rw [show s2 = (sendPitchAbsoluteYaw env s a b e).1 by rw [h]]
    exact sendPitchAbsoluteYaw_kept _ _ _ _ _
  | setGimbalRetract b =>
    simp only [step] at h
    rw [setGimbalRetract_fst env s s2 b out h]
    exact FlagsKept.of_eq s s rfl
  | sendRate =>
    simp only [step, Option.some.injEq] at h
    rw [show s2 = (sendRate env s).1 by rw [h]]
    exact FlagsKept.of_eq _ _ (sendRate_potentialGimbals env s)
  | sendGimbalRate a b =>
    simp only [step, Option.some.injEq] at h
    rw [show s2 = (sendGimbalRate env s a b).1 by rw [h]]
    exact FlagsKept.of_eq _ _ (sendGimbalRate_potentialGimbals env s a b)
  | rateSenderTimeout =>
    simp only [step, Option.some.injEq] at h
    rw [show s2 = (rateSenderTimeout env s).1 by rw [h]]
    exact FlagsKept.of_eq _ _ (sendRate_potentialGimbals env s)
  | setGimbalYawLock b =>
    simp only [step] at h
    rw [setGimbalYawLock_fst env s s2 b out h]
    exact FlagsKept.of_eq s s rfl
  | sendPitchYawFlags fl =>
    simp only [step] at h
    obtain ⟨o, _, ho⟩ := Option.map_eq_some'.mp h
    simp only [Prod.mk.injEq] at ho
    rw [← ho.1]
    exact FlagsKept.of_eq s s rfl
  | acquireGimbalControl =>
    simp only [step, Option.some.injEq, Prod.mk.injEq] at h
    rw [← h.1]
    exact FlagsKept.of_eq s s rfl
  | releaseGimbalControl =>
    simp only [step, Option.some.injEq, Prod.mk.injEq] at h
    rw [← h.1]
    exact FlagsKept.of_eq s s rfl
  | handleJoystickGimbalInput a =>
    simp only [step] at h
    exact FlagsKept.of_eq _ _ (handleJoystickGimbalInput_potentialGimbals env s s2 a out h)
  | joystickGimbalSendTimeout =>
    simp only [step, Option.some.injEq] at h
    rw [show s2 = (joystickGimbalSendTimeout env s).1 by rw [h]]
    exact FlagsKept.of_eq _ _ (sendJoystickGimbalCommand_potentialGimbals env s)
  | clearMessageLog =>
    simp only [step, Option.some.injEq] at h
    rw [show s2 = (clearMessageLog s).1 by rw [h]]
    exact FlagsKept.of_eq _ _ rfl


theorem tryGetGimbalControl_true (env : Env α) (s : State α)
    (h : (tryGetGimbalControl env s).1 = true) :
    ∃ g, s.activeRecord = some g ∧ g.gimbalOthersHaveControl = false := by
  simp only [tryGetGimbalControl] at h
  cases hrec : s.activeRecord with
  | none =>
    rw [hrec] at h
    exact absurd h (by simp)
  | some g =>
    rw [hrec] at h
    refine ⟨g, rfl, ?_⟩
    cases ho : g.gimbalOthersHaveControl with
    | false => rfl
    | true =>
      simp only [ho, if_true] at h
      exact absurd h (by simp)

theorem sendPitchYawFlags_isSome (s : State α) (fl : Nat) (g : Gimbal α)
    (h : s.activeRecord = some g) : ∃ o, sendPitchYawFlags s fl = some o := by
  simp only [sendPitchYawFlags, h]
  exact ⟨_, rfl⟩

theorem setGimbalRetract_ne_none (env : Env α) (s : State α) (b : Bool) :
    setGimbalRetract env s b ≠ none := by
  simp only [setGimbalRetract]
  by_cases h : (tryGetGimbalControl env s).1 = false
  · simp [h]
  · have h1 : (tryGetGimbalControl env s).1 = true := by simpa using h
    obtain ⟨g, hg, _⟩ := tryGetGimbalControl_true env s h1
    simp only [h, if_false]
    intro hn
    obtain ⟨o, ho⟩ := sendPitchYawFlags_isSome s
      (if b = true then 0 ||| GIMBAL_DEVICE_FLAGS_RETRACT
        else 0 &&& (4294967295 - GIMBAL_DEVICE_FLAGS_RETRACT)) g hg
    rw [ho] at hn
    exact absurd hn (by simp)

theorem setGimbalYawLock_ne_none (env : Env α) (s : State α) (b : Bool) :
    setGimbalYawLock env s b ≠ none := by
  simp only [setGimbalYawLock]
  by_cases h : (tryGetGimbalControl env s).1 = false
  · simp [h]
  · have h1 : (tryGetGimbalControl env s).1 = true := by simpa using h
    obtain ⟨g, hg, _⟩ := tryGetGimbalControl_true env s h1
    simp only [h, if_false]
    intro hn
    obtain ⟨o, ho⟩ := sendPitchYawFlags_isSome s
      (if b = true then GIMBAL_DEVICE_FLAGS_ROLL_LOCK ||| GIMBAL_DEVICE_FLAGS_PITCH_LOCK |||
          GIMBAL_DEVICE_FLAGS_YAW_LOCK
        else GIMBAL_DEVICE_FLAGS_ROLL_LOCK ||| GIMBAL_DEVICE_FLAGS_PITCH_LOCK) g hg
    rw [ho] at hn
    exact absurd hn (by simp)

/-- A frame never removes a record and never clears its completion or one of
its discovery flags. -/
theorem mavlinkMessageReceived_monotone (env : Env α) (s : State α) (f : Frame α)
    (p : GimbalPairId) (g : Gimbal α) (hg : Table.find s.potentialGimbals p = some g) :
    ∃ g2, Table.find (mavlinkMessageReceived env s f).1.potentialGimbals p = some g2 ∧
      (g.isComplete = true → g2.isComplete = true) ∧
      (g.receivedGimbalManagerInformation = true → g2.receivedGimbalManagerInformation = true) ∧
      (g.receivedGimbalManagerStatus = true → g2.receivedGimbalManagerStatus = true) ∧
      (g.receivedGimbalDeviceAttitudeStatus = true →
        g2.receivedGimbalDeviceAttitudeStatus = true) := by
  rcases mavlinkMessageReceived_shape env s f with ⟨_, m, out, h, _⟩ | ⟨p2, m, g1, _, _, h, hu⟩
  · rw [h]
    exact ⟨g, hg, id, id, id, id⟩
  · rw [h, checkComplete_potentialGimbals]
    by_cases hp : p2 = p
    · subst hp
      rw [Table.find_set_self]
      refine ⟨_, rfl, ?_⟩
      obtain ⟨h1, h2, h3, _, _, h6⟩ := checkCompleteRecord_fields env.now
        ({ s with potentialGimbalManagers := m } : State α).lastRequestStatusMessage g1 p2
      rw [h1, h2, h3, h6]
      simp only [hg, Option.getD_some] at hu
      refine ⟨?_, hu.information, hu.status, hu.attitude⟩
      intro hc
      rw [hu.isComplete, hc]
      rfl
    · rw [Table.find_set_ne _ _ _ _ hp]
      exact ⟨g, hg, id, id, id, id⟩

/-- C3 (completion monotonicity).  If a record is complete, then after any
inbound frame and after any command call, timer slot or joystick sample it is
still stored under its key, still complete, and none of its three
received-flags has been cleared.  Every call returns, except for the two whose
source runs into undefined behaviour (`sendPitchYawFlags` without an active
gimbal, a joystick axis read outside the sample). -/
theorem completion_monotone (env : Env α) (s : State α) (call : Call α) (p : GimbalPairId)
    (g : Gimbal α) (hg : Table.find s.potentialGimbals p = some g)
    (hc : g.isComplete = true) :
    (step env s call = none →
      (∃ fl, call = Call.sendPitchYawFlags fl) ∨ ∃ a, call = Call.handleJoystickGimbalInput a) ∧
    ∀ s2 out, step env s call = some (s2, out) →
      ∃ g2, Table.find s2.potentialGimbals p = some g2 ∧ g2.isComplete = true ∧
        (g.receivedGimbalManagerInformation = true →
          g2.receivedGimbalManagerInformation = true) ∧
        (g.receivedGimbalManagerStatus = true → g2.receivedGimbalManagerStatus = true) ∧
        (g.receivedGimbalDeviceAttitudeStatus = true →
          g2.receivedGimbalDeviceAttitudeStatus = true) := by
  constructor
  · intro hn
    cases call with
    | sendPitchYawFlags fl => exact Or.inl ⟨fl, rfl⟩
    | handleJoystickGimbalInput a => exact Or.inr ⟨a, rfl⟩
    | setGimbalRetract b => exact absurd hn (setGimbalRetract_ne_none env s b)
    | setGimbalYawLock b => exact absurd hn (setGimbalYawLock_ne_none env s b)
    | _ => simp [step] at hn
  · intro s2 out h
    by_cases hf : ∃ f, call = Call.mavlinkMessageReceived f
    · obtain ⟨f, rfl⟩ := hf
      simp only [step, Option.some.injEq] at h
      obtain ⟨g2, h2, a0, a1, a2, a3⟩ := mavlinkMessageReceived_monotone env s f p g hg
      rw [h] at h2
      exact ⟨g2, h2, a0 hc, a1, a2, a3⟩
    · have hcall : ∀ f, call ≠ Call.mavlinkMessageReceived f := fun f hcf => hf ⟨f, hcf⟩
      obtain ⟨g2, h2, b0, b1, b2, b3⟩ := step_command_kept env s s2 call out hcall h p g hg
      exact ⟨g2, h2, b0.trans hc, fun x => b1.trans x, fun x => b2.trans x, fun x => b3.trans x⟩

/-- Witness of C3: the complete record (154, 1) of the contested controller,
and the call `sendPitchBodyYaw(10, 20, false)`. -/
theorem completion_monotone_witness :
    Table.find Example.contested.potentialGimbals { managerCompid := 154, deviceId := 1 } =
      some Example.contestedRecord ∧
    Example.contestedRecord.isComplete = true ∧
    ∀ s2 out,
      step (Example.env 3000) Example.contested (Call.sendPitchBodyYaw 10 20 false) =
        some (s2, out) →
      ∃ g2, Table.find s2.potentialGimbals { managerCompid := 154, deviceId := 1 } = some g2 ∧
        g2.isComplete = true ∧
        (Example.contestedRecord.receivedGimbalManagerInformation = true →
          g2.receivedGimbalManagerInformation = true) ∧
        (Example.contestedRecord.receivedGimbalManagerStatus = true →
          g2.receivedGimbalManagerStatus = true) ∧
        (Example.contestedRecord.receivedGimbalDeviceAttitudeStatus = true →
          g2.receivedGimbalDeviceAttitudeStatus = true) :=
  ⟨rfl, by decide,
   (completion_monotone (Example.env 3000) Example.contested (Call.sendPitchBodyYaw 10 20 false)
      { managerCompid := 154, deviceId := 1 } Example.contestedRecord rfl (by decide)).2⟩


/-! ## Closed forms of `_checkComplete` -/

theorem probedRecord_flags (now last : Int) (g : Gimbal α) (p : GimbalPairId) :
    ∃ ri rs ra : Nat, probedRecord now last g p =
      { g with
        requestInformationRetries := ri
        requestStatusRetries := rs
        requestAttitudeRetries := ra } :=
  probes_fst now last g p

theorem checkComplete_of_complete (env : Env α) (s : State α) (g : Gimbal α) (p : GimbalPairId)
    (hc : g.isComplete = true) :
    checkComplete env s g p =
      ({ s with potentialGimbals := Table.set s.potentialGimbals p g }, []) := by
  simp only [checkComplete, hc, if_true]

theorem checkComplete_of_pending (env : Env α) (s : State α) (g : Gimbal α) (p : GimbalPairId)
    (hc : g.isComplete = false) (hall : g.allReceived = false) :
    checkComplete env s g p =
      ({ s with
          lastRequestStatusMessage := probedLast env.now s.lastRequestStatusMessage g p
          potentialGimbals := Table.set s.potentialGimbals p
            (probedRecord env.now s.lastRequestStatusMessage g p) },
       probedOutput env.now s.lastRequestStatusMessage g p) := by
  obtain ⟨ri, rs, ra, h⟩ := probes_fst env.now s.lastRequestStatusMessage g p
  have hcond : ((checkCompleteAttitude (checkCompleteStatus env.now s.lastRequestStatusMessage
      (checkCompleteInformation g p).1 p).1 p).1.receivedGimbalManagerInformation = false ∨
      (checkCompleteAttitude (checkCompleteStatus env.now s.lastRequestStatusMessage
      (checkCompleteInformation g p).1 p).1 p).1.receivedGimbalManagerStatus = false ∨
      (checkCompleteAttitude (checkCompleteStatus env.now s.lastRequestStatusMessage
      (checkCompleteInformation g p).1 p).1 p).1.receivedGimbalDeviceAttitudeStatus = false) := by
    rw [h]
    simp only [Gimbal.allReceived] at hall
    cases hI : g.receivedGimbalManagerInformation <;>
      cases hS : g.receivedGimbalManagerStatus <;>
      cases hA : g.receivedGimbalDeviceAttitudeStatus <;> simp_all
  simp only [checkComplete, hc, hcond, if_true, probedLast, probedRecord, probedOutput]
  simp

theorem checkComplete_of_completing (env : Env α) (s : State α) (g : Gimbal α)
    (p : GimbalPairId) (hc : g.isComplete = false) (hall : g.allReceived = true) :
    checkComplete env s g p =
      ({ s with
          lastRequestStatusMessage := probedLast env.now s.lastRequestStatusMessage g p
          potentialGimbals := Table.set s.potentialGimbals p
            { probedRecord env.now s.lastRequestStatusMessage g p with isComplete := true }
          activeGimbal := if s.activeGimbal = none then some p else s.activeGimbal
          gimbals := s.gimbals ++ [p] },
       probedOutput env.now s.lastRequestStatusMessage g p ++
         (if s.activeGimbal = none then [Output.activeGimbalChanged] else []) ++
         [Output.addFactGroup p]) := by
  obtain ⟨ri, rs, ra, h⟩ := probes_fst env.now s.lastRequestStatusMessage g p
  have hcond : ¬ ((checkCompleteAttitude (checkCompleteStatus env.now s.lastRequestStatusMessage
      (checkCompleteInformation g p).1 p).1 p).1.receivedGimbalManagerInformation = false ∨
      (checkCompleteAttitude (checkCompleteStatus env.now s.lastRequestStatusMessage
      (checkCompleteInformation g p).1 p).1 p).1.receivedGimbalManagerStatus = false ∨
      (checkCompleteAttitude (checkCompleteStatus env.now s.lastRequestStatusMessage
      (checkCompleteInformation g p).1 p).1 p).1.receivedGimbalDeviceAttitudeStatus = false) := by
    rw [h]
    simp only [Gimbal.allReceived] at hall
    cases hI : g.receivedGimbalManagerInformation <;>
      cases hS : g.receivedGimbalManagerStatus <;>
      cases hA : g.receivedGimbalDeviceAttitudeStatus <;> simp_all
  simp only [checkComplete, hc, hcond, if_false, probedLast, probedRecord, probedOutput]
  cases ha : s.activeGimbal with
  | none => simp [setActiveGimbal, ha]
  | some k => simp [ha]


/-! ## Handling a frame twice -/

theorem Table.set_set {κ ν : Type} [DecidableEq κ] (t : List (κ × ν)) (k : κ) (a b : ν) :
    Table.set (Table.set t k a) k b = Table.set t k b := by
  induction t with
  | nil => simp [Table.set]
  | cons hd tl ih =>
    by_cases h : hd.1 = k
    · simp [Table.set, h]
    · simp [Table.set, h, ih]

theorem Table.map_set_congr {κ ν : Type} [DecidableEq κ] (F : ν → ν) (t : List (κ × ν)) (k : κ)
    (a b : ν) (h : F a = F b) :
    (Table.set t k a).map (fun kv => (kv.1, F kv.2)) =
      (Table.set t k b).map (fun kv => (kv.1, F kv.2)) := by
  induction t with
  | nil => simp [Table.set, h]
  | cons hd tl ih =>
    by_cases h1 : hd.1 = k
    · simp [Table.set, h1, h]
    · simp [Table.set, h1, ih]

theorem checkCompleteStatus_idem (now last : Int) (g h : Gimbal α) (p : GimbalPairId)
    (hS : h.receivedGimbalManagerStatus = g.receivedGimbalManagerStatus)
    (hr : h.requestStatusRetries = (checkCompleteStatus now last g p).1.requestStatusRetries) :
    checkCompleteStatus now (checkCompleteStatus now last g p).2.1 h p =
      (h, (checkCompleteStatus now last g p).2.1, []) := by
  by_cases hc : g.receivedGimbalManagerStatus = false ∧ 0 < g.requestStatusRetries ∧
      1000 < now - last
  · have e : checkCompleteStatus now last g p =
        ({ g with requestStatusRetries := g.requestStatusRetries - 1 }, now,
         [requestStatusInterval p.managerCompid g.requestStatusRetries]) := by
      simp only [checkCompleteStatus, hc, and_self, if_true]
    rw [e]
    have hn : ¬ (h.receivedGimbalManagerStatus = false ∧ 0 < h.requestStatusRetries ∧
        1000 < now - now) := by
      intro hh
      have := hh.2.2
      omega
    simp only [checkCompleteStatus, hn, if_false]
  · have e : checkCompleteStatus now last g p = (g, last, []) := by
      simp only [checkCompleteStatus, hc, if_false]
    rw [e] at hr ⊢
    have hn : ¬ (h.receivedGimbalManagerStatus = false ∧ 0 < h.requestStatusRetries ∧
        1000 < now - last) := by
      rw [hS, hr]
      exact hc
    simp only [checkCompleteStatus, hn, if_false]

theorem probed_idem (now last : Int) (g : Gimbal α) (p : GimbalPairId) :
    probedLast now (probedLast now last g p) (probedRecord now last g p) p =
      probedLast now last g p ∧
    (probedRecord now (probedLast now last g p) (probedRecord now last g p) p).forgetProbeBudgets =
      (probedRecord now last g p).forgetProbeBudgets := by
  obtain ⟨a, ha⟩ : ∃ a, (checkCompleteInformation g p).1 =
      { g with requestInformationRetries := a } := ⟨_, checkCompleteInformation_fst g p⟩
  obtain ⟨b, hb⟩ : ∃ b, (checkCompleteStatus now last (checkCompleteInformation g p).1 p).1 =
      { (checkCompleteInformation g p).1 with requestStatusRetries := b } :=
    ⟨_, checkCompleteStatus_fst now last _ p⟩
  obtain ⟨c, hc⟩ : ∃ c, probedRecord now last g p =
      { (checkCompleteStatus now last (checkCompleteInformation g p).1 p).1 with
        requestAttitudeRetries := c } := ⟨_, checkCompleteAttitude_fst _ p⟩
  obtain ⟨a2, ha2⟩ : ∃ a2, (checkCompleteInformation (probedRecord now last g p) p).1 =
      { probedRecord now last g p with requestInformationRetries := a2 } :=
    ⟨_, checkCompleteInformation_fst _ p⟩
  have hst := checkCompleteStatus_idem now last (checkCompleteInformation g p).1
    (checkCompleteInformation (probedRecord now last g p) p).1 p
    (by rw [ha2, hc, hb]) (by rw [ha2, hc])
  obtain ⟨c2, hc2⟩ : ∃ c2,
      (checkCompleteAttitude (checkCompleteInformation (probedRecord now last g p) p).1 p).1 =
      { (checkCompleteInformation (probedRecord now last g p) p).1 with
        requestAttitudeRetries := c2 } := ⟨_, checkCompleteAttitude_fst _ p⟩
  constructor
  · show (checkCompleteStatus now (probedLast now last g p)
      (checkCompleteInformation (probedRecord now last g p) p).1 p).2.1 = _
    simp only [probedLast]
    rw [hst]
  · show (checkCompleteAttitude (checkCompleteStatus now (probedLast now last g p)
      (checkCompleteInformation (probedRecord now last g p) p).1 p).1 p).1.forgetProbeBudgets = _
    simp only [probedLast]
    rw [hst, hc2, ha2]
    rfl


theorem probedRecord_isComplete (now last : Int) (g : Gimbal α) (p : GimbalPairId) :
    (probedRecord now last g p).isComplete = g.isComplete ∧
    (probedRecord now last g p).allReceived = g.allReceived := by
  obtain ⟨ri, rs, ra, h⟩ := probedRecord_flags now last g p
  rw [h]
  exact ⟨rfl, rfl⟩

/-- Running `_checkComplete` again on the record it has just stored changes
nothing but that record's information and attitude retry budgets. -/
theorem checkComplete_idem (env : Env α) (s : State α) (g : Gimbal α) (p : GimbalPairId) :
    (checkComplete env (checkComplete env s g p).1
        (checkCompleteRecord env.now s.lastRequestStatusMessage g p) p).1.forgetProbeBudgets =
      (checkComplete env s g p).1.forgetProbeBudgets := by
  cases hc : g.isComplete with
  | true =>
    have hr : checkCompleteRecord env.now s.lastRequestStatusMessage g p = g := by
      simp only [checkCompleteRecord, hc, if_true]
    rw [hr, checkComplete_of_complete env s g p hc, checkComplete_of_complete env _ g p hc]
    simp only [Table.set_set]
  | false =>
    cases hall : g.allReceived with
    | true =>
      have hr : checkCompleteRecord env.now s.lastRequestStatusMessage g p =
          { probedRecord env.now s.lastRequestStatusMessage g p with isComplete := true } := by
        have h2 := (probedRecord_isComplete env.now s.lastRequestStatusMessage g p).2
        rw [hall] at h2
        simp only [Gimbal.allReceived, Bool.and_eq_true] at h2
        simp only [checkCompleteRecord, hc, probedRecord] at h2 ⊢
        simp [h2.1.1, h2.1.2, h2.2]
      rw [hr, checkComplete_of_completing env s g p hc hall,
        checkComplete_of_complete env _ _ p rfl]
      simp only [Table.set_set]
    | false =>
      have hr : checkCompleteRecord env.now s.lastRequestStatusMessage g p =
          probedRecord env.now s.lastRequestStatusMessage g p := by
        have h2 := (probedRecord_isComplete env.now s.lastRequestStatusMessage g p).2
        rw [hall] at h2
        simp only [Gimbal.allReceived, Bool.and_eq_false_iff] at h2
        simp only [checkCompleteRecord, hc, probedRecord] at h2 ⊢
        have h3 : (checkCompleteAttitude (checkCompleteStatus env.now s.lastRequestStatusMessage
            (checkCompleteInformation g p).1 p).1 p).1.receivedGimbalManagerInformation = false ∨
            (checkCompleteAttitude (checkCompleteStatus env.now s.lastRequestStatusMessage
            (checkCompleteInformation g p).1 p).1 p).1.receivedGimbalManagerStatus = false ∨
            (checkCompleteAttitude (checkCompleteStatus env.now s.lastRequestStatusMessage
            (checkCompleteInformation g p).1 p).1 p).1.receivedGimbalDeviceAttitudeStatus = false := by
          tauto
        simp [h3]
      obtain ⟨h1, h2⟩ := probedRecord_isComplete env.now s.lastRequestStatusMessage g p
      obtain ⟨i1, i2⟩ := probed_idem env.now s.lastRequestStatusMessage g p
      rw [hr, checkComplete_of_pending env s g p hc hall,
        checkComplete_of_pending env _ _ p (h1.trans hc) (h2.trans hall)]
      simp only [State.forgetProbeBudgets, Table.set_set, i1]
      rw [Table.map_set_congr Gimbal.forgetProbeBudgets _ _ _ _ i2]

theorem checkCompleteRecord_form (now last : Int) (g : Gimbal α) (p : GimbalPairId) :
    ∃ (x : Bool) (ri rs ra : Nat), checkCompleteRecord now last g p =
      { g with
        isComplete := x
        requestInformationRetries := ri
        requestStatusRetries := rs
        requestAttitudeRetries := ra } := by
  obtain ⟨ri, rs, ra, h⟩ := probes_fst now last g p
  simp only [checkCompleteRecord, h]
  split_ifs
  · exact ⟨g.isComplete, g.requestInformationRetries, g.requestStatusRetries,
      g.requestAttitudeRetries, rfl⟩
  · exact ⟨g.isComplete, ri, rs, ra, rfl⟩
  · exact ⟨true, ri, rs, ra, rfl⟩

theorem checkComplete_managers (env : Env α) (s : State α) (g : Gimbal α) (p : GimbalPairId) :
    (checkComplete env s g p).1.potentialGimbalManagers = s.potentialGimbalManagers := by
  simp only [checkComplete, setActiveGimbal]
  split_ifs <;> rfl

theorem informationRecord_idem (now last : Int) (g0 : Gimbal α) (c d cap : Nat)
    (p : GimbalPairId) :
    informationRecord (checkCompleteRecord now last (informationRecord g0 c d cap) p) c d cap =
      checkCompleteRecord now last (informationRecord g0 c d cap) p := by
  obtain ⟨x, ri, rs, ra, h⟩ := checkCompleteRecord_form now last (informationRecord g0 c d cap) p
  rw [h]
  rfl

theorem statusRecord_idem (env : Env α) (now last : Int) (g0 : Gimbal α) (c d ps pc : Nat)
    (p : GimbalPairId) (hd : d ≠ 0) :
    statusRecord env (checkCompleteRecord now last (statusRecord env g0 c d ps pc) p) c d ps pc =
      checkCompleteRecord now last (statusRecord env g0 c d ps pc) p := by
  obtain ⟨x, ri, rs, ra, h⟩ := checkCompleteRecord_form now last (statusRecord env g0 c d ps pc) p
  rw [h]
  simp only [statusRecord]
  by_cases h1 : g0.deviceId = 0 <;> by_cases h2 : g0.managerCompid = 0 <;>
    by_cases h3 : c = 0 <;> simp [h1, h2, h3, hd]

theorem attitudeRecord_idem (env : Env α) (now last : Int) (g0 : Gimbal α) (fl : Nat)
    (q : Quat α) (p : GimbalPairId) :
    attitudeRecord env (checkCompleteRecord now last (attitudeRecord env g0 fl q) p) fl q =
      checkCompleteRecord now last (attitudeRecord env g0 fl q) p := by
  obtain ⟨x, ri, rs, ra, h⟩ := checkCompleteRecord_form now last (attitudeRecord env g0 fl q) p
  rw [h]
  simp only [attitudeRecord]
  by_cases h1 : yawInVehicleFrame fl = true <;> simp [h1]

theorem informationManagers_idem (s s2 : State α) (c : Nat)
    (h : s2.potentialGimbalManagers = informationManagers s c) :
    informationManagers s2 c = s2.potentialGimbalManagers := by
  simp only [informationManagers] at h ⊢
  rw [h, Table.find_set_self, Table.set_set]
  rfl

theorem Table.find?_set {κ ν : Type} [DecidableEq κ] (pred : κ × ν → Bool) (t : List (κ × ν))
    (k : κ) (r : ν) (hr : ∀ v, Table.find t k = some v → pred (k, r) = pred (k, v))
    (hfound : (t.find? pred).isSome = true) :
    ((Table.set t k r).find? pred).map (fun kv => kv.1) = (t.find? pred).map (fun kv => kv.1) := by
  induction t with
  | nil => simp at hfound
  | cons hd tl ih =>
    obtain ⟨a, v⟩ := hd
    by_cases h1 : a = k
    · subst h1
      have hp : pred (a, r) = pred (a, v) := hr v (by simp [Table.find])
      simp only [Table.set, if_true, List.find?_cons, hp]
      cases pred (a, v) <;> rfl
    · simp only [Table.set, h1, if_false, List.find?_cons]
      cases hpa : pred (a, v) with
      | true => rfl
      | false =>
        simp only [List.find?_cons, hpa] at hfound
        refine ih ?_ hfound
        intro v2 hv2
        exact hr v2 (by simpa [Table.find, h1] using hv2)

theorem attitudePairId_stable (s s2 : State α) (c d : Nat) (p : GimbalPairId) (r : Gimbal α)
    (hp : attitudePairId s c d = some p)
    (h2 : s2.potentialGimbals = Table.set s.potentialGimbals p r)
    (hr : r.deviceId = ((Table.find s.potentialGimbals p).getD Gimbal.new).deviceId) :
    attitudePairId s2 c d = some p := by
  by_cases hd : d = 0
  · simp only [attitudePairId, hd, if_true] at hp ⊢
    cases hf : s.potentialGimbals.find? (fun kv => decide (kv.2.deviceId = c)) with
    | none =>
      rw [hf] at hp
      exact absurd hp (by simp)
    | some found =>
      rw [hf] at hp
      have key := Table.find?_set (fun kv : GimbalPairId × Gimbal α => decide (kv.2.deviceId = c))
        s.potentialGimbals p r
        (by
          intro v hv
          rw [hv] at hr
          simp only [Option.getD_some] at hr
          simp only [hr])
        (by rw [hf]; rfl)
      rw [← h2, hf] at key
      cases hf2 : s2.potentialGimbals.find? (fun kv => decide (kv.2.deviceId = c)) with
      | none =>
        rw [hf2] at key
        exact absurd key (by simp)
      | some found2 =>
        rw [hf2] at key
        simp only [Option.map_some', Option.some.injEq] at key
        simp only [Option.some.injEq] at hp ⊢
        rw [key]
        exact hp
  · simp only [attitudePairId, hd, if_false] at hp ⊢
    exact hp

theorem attitudeRecord_deviceId (env : Env α) (now last : Int) (g0 : Gimbal α) (fl : Nat)
    (q : Quat α) (p : GimbalPairId) :
    (checkCompleteRecord now last (attitudeRecord env g0 fl q) p).deviceId = g0.deviceId := by
  obtain ⟨x, ri, rs, ra, h⟩ := checkCompleteRecord_form now last (attitudeRecord env g0 fl q) p
  rw [h]
  simp only [attitudeRecord]
  by_cases h1 : yawInVehicleFrame fl = true <;> simp [h1]

/-- Handling a discovery frame a second time in the same environment changes
nothing but information and attitude retry budgets. -/
theorem mavlinkMessageReceived_twice (env : Env α) (s : State α) (f : Frame α)
    (hf : ∀ c, f ≠ Frame.heartbeat c) :
    (mavlinkMessageReceived env (mavlinkMessageReceived env s f).1 f).1.forgetProbeBudgets =
      (mavlinkMessageReceived env s f).1.forgetProbeBudgets := by
  by_cases hr : env.parametersReady = false
  · simp only [mavlinkMessageReceived_notReady env _ f hr]
  · have hr1 : env.parametersReady = true := by simpa using hr
    cases f with
    | heartbeat c => exact absurd rfl (hf c)
    | other i => simp only [mavlinkMessageReceived_other env _ i hr1]
    | gimbalManagerInformation c d cap =>
      simp only [mavlinkMessageReceived_information env _ c d cap hr1]
      by_cases hd : d = 0
      · simp [handleGimbalManagerInformation, hd]
      · rw [handleGimbalManagerInformation_eq env _ c d cap hd,
          handleGimbalManagerInformation_eq env s c d cap hd]
        rw [show Table.find (checkComplete env
              { s with potentialGimbalManagers := informationManagers s c }
              (informationRecord ((Table.find s.potentialGimbals ⟨c, d⟩).getD Gimbal.new) c d cap)
              ⟨c, d⟩).1.potentialGimbals ⟨c, d⟩ = some _ from by
            rw [checkComplete_potentialGimbals]; exact Table.find_set_self _ _ _]
        simp only [Option.getD_some]
        rw [informationRecord_idem]
        rw [informationManagers_idem s _ c (checkComplete_managers env _ _ _)]
        exact checkComplete_idem env { s with potentialGimbalManagers := informationManagers s c }
          _ ⟨c, d⟩
    | gimbalManagerStatus c d ps pc =>
      simp only [mavlinkMessageReceived_status env _ c d ps pc hr1]
      by_cases hd : d = 0
      · simp [handleGimbalManagerStatus, hd]
      · rw [handleGimbalManagerStatus_eq env _ c d ps pc hd,
          handleGimbalManagerStatus_eq env s c d ps pc hd]
        rw [show Table.find (checkComplete env s
              (statusRecord env ((Table.find s.potentialGimbals ⟨c, d⟩).getD Gimbal.new) c d ps pc)
              ⟨c, d⟩).1.potentialGimbals ⟨c, d⟩ = some _ from by
            rw [checkComplete_potentialGimbals]; exact Table.find_set_self _ _ _]
        simp only [Option.getD_some]
        rw [statusRecord_idem env _ _ _ c d ps pc _ hd]
        exact checkComplete_idem env s _ ⟨c, d⟩
    | gimbalDeviceAttitudeStatus c d fl q =>
      simp only [mavlinkMessageReceived_attitude env _ c d fl q hr1]
      cases hp : attitudePairId s c d with
      | none => simp [handleGimbalDeviceAttitudeStatus, hp]
      | some p =>
        have hp2 := attitudePairId_stable s
          (handleGimbalDeviceAttitudeStatus env s c d fl q).1 c d p
          (checkCompleteRecord env.now s.lastRequestStatusMessage
            (attitudeRecord env ((Table.find s.potentialGimbals p).getD Gimbal.new) fl q) p) hp
          (by rw [handleGimbalDeviceAttitudeStatus_eq env s c d fl q p hp,
                checkComplete_potentialGimbals])
          (attitudeRecord_deviceId env _ _ _ fl q p)
        rw [handleGimbalDeviceAttitudeStatus_eq env _ c d fl q p hp2,
          handleGimbalDeviceAttitudeStatus_eq env s c d fl q p hp]
        rw [show Table.find (checkComplete env s
              (attitudeRecord env ((Table.find s.potentialGimbals p).getD Gimbal.new) fl q)
              p).1.potentialGimbals p = some _ from by
            rw [checkComplete_potentialGimbals]; exact Table.find_set_self _ _ _]
        simp only [Option.getD_some]
        rw [attitudeRecord_idem]
        exact checkComplete_idem env s _ p

theorem receiveTimes_succ_forget (env : Env α) (f : Frame α) (hf : ∀ c, f ≠ Frame.heartbeat c)
    (n : Nat) (s : State α) :
    (receiveTimes env f (n + 1) s).forgetProbeBudgets =
      (mavlinkMessageReceived env s f).1.forgetProbeBudgets := by
  induction n generalizing s with
  | zero => rfl
  | succ n ih =>
    show (receiveTimes env f (n + 1) (mavlinkMessageReceived env s f).1).forgetProbeBudgets = _
    rw [ih, mavlinkMessageReceived_twice env s f hf]

/-- C4, as amended (idempotent discovery).  With the environment (clock, heading,
our ids) held fixed, handling a GIMBAL_MANAGER_INFORMATION, GIMBAL_MANAGER_STATUS
or GIMBAL_DEVICE_ATTITUDE_STATUS frame `n ≥ 1` times leaves the same controller
as handling it once — same records under the same keys with the same fields,
`request_status_retries` included, same exposed list, active gimbal, manager
table and throttle clock — except for the `request_info_retries` and
`request_attitude_retries` budgets of the records. -/
theorem idempotent_discovery (env : Env α) (s : State α) (f : Frame α)
    (hf : ∀ c, f ≠ Frame.heartbeat c) (n : Nat) (hn : 1 ≤ n) :
    (receiveTimes env f n s).forgetProbeBudgets =
      (receiveTimes env f 1 s).forgetProbeBudgets := by
  obtain ⟨m, rfl⟩ : ∃ m, n = m + 1 := ⟨n - 1, by omega⟩
  rw [receiveTimes_succ_forget env f hf m s, receiveTimes_succ_forget env f hf 0 s]

/-- Witness of C4 as amended: the information frame of gimbal (154, 1) handled
three times by the empty controller. -/
theorem idempotent_discovery_witness :
    (receiveTimes (Example.env 2000) (Frame.gimbalManagerInformation 154 1 127) 3
        State.empty).forgetProbeBudgets =
      (receiveTimes (Example.env 2000) (Frame.gimbalManagerInformation 154 1 127) 1
        State.empty).forgetProbeBudgets :=
  idempotent_discovery (Example.env 2000) State.empty (Frame.gimbalManagerInformation 154 1 127)
    (fun c h => by cases h) 3 (by decide)

/-- Counterexample to C4 as stated: a second copy of the same frame, handled with
the same clock and heading, uses up one more retry.  The information frame of
(154, 1) leaves `request_attitude_retries` at 4 after one copy and at 3 after
two; the status frame does the same to `request_info_retries`. -/
theorem idempotent_discovery_counterexample :
    ((Table.find (receiveTimes (Example.env 2000) (Frame.gimbalManagerInformation 154 1 127) 1
        State.empty).potentialGimbals { managerCompid := 154, deviceId := 1 }).getD
          Gimbal.new).requestAttitudeRetries = 4 ∧
    ((Table.find (receiveTimes (Example.env 2000) (Frame.gimbalManagerInformation 154 1 127) 2
        State.empty).potentialGimbals { managerCompid := 154, deviceId := 1 }).getD
          Gimbal.new).requestAttitudeRetries = 3 ∧
    ((Table.find (receiveTimes (Example.env 2000) (Frame.gimbalManagerStatus 154 1 0 0) 1
        State.empty).potentialGimbals { managerCompid := 154, deviceId := 1 }).getD
          Gimbal.new).requestInformationRetries = 4 ∧
    ((Table.find (receiveTimes (Example.env 2000) (Frame.gimbalManagerStatus 154 1 0 0) 2
        State.empty).potentialGimbals { managerCompid := 154, deviceId := 1 }).getD
          Gimbal.new).requestInformationRetries = 3 ∧
    Table.find (receiveTimes (Example.env 2000) (Frame.gimbalManagerInformation 154 1 127) 2
        State.empty).potentialGimbals { managerCompid := 154, deviceId := 1 } ≠
      Table.find (receiveTimes (Example.env 2000) (Frame.gimbalManagerInformation 154 1 127) 1
        State.empty).potentialGimbals { managerCompid := 154, deviceId := 1 } := by
  refine ⟨by decide, by decide, by decide, by decide, ?_⟩
  intro h
  have h2 := congrArg (fun o : Option (Gimbal ℚ) => (o.getD Gimbal.new).requestAttitudeRetries) h
  revert h2
  decide


theorem isCompleteAt_iff_getD (s : State α) (p : GimbalPairId) :
    s.isCompleteAt p ↔ ((Table.find s.potentialGimbals p).getD Gimbal.new).isComplete = true := by
  unfold State.isCompleteAt
  cases h : Table.find s.potentialGimbals p with
  | none => simp [Gimbal.new]
  | some g => simp

theorem isCompleteAt_set_self (s s2 : State α) (p : GimbalPairId) (r : Gimbal α)
    (h : s2.potentialGimbals = Table.set s.potentialGimbals p r) :
    s2.isCompleteAt p ↔ r.isComplete = true := by
  unfold State.isCompleteAt
  rw [h, Table.find_set_self]
  simp

theorem isCompleteAt_set_ne (s s2 : State α) (p q : GimbalPairId) (r : Gimbal α)
    (h : s2.potentialGimbals = Table.set s.potentialGimbals p r) (hq : p ≠ q) :
    s2.isCompleteAt q ↔ s.isCompleteAt q := by
  unfold State.isCompleteAt
  rw [h, Table.find_set_ne _ _ _ _ hq]

/-- One frame keeps the exposed list equal to the set of complete records,
without repetition, and appends exactly the records that became complete. -/
theorem exposed_step (env : Env α) (s : State α) (f : Frame α)
    (hN : s.gimbals.Nodup) (hM : ∀ p, p ∈ s.gimbals ↔ s.isCompleteAt p) :
    (mavlinkMessageReceived env s f).1.gimbals.Nodup ∧
    (∀ p, p ∈ (mavlinkMessageReceived env s f).1.gimbals ↔
      (mavlinkMessageReceived env s f).1.isCompleteAt p) ∧
    ∃ l, (mavlinkMessageReceived env s f).1.gimbals = s.gimbals ++ l ∧
      ∀ p, p ∈ l ↔ ((mavlinkMessageReceived env s f).1.isCompleteAt p ∧ ¬ s.isCompleteAt p) := by
  rcases mavlinkMessageReceived_shape env s f with ⟨_, m, out, h, _⟩ | ⟨p, m, g, _, _, h, hu⟩
  · rw [h]
    refine ⟨hN, hM, [], by simp, ?_⟩
    intro p
    simp only [List.not_mem_nil, false_iff, not_and, not_not]
    exact fun hp => hp
  · have h0 : s.isCompleteAt p ↔ g.isComplete = true := by
      rw [isCompleteAt_iff_getD, hu.isComplete]
    rw [h]
    cases hc : g.isComplete with
    | true =>
      rw [checkComplete_of_complete env _ g p hc]
      have hp : ∀ q, State.isCompleteAt ({ ({ s with potentialGimbalManagers := m } : State α) with
          potentialGimbals := Table.set s.potentialGimbals p g }) q ↔ s.isCompleteAt q := by
        intro q
        by_cases hq : p = q
        · subst hq
          rw [isCompleteAt_set_self s _ p g rfl, h0]
        · exact isCompleteAt_set_ne s _ p q g rfl hq
      refine ⟨hN, fun q => (hM q).trans (hp q).symm, [], by simp, ?_⟩
      intro q
      simp only [List.not_mem_nil, false_iff, not_and, not_not]
      exact fun hq => (hp q).mp hq
    | false =>
      obtain ⟨i1, i2⟩ := probedRecord_isComplete env.now s.lastRequestStatusMessage g p
      cases hall : g.allReceived with
      | false =>
        rw [checkComplete_of_pending env _ g p hc hall]
        have hp : ∀ q, State.isCompleteAt ({ ({ s with potentialGimbalManagers := m } : State α) with
            lastRequestStatusMessage := probedLast env.now s.lastRequestStatusMessage g p
            potentialGimbals := Table.set s.potentialGimbals p
              (probedRecord env.now s.lastRequestStatusMessage g p) }) q ↔ s.isCompleteAt q := by
          intro q
          by_cases hq : p = q
          · subst hq
            rw [isCompleteAt_set_self s _ p _ rfl, h0, i1]
          · exact isCompleteAt_set_ne s _ p q _ rfl hq
        refine ⟨hN, fun q => (hM q).trans (hp q).symm, [], by simp, ?_⟩
        intro q
        simp only [List.not_mem_nil, false_iff, not_and, not_not]
        exact fun hq => (hp q).mp hq
      | true =>
        rw [checkComplete_of_completing env _ g p hc hall]
        have hnp : ¬ s.isCompleteAt p := by
          rw [h0, hc]
          simp
        have hpp : State.isCompleteAt ({ ({ s with potentialGimbalManagers := m } : State α) with
            lastRequestStatusMessage := probedLast env.now s.lastRequestStatusMessage g p
            potentialGimbals := Table.set s.potentialGimbals p
              { probedRecord env.now s.lastRequestStatusMessage g p with isComplete := true }
            activeGimbal := if s.activeGimbal = none then some p else s.activeGimbal
            gimbals := s.gimbals ++ [p] }) p :=
          (isCompleteAt_set_self s _ p _ rfl).mpr rfl
        have hp : ∀ q, p ≠ q → (State.isCompleteAt ({ ({ s with potentialGimbalManagers := m } : State α) with
            lastRequestStatusMessage := probedLast env.now s.lastRequestStatusMessage g p
            potentialGimbals := Table.set s.potentialGimbals p
              { probedRecord env.now s.lastRequestStatusMessage g p with isComplete := true }
            activeGimbal := if s.activeGimbal = none then some p else s.activeGimbal
            gimbals := s.gimbals ++ [p] }) q ↔ s.isCompleteAt q) :=
          fun q hq => isCompleteAt_set_ne s _ p q _ rfl hq
        refine ⟨?_, ?_, [p], rfl, ?_⟩
        · show (s.gimbals ++ [p]).Nodup
          rw [List.nodup_append]
          refine ⟨hN, List.nodup_singleton p, ?_⟩
          intro a ha hb
          simp only [List.mem_singleton] at hb
          subst hb
          exact hnp ((hM a).mp ha)
        · intro q
          show q ∈ s.gimbals ++ [p] ↔ _
          by_cases hq : p = q
          · subst hq
            simp only [List.mem_append, List.mem_singleton, or_true, true_iff]
            exact hpp
          · rw [hp q hq, ← hM q]
            simp only [List.mem_append, List.mem_singleton]
            constructor
            · rintro (hh | hh)
              · exact hh
              · exact absurd hh.symm hq
            · exact Or.inl
        · intro q
          by_cases hq : p = q
          · subst hq
            simp only [List.mem_singleton, true_iff]
            exact ⟨hpp, hnp⟩
          · rw [hp q hq]
            simp only [List.mem_singleton]
            constructor
            · intro hh
              exact absurd hh.symm hq
            · intro hh
              exact absurd hh.1 hh.2

/-- C5 (exposed list).  In every state reached from the empty controller by a
sequence of inbound frames, the exposed list has no repetition and holds
exactly the keys of the complete records; and the next frame, whatever it is,
only appends to it, namely the records that it makes complete (so the list is
in order of completion and a duplicate frame appends nothing). -/
theorem exposed_list (evs : List (Env α × Frame α)) (env : Env α) (f : Frame α) :
    (receiveAll State.empty evs).1.gimbals.Nodup ∧
    (∀ p, p ∈ (receiveAll State.empty evs).1.gimbals ↔
      (receiveAll State.empty evs).1.isCompleteAt p) ∧
    ∃ l, (mavlinkMessageReceived env (receiveAll State.empty evs).1 f).1.gimbals =
        (receiveAll State.empty evs).1.gimbals ++ l ∧
      ∀ p, p ∈ l ↔
        ((mavlinkMessageReceived env (receiveAll State.empty evs).1 f).1.isCompleteAt p ∧
          ¬ (receiveAll State.empty evs).1.isCompleteAt p) := by
  have hinv : (receiveAll (State.empty : State α) evs).1.gimbals.Nodup ∧
      ∀ p, p ∈ (receiveAll (State.empty : State α) evs).1.gimbals ↔
        (receiveAll (State.empty : State α) evs).1.isCompleteAt p := by
    refine receiveAll_induct
      (fun s => s.gimbals.Nodup ∧ ∀ p, p ∈ s.gimbals ↔ s.isCompleteAt p) ?_ State.empty ?_ evs
    · intro env s f hs
      obtain ⟨h1, h2, _⟩ := exposed_step env s f hs.1 hs.2
      exact ⟨h1, h2⟩
    · refine ⟨by simp [State.empty], ?_⟩
      intro p
      simp [State.empty, State.isCompleteAt, Table.find]
  exact ⟨hinv.1, hinv.2, (exposed_step env _ f hinv.1 hinv.2).2.2⟩


theorem modifyActive_activeRecord (s : State α) (f : Gimbal α → Gimbal α) :
    (s.modifyActive f).activeRecord = s.activeRecord.map f := by
  cases ha : s.activeGimbal with
  | none => simp [State.modifyActive, State.activeRecord, ha]
  | some k =>
    cases hk : Table.find s.potentialGimbals k with
    | none => simp [State.modifyActive, State.activeRecord, ha, hk]
    | some g => simp [State.modifyActive, State.activeRecord, ha, hk, Table.find_set_self]

theorem absoluteCommandState_activeRecord (s : State α) :
    (absoluteCommandState s).activeRecord =
      s.activeRecord.map (fun g => { g with absolutePitch := 0, yawRate := 0 }) := by
  simp only [absoluteCommandState, modifyActive_activeRecord]
  have : ({ s with rateSenderTimerActive := false } : State α).activeRecord = s.activeRecord := rfl
  rw [this]
  cases s.activeRecord <;> rfl

theorem tryGetGimbalControl_fst (env : Env α) (s : State α) (g : Gimbal α)
    (hg : s.activeRecord = some g) (ho : g.gimbalOthersHaveControl = false) :
    (tryGetGimbalControl env s).1 = true := by
  cases hh : g.gimbalHaveControl <;> simp [tryGetGimbalControl, hg, ho, hh]

/-- What `sendPitchAbsoluteYaw` emits once the control test has passed. -/
theorem sendPitchAbsoluteYaw_snd (env : Env α) (s : State α) (pitch yaw : α) (e : Bool)
    (g : Gimbal α) (hg : s.activeRecord = some g) (ho : g.gimbalOthersHaveControl = false) :
    (sendPitchAbsoluteYaw env s pitch yaw e).2 =
      (tryGetGimbalControl env s).2 ++
        [pitchYawCommand g e (Param.num pitch) (Param.num (wrapYaw yaw)) Param.nan Param.nan
          (GIMBAL_MANAGER_FLAGS_ROLL_LOCK ||| GIMBAL_MANAGER_FLAGS_PITCH_LOCK |||
            GIMBAL_MANAGER_FLAGS_YAW_LOCK ||| GIMBAL_MANAGER_FLAGS_YAW_IN_EARTH_FRAME)] := by
  have h1 : ¬ (tryGetGimbalControl env s).1 = false := by
    rw [tryGetGimbalControl_fst env s g hg ho]
    simp
  have h3 := absoluteCommandState_activeRecord s
  rw [hg] at h3
  simp only [absoluteCommandState, Option.map_some'] at h3
  simp only [sendPitchAbsoluteYaw, h1, if_false, h3]
  rfl

/-- What `sendPitchBodyYaw` emits once the control test has passed. -/
theorem sendPitchBodyYaw_snd (env : Env α) (s : State α) (pitch yaw : α) (e : Bool)
    (g : Gimbal α) (hg : s.activeRecord = some g) (ho : g.gimbalOthersHaveControl = false) :
    (sendPitchBodyYaw env s pitch yaw e).2 =
      (tryGetGimbalControl env s).2 ++
        [pitchYawCommand g e (Param.num pitch) (Param.num yaw) Param.nan Param.nan
          (GIMBAL_MANAGER_FLAGS_ROLL_LOCK ||| GIMBAL_MANAGER_FLAGS_PITCH_LOCK |||
            GIMBAL_MANAGER_FLAGS_YAW_IN_VEHICLE_FRAME)] := by
  have h1 : ¬ (tryGetGimbalControl env s).1 = false := by
    rw [tryGetGimbalControl_fst env s g hg ho]
    simp
  have h3 := absoluteCommandState_activeRecord s
  rw [hg] at h3
  simp only [absoluteCommandState, Option.map_some'] at h3
  simp only [sendPitchBodyYaw, h1, if_false, h3]
  rfl

theorem wrapYaw_mem_iff (yaw : α) :
    (-180 < wrapYaw yaw ∧ wrapYaw yaw ≤ 180) ↔ (-540 < yaw ∧ yaw ≤ 540 ∧ yaw ≠ -180) := by
  unfold wrapYaw
  simp only
  split_ifs with h1 h2 h2
  · constructor
    · rintro ⟨a, b⟩
      exfalso; linarith
    · rintro ⟨a, b, c⟩
      exfalso; linarith
  · constructor
    · rintro ⟨a, b⟩
      refine ⟨by linarith, by linarith, ?_⟩
      intro hc; rw [hc] at h1; linarith
    · rintro ⟨a, b, c⟩
      exact ⟨lt_of_le_of_ne (by linarith) (fun hc => by
        have : yaw = 180 := by linarith
        linarith), by linarith⟩
  · constructor
    · rintro ⟨a, b⟩
      refine ⟨by linarith, by linarith, ?_⟩
      intro hc; rw [hc] at h2; linarith
    · rintro ⟨a, b, c⟩
      exact ⟨by linarith, by linarith⟩
  · constructor
    · rintro ⟨a, b⟩
      refine ⟨by linarith, by linarith, ?_⟩
      intro hc; rw [hc] at a; linarith
    · rintro ⟨a, b, c⟩
      refine ⟨lt_of_le_of_ne (by linarith) (fun hc => c hc.symm), by linarith⟩

/-- C6, as amended (angle wrap).  In a state where the command is sent (there is
an active gimbal and no other station holds control), `sendPitchAbsoluteYaw`
emits, after what the control test emitted, one DO_GIMBAL_MANAGER_PITCHYAW whose
yaw parameter is the argument after one conditional step of -360 and one of
+360; that yaw lies in (-180, 180] exactly when the argument satisfies
-540 < yaw ≤ 540 and yaw ≠ -180. -/
theorem angle_wrap (env : Env α) (s : State α) (pitch yaw : α) (e : Bool) (g : Gimbal α)
    (hg : s.activeRecord = some g) (ho : g.gimbalOthersHaveControl = false) :
    (sendPitchAbsoluteYaw env s pitch yaw e).2 =
      (tryGetGimbalControl env s).2 ++
        [pitchYawCommand g e (Param.num pitch) (Param.num (wrapYaw yaw)) Param.nan Param.nan
          (GIMBAL_MANAGER_FLAGS_ROLL_LOCK ||| GIMBAL_MANAGER_FLAGS_PITCH_LOCK |||
            GIMBAL_MANAGER_FLAGS_YAW_LOCK ||| GIMBAL_MANAGER_FLAGS_YAW_IN_EARTH_FRAME)] ∧
    ((-180 < wrapYaw yaw ∧ wrapYaw yaw ≤ 180) ↔ (-540 < yaw ∧ yaw ≤ 540 ∧ yaw ≠ -180)) :=
  ⟨sendPitchAbsoluteYaw_snd env s pitch yaw e g hg ho, wrapYaw_mem_iff yaw⟩

/-- Witness of C6 as amended: yaw 270 on the discovered gimbal (154, 1). -/
theorem angle_wrap_witness :
    Example.free.activeRecord = some Example.freeRecord ∧
    Example.freeRecord.gimbalOthersHaveControl = false ∧
    (sendPitchAbsoluteYaw (Example.env 3000) Example.free 0 270 false).2 =
      (tryGetGimbalControl (Example.env 3000) Example.free).2 ++
        [pitchYawCommand Example.freeRecord false (Param.num 0) (Param.num (wrapYaw 270))
          Param.nan Param.nan
          (GIMBAL_MANAGER_FLAGS_ROLL_LOCK ||| GIMBAL_MANAGER_FLAGS_PITCH_LOCK |||
            GIMBAL_MANAGER_FLAGS_YAW_LOCK ||| GIMBAL_MANAGER_FLAGS_YAW_IN_EARTH_FRAME)] ∧
    ((-180 < wrapYaw (270 : ℚ) ∧ wrapYaw (270 : ℚ) ≤ 180) ↔
      (-540 < (270 : ℚ) ∧ (270 : ℚ) ≤ 540 ∧ (270 : ℚ) ≠ -180)) :=
  ⟨rfl, by decide,
   angle_wrap (Example.env 3000) Example.free 0 270 false Example.freeRecord rfl (by decide)⟩

/-- Counterexample to C6 as stated: on the discovered gimbal (154, 1) the command
is sent, and the yaw arguments 1000, -180 and -540 are transmitted as 640, -180
and -180, none of which lies in (-180, 180]. -/
theorem angle_wrap_counterexample :
    (sendPitchAbsoluteYaw (Example.env 3000) Example.free 0 1000 false).2 =
      (tryGetGimbalControl (Example.env 3000) Example.free).2 ++
        [pitchYawCommand Example.freeRecord false (Param.num 0) (Param.num 640)
          Param.nan Param.nan 92] ∧
    (sendPitchAbsoluteYaw (Example.env 3000) Example.free 0 (-180) false).2 =
      (tryGetGimbalControl (Example.env 3000) Example.free).2 ++
        [pitchYawCommand Example.freeRecord false (Param.num 0) (Param.num (-180))
          Param.nan Param.nan 92] ∧
    (sendPitchAbsoluteYaw (Example.env 3000) Example.free 0 (-540) false).2 =
      (tryGetGimbalControl (Example.env 3000) Example.free).2 ++
        [pitchYawCommand Example.freeRecord false (Param.num 0) (Param.num (-180))
          Param.nan Param.nan 92] ∧
    ¬ ((640 : ℚ) ≤ 180) ∧ ¬ (-180 < (-180 : ℚ)) := by
  have h1 : wrapYaw (1000 : ℚ) = 640 := by norm_num [wrapYaw]
  have h2 : wrapYaw (-180 : ℚ) = -180 := by norm_num [wrapYaw]
  have h3 : wrapYaw (-540 : ℚ) = -180 := by norm_num [wrapYaw]
  refine ⟨?_, ?_, ?_, by norm_num, by norm_num⟩
  · rw [sendPitchAbsoluteYaw_snd (Example.env 3000) Example.free 0 1000 false
      Example.freeRecord rfl (by decide), h1]
    rfl
  · rw [sendPitchAbsoluteYaw_snd (Example.env 3000) Example.free 0 (-180) false
      Example.freeRecord rfl (by decide), h2]
    rfl
  · rw [sendPitchAbsoluteYaw_snd (Example.env 3000) Example.free 0 (-540) false
      Example.freeRecord rfl (by decide), h3]
    rfl

theorem tryGetGimbalControl_contested (env : Env α) (s : State α) (g : Gimbal α)
    (hg : s.activeRecord = some g) (ho : g.gimbalOthersHaveControl = true) :
    tryGetGimbalControl env s = (false, [Output.showAcquireGimbalControlPopup]) := by
  simp only [tryGetGimbalControl, hg, ho, if_true]

theorem sendPitchBodyYaw_refused (env : Env α) (s : State α) (pitch yaw : α) (e : Bool)
    (g : Gimbal α) (hg : s.activeRecord = some g) (ho : g.gimbalOthersHaveControl = true) :
    sendPitchBodyYaw env s pitch yaw e = (s, [Output.showAcquireGimbalControlPopup]) := by
  simp only [sendPitchBodyYaw, tryGetGimbalControl_contested env s g hg ho, if_true]

/-- C9 (contested control).  When the active gimbal has `others_have_control`
set, `sendPitchBodyYaw`, whatever its arguments, leaves the controller as it is
and emits nothing but one `showAcquireGimbalControlPopup` signal: no command, no
message. -/
theorem contested_control (env : Env α) (s : State α) (pitch yaw : α) (e : Bool)
    (g : Gimbal α) (hg : s.activeRecord = some g) (ho : g.gimbalOthersHaveControl = true) :
    sendPitchBodyYaw env s pitch yaw e = (s, [Output.showAcquireGimbalControlPopup]) :=
  sendPitchBodyYaw_refused env s pitch yaw e g hg ho

/-- Witness of C9: the spec's scenario, status with primary (9, 200) while our
ids are (255, 190), then `sendPitchBodyYaw(10, 20, false)`. -/
theorem contested_control_witness :
    Example.contested.activeRecord = some Example.contestedRecord ∧
    Example.contestedRecord.gimbalOthersHaveControl = true ∧
    sendPitchBodyYaw (Example.env 3000) Example.contested 10 20 false =
      (Example.contested, [Output.showAcquireGimbalControlPopup]) :=
  ⟨rfl, by decide,
   contested_control (Example.env 3000) Example.contested 10 20 false Example.contestedRecord
     rfl (by decide)⟩


theorem acquireGimbalControl_eq (env : Env α) (s : State α) (g : Gimbal α)
    (hg : s.activeRecord = some g) :
    acquireGimbalControl env s =
      ([Output.mavCommand
        { compId := g.managerCompid
          command := MavCmd.MAV_CMD_DO_GIMBAL_MANAGER_CONFIGURE
          showError := true
          param1 := Param.int env.systemId
          param2 := Param.int env.componentId
          param3 := Param.num (-1)
          param4 := Param.num (-1)
          param5 := Param.nan
          param6 := Param.nan
          param7 := Param.int g.deviceId }] : List (Output α)) := by
  simp only [acquireGimbalControl, hg]

theorem statusRecord_ours (env : Env α) (g : Gimbal α) (k : GimbalPairId)
    (hm : g.managerCompid = k.managerCompid) (hd : g.deviceId = k.deviceId)
    (hd0 : k.deviceId ≠ 0) :
    statusRecord env g k.managerCompid k.deviceId env.systemId env.componentId =
      { g with
        receivedGimbalManagerStatus := true
        gimbalHaveControl := true
        gimbalOthersHaveControl := false } := by
  have h1 : g.deviceId ≠ 0 := by rw [hd]; exact hd0
  simp only [statusRecord, h1, if_false]
  by_cases h2 : g.managerCompid = 0
  · simp [h2, ← hm]
  · simp [h2]

/-- C10, as amended (acquire then command).  From the contested-control state
(the active gimbal, stored under its own ids with device id `d ≠ 0`, is complete
and its last status named another station), `acquireGimbalControl()` emits
exactly one DO_GIMBAL_MANAGER_CONFIGURE(our_sysid, our_compid, -1, -1, NaN, NaN, d)
to the gimbal's manager and leaves the record's control flags as they are, so a
`sendPitchBodyYaw(p, y)` that follows directly is still refused with the popup
signal.  Once a GIMBAL_MANAGER_STATUS naming our ids as primary has been handled
(which emits nothing), `sendPitchBodyYaw(p, y)` emits exactly one
DO_GIMBAL_MANAGER_PITCHYAW(p, y, NaN, NaN, ROLL_LOCK|PITCH_LOCK|YAW_IN_VEHICLE_FRAME, 0, d)
to the same manager. -/
theorem acquire_then_command (env : Env α) (s : State α) (pitch yaw : α) (e : Bool)
    (k : GimbalPairId) (g : Gimbal α)
    (hk : s.activeGimbal = some k) (hg : Table.find s.potentialGimbals k = some g)
    (ho : g.gimbalOthersHaveControl = true) (hc : g.isComplete = true)
    (hm : g.managerCompid = k.managerCompid) (hd : g.deviceId = k.deviceId)
    (hd0 : k.deviceId ≠ 0) (hr : env.parametersReady = true) :
    acquireGimbalControl env s =
      ([Output.mavCommand
        { compId := k.managerCompid
          command := MavCmd.MAV_CMD_DO_GIMBAL_MANAGER_CONFIGURE
          showError := true
          param1 := Param.int env.systemId
          param2 := Param.int env.componentId
          param3 := Param.num (-1)
          param4 := Param.num (-1)
          param5 := Param.nan
          param6 := Param.nan
          param7 := Param.int k.deviceId }] : List (Output α)) ∧
    sendPitchBodyYaw env s pitch yaw e = (s, [Output.showAcquireGimbalControlPopup]) ∧
    (mavlinkMessageReceived env s
      (Frame.gimbalManagerStatus k.managerCompid k.deviceId env.systemId env.componentId)).2 = [] ∧
    (sendPitchBodyYaw env
        (mavlinkMessageReceived env s
          (Frame.gimbalManagerStatus k.managerCompid k.deviceId env.systemId env.componentId)).1
        pitch yaw e).2 =
      ([Output.mavCommand
        { compId := k.managerCompid
          command := MavCmd.MAV_CMD_DO_GIMBAL_MANAGER_PITCHYAW
          showError := e
          param1 := Param.num pitch
          param2 := Param.num yaw
          param3 := Param.nan
          param4 := Param.nan
          param5 := Param.int (GIMBAL_MANAGER_FLAGS_ROLL_LOCK ||| GIMBAL_MANAGER_FLAGS_PITCH_LOCK |||
            GIMBAL_MANAGER_FLAGS_YAW_IN_VEHICLE_FRAME : Nat)
          param6 := Param.int 0
          param7 := Param.int k.deviceId }] : List (Output α)) := by
  have hrec : s.activeRecord = some g := by simp only [State.activeRecord, hk, hg]
  refine ⟨?_, sendPitchBodyYaw_refused env s pitch yaw e g hrec ho, ?_⟩
  · rw [acquireGimbalControl_eq env s g hrec, hm, hd]
  · rw [mavlinkMessageReceived_status env s _ _ _ _ hr,
      handleGimbalManagerStatus_eq env s _ _ _ _ hd0]
    have hk2 : (⟨k.managerCompid, k.deviceId⟩ : GimbalPairId) = k := rfl
    rw [hk2, hg]
    simp only [Option.getD_some]
    rw [statusRecord_ours env g k hm hd hd0]
    obtain ⟨g2, hg2⟩ : ∃ g2 : Gimbal α, g2 = { g with
        receivedGimbalManagerStatus := true
        gimbalHaveControl := true
        gimbalOthersHaveControl := false } := ⟨_, rfl⟩
    rw [← hg2]
    have hc2 : g2.isComplete = true := by rw [hg2]; exact hc
    have ho2 : g2.gimbalOthersHaveControl = false := by rw [hg2]
    have hh2 : g2.gimbalHaveControl = true := by rw [hg2]
    have hm2 : g2.managerCompid = k.managerCompid := by rw [hg2]; exact hm
    have hd2 : g2.deviceId = k.deviceId := by rw [hg2]; exact hd
    rw [checkComplete_of_complete env s g2 k hc2]
    refine ⟨rfl, ?_⟩
    have hrec2 : State.activeRecord ({ s with
        potentialGimbals := Table.set s.potentialGimbals k g2 } : State α) = some g2 := by
      simp only [State.activeRecord, hk, Table.find_set_self]
    rw [sendPitchBodyYaw_snd env _ pitch yaw e g2 hrec2 ho2]
    have ht : tryGetGimbalControl env ({ s with
        potentialGimbals := Table.set s.potentialGimbals k g2 } : State α) = (true, []) := by
      simp [tryGetGimbalControl, hrec2, ho2, hh2]
    rw [ht]
    simp only [pitchYawCommand, hm2, hd2, List.nil_append]

/-- Witness of C10 as amended: gimbal (154, 1) contested by station (9, 200),
our ids (255, 190), p = 10, y = 20. -/
theorem acquire_then_command_witness :
    (mavlinkMessageReceived (Example.env 3000) Example.contested
      (Frame.gimbalManagerStatus 154 1 255 190)).2 = [] ∧
    (sendPitchBodyYaw (Example.env 3000)
        (mavlinkMessageReceived (Example.env 3000) Example.contested
          (Frame.gimbalManagerStatus 154 1 255 190)).1 10 20 false).2 =
      ([Output.mavCommand
        { compId := 154
          command := MavCmd.MAV_CMD_DO_GIMBAL_MANAGER_PITCHYAW
          showError := false
          param1 := Param.num 10
          param2 := Param.num 20
          param3 := Param.nan
          param4 := Param.nan
          param5 := Param.int (GIMBAL_MANAGER_FLAGS_ROLL_LOCK ||| GIMBAL_MANAGER_FLAGS_PITCH_LOCK |||
            GIMBAL_MANAGER_FLAGS_YAW_IN_VEHICLE_FRAME : Nat)
          param6 := Param.int 0
          param7 := Param.int 1 }] : List (Output ℚ)) :=
  (acquire_then_command (Example.env 3000) Example.contested 10 20 false
    { managerCompid := 154, deviceId := 1 } Example.contestedRecord rfl rfl
    (by decide) (by decide) (by decide) (by decide) (by decide) rfl).2.2

/-- Counterexample to C10 as stated: in the contested state of gimbal (154, 1),
`acquireGimbalControl(); sendPitchBodyYaw(10, 20)` emits the CONFIGURE command
and then only the popup signal: one outbound command, not two, and no
DO_GIMBAL_MANAGER_PITCHYAW. -/
theorem acquire_then_command_counterexample :
    acquireGimbalControl (Example.env 3000) Example.contested ++
        (sendPitchBodyYaw (Example.env 3000) Example.contested 10 20 false).2 =
      ([Output.mavCommand
        { compId := 154
          command := MavCmd.MAV_CMD_DO_GIMBAL_MANAGER_CONFIGURE
          showError := true
          param1 := Param.int 255
          param2 := Param.int 190
          param3 := Param.num (-1)
          param4 := Param.num (-1)
          param5 := Param.nan
          param6 := Param.nan
          param7 := Param.int 1 },
        Output.showAcquireGimbalControlPopup] : List (Output ℚ)) ∧
    ((acquireGimbalControl (Example.env 3000) Example.contested ++
        (sendPitchBodyYaw (Example.env 3000) Example.contested 10 20 false).2).filter
          isOutbound).length = 1 := by
  decide


/-! ## Throttle of the status-interval requests -/

theorem isStatusIntervalRequest_requestGimbalInformation (c : Nat) :
    isStatusIntervalRequest (requestGimbalInformation c : Output α) = false := by
  simp [isStatusIntervalRequest, requestGimbalInformation]

theorem isStatusIntervalRequest_requestAttitudeInterval (c : Nat) :
    isStatusIntervalRequest (requestAttitudeInterval c : Output α) = false := by
  simp [isStatusIntervalRequest, requestAttitudeInterval,
    MAVLINK_MSG_ID_GIMBAL_DEVICE_ATTITUDE_STATUS, MAVLINK_MSG_ID_GIMBAL_MANAGER_STATUS]

theorem isStatusIntervalRequest_requestStatusInterval (c r : Nat) :
    isStatusIntervalRequest (requestStatusInterval c r : Output α) = true := by
  simp [isStatusIntervalRequest, requestStatusInterval]

theorem checkCompleteInformation_snd (g : Gimbal α) (p : GimbalPairId) :
    (checkCompleteInformation g p).2 = [] ∨
      (checkCompleteInformation g p).2 = [requestGimbalInformation p.managerCompid] := by
  unfold checkCompleteInformation
  split_ifs
  · exact Or.inr rfl
  · exact Or.inl rfl

theorem checkCompleteAttitude_snd (g : Gimbal α) (p : GimbalPairId) :
    (checkCompleteAttitude g p).2 = [] ∨
      ∃ c, (checkCompleteAttitude g p).2 = [requestAttitudeInterval c] := by
  by_cases h : g.receivedGimbalDeviceAttitudeStatus = false ∧ 0 < g.requestAttitudeRetries ∧
      g.receivedGimbalManagerInformation = true ∧ p.deviceId ≠ 0
  · right
    unfold checkCompleteAttitude
    rw [if_pos h]
    exact ⟨_, rfl⟩
  · left
    unfold checkCompleteAttitude
    rw [if_neg h]

theorem checkCompleteStatus_snd (now last : Int) (g : Gimbal α) (p : GimbalPairId) :
    ((checkCompleteStatus now last g p).2.2 = [] ∧ (checkCompleteStatus now last g p).2.1 = last) ∨
      (∃ c r, (checkCompleteStatus now last g p).2.2 = [requestStatusInterval c r]) ∧
        (checkCompleteStatus now last g p).2.1 = now ∧ 1000 < now - last := by
  unfold checkCompleteStatus
  split_ifs with h
  · exact Or.inr ⟨⟨_, _, rfl⟩, rfl, h.2.2⟩
  · exact Or.inl ⟨rfl, rfl⟩

/-- The probe blocks emit at most one status-interval request; when they do, the
throttle clock is set to the current time, which is more than 1000 ms after its
previous value; otherwise the throttle clock is unchanged. -/
theorem probed_statusRequests (now last : Int) (g : Gimbal α) (p : GimbalPairId) :
    ((probedOutput now last g p).filter isStatusIntervalRequest = [] ∧
        probedLast now last g p = last) ∨
      (∃ o, (probedOutput now last g p).filter isStatusIntervalRequest = [o]) ∧
        probedLast now last g p = now ∧ 1000 < now - last := by
  have hi : (checkCompleteInformation g p).2.filter isStatusIntervalRequest = [] := by
    rcases checkCompleteInformation_snd g p with h | h <;> rw [h]
    · rfl
    · simp [isStatusIntervalRequest_requestGimbalInformation]
  have ha : ∀ g2 : Gimbal α,
      (checkCompleteAttitude g2 p).2.filter isStatusIntervalRequest = [] := by
    intro g2
    rcases checkCompleteAttitude_snd g2 p with h | ⟨c, h⟩ <;> rw [h]
    · rfl
    · simp [isStatusIntervalRequest_requestAttitudeInterval]
  simp only [probedOutput, probedLast, List.filter_append, hi, ha, List.nil_append,
    List.append_nil]
  rcases checkCompleteStatus_snd now last (checkCompleteInformation g p).1 p with
    ⟨h1, h2⟩ | ⟨⟨c, r, h1⟩, h2, h3⟩
  · left
    rw [h1, h2]
    exact ⟨rfl, rfl⟩
  · right
    rw [h1, h2]
    exact ⟨⟨requestStatusInterval c r,
      by simp [isStatusIntervalRequest_requestStatusInterval]⟩, rfl, h3⟩

theorem mavlinkMessageReceived_statusRequests (env : Env α) (s : State α) (f : Frame α) :
    ((mavlinkMessageReceived env s f).2.filter isStatusIntervalRequest = [] ∧
        (mavlinkMessageReceived env s f).1.lastRequestStatusMessage =
          s.lastRequestStatusMessage) ∨
      (∃ o, (mavlinkMessageReceived env s f).2.filter isStatusIntervalRequest = [o]) ∧
        (mavlinkMessageReceived env s f).1.lastRequestStatusMessage = env.now ∧
        1000 < env.now - s.lastRequestStatusMessage := by
  rcases mavlinkMessageReceived_shape env s f with ⟨_, m, out, h, ho⟩ | ⟨p, m, g, _, _, h, _⟩
  · left
    rw [h]
    refine ⟨?_, rfl⟩
    rcases ho with ho | ⟨c, ho⟩ <;> rw [ho]
    · rfl
    · simp [isStatusIntervalRequest_requestGimbalInformation]
  · rw [h]
    cases hc : g.isComplete with
    | true =>
      rw [checkComplete_of_complete env _ g p hc]
      exact Or.inl ⟨rfl, rfl⟩
    | false =>
      cases hall : g.allReceived with
      | false =>
        rw [checkComplete_of_pending env _ g p hc hall]
        exact probed_statusRequests env.now s.lastRequestStatusMessage g p
      | true =>
        rw [checkComplete_of_completing env _ g p hc hall]
        have hx : ((if s.activeGimbal = none then [Output.activeGimbalChanged] else []) ++
            [Output.addFactGroup p] : List (Output α)).filter isStatusIntervalRequest = [] := by
          split_ifs <;> rfl
        simp only [List.append_assoc, List.filter_append, hx, List.append_nil]
        exact probed_statusRequests env.now s.lastRequestStatusMessage g p

theorem statusRequestTimes_spaced (s : State α) (evs : List (Env α × Frame α)) :
    (statusRequestTimes s evs).Pairwise (fun t1 t2 => 1000 < t2 - t1) ∧
    ∀ t ∈ statusRequestTimes s evs, 1000 < t - s.lastRequestStatusMessage := by
  induction evs generalizing s with
  | nil => exact ⟨List.Pairwise.nil, fun t ht => by simp [statusRequestTimes] at ht⟩
  | cons ev rest ih =>
    obtain ⟨env, f⟩ := ev
    obtain ⟨ih1, ih2⟩ := ih (mavlinkMessageReceived env s f).1
    simp only [statusRequestTimes]
    rcases mavlinkMessageReceived_statusRequests env s f with ⟨h1, h2⟩ | ⟨⟨o, h1⟩, h2, h3⟩
    · rw [h1]
      rw [h2] at ih2
      exact ⟨ih1, ih2⟩
    · rw [h1]
      rw [h2] at ih2
      simp only [List.map_cons, List.map_nil, List.singleton_append, List.pairwise_cons,
        List.mem_cons]
      refine ⟨⟨ih2, ih1⟩, ?_⟩
      rintro t (ht | ht)
      · rw [ht]
        exact h3
      · have := ih2 t ht
        omega

/-- C8 (throttle).  Whatever the starting state, the frames and the clock value
read while each frame is handled, any two SET_MESSAGE_INTERVAL(GIMBAL_MANAGER_STATUS)
emissions, for whichever pairs, are at least 1000 ms apart: the clock value of
the later one minus that of the earlier one is ≥ 1000. -/
theorem status_request_throttle (s : State α) (evs : List (Env α × Frame α)) :
    (statusRequestTimes s evs).Pairwise (fun t1 t2 => 1000 ≤ t2 - t1) :=
  (statusRequestTimes_spaced s evs).1.imp (fun h => le_of_lt h)


/-! ## Retry budgets bound the probes -/

theorem isProbe_requestGimbalInformation (c : Nat) :
    isProbe (requestGimbalInformation c : Output α) = true := by
  simp [isProbe, requestGimbalInformation]

theorem isProbe_requestStatusInterval (c r : Nat) :
    isProbe (requestStatusInterval c r : Output α) = true := by
  simp [isProbe, requestStatusInterval]

theorem isProbe_requestAttitudeInterval (c : Nat) :
    isProbe (requestAttitudeInterval c : Output α) = true := by
  simp [isProbe, requestAttitudeInterval]

theorem checkCompleteInformation_budget (g : Gimbal α) (p : GimbalPairId) :
    ((checkCompleteInformation g p).2.filter isProbe).length +
      (checkCompleteInformation g p).1.probeBudget ≤ g.probeBudget := by
  by_cases h : g.receivedGimbalManagerInformation = false ∧ 0 < g.requestInformationRetries
  · unfold checkCompleteInformation
    rw [if_pos h]
    obtain ⟨h1, h2⟩ := h
    simp only [Gimbal.probeBudget, h1, isProbe_requestGimbalInformation, List.filter_cons_of_pos,
      List.filter_nil, List.length_singleton]
    simp only [Bool.false_eq_true, if_false]
    omega
  · unfold checkCompleteInformation
    rw [if_neg h]
    simp

theorem checkCompleteStatus_budget (now last : Int) (g : Gimbal α) (p : GimbalPairId) :
    ((checkCompleteStatus now last g p).2.2.filter isProbe).length +
      (checkCompleteStatus now last g p).1.probeBudget ≤ g.probeBudget := by
  by_cases h : g.receivedGimbalManagerStatus = false ∧ 0 < g.requestStatusRetries ∧
      1000 < now - last
  · unfold checkCompleteStatus
    rw [if_pos h]
    obtain ⟨h1, h2, _⟩ := h
    simp only [Gimbal.probeBudget, h1, isProbe_requestStatusInterval, List.filter_cons_of_pos,
      List.filter_nil, List.length_singleton]
    simp only [Bool.false_eq_true, if_false]
    omega
  · unfold checkCompleteStatus
    rw [if_neg h]
    simp

theorem checkCompleteAttitude_budget (g : Gimbal α) (p : GimbalPairId) :
    ((checkCompleteAttitude g p).2.filter isProbe).length +
      (checkCompleteAttitude g p).1.probeBudget ≤ g.probeBudget := by
  by_cases h : g.receivedGimbalDeviceAttitudeStatus = false ∧ 0 < g.requestAttitudeRetries ∧
      g.receivedGimbalManagerInformation = true ∧ p.deviceId ≠ 0
  · unfold checkCompleteAttitude
    rw [if_pos h]
    obtain ⟨h1, h2, _, _⟩ := h
    simp only [Gimbal.probeBudget, h1, isProbe_requestAttitudeInterval, List.filter_cons_of_pos,
      List.filter_nil, List.length_singleton]
    simp only [Bool.false_eq_true, if_false]
    omega
  · unfold checkCompleteAttitude
    rw [if_neg h]
    simp

theorem probed_budget (now last : Int) (g : Gimbal α) (p : GimbalPairId) :
    ((probedOutput now last g p).filter isProbe).length +
      (probedRecord now last g p).probeBudget ≤ g.probeBudget := by
  have h1 := checkCompleteInformation_budget g p
  have h2 := checkCompleteStatus_budget now last (checkCompleteInformation g p).1 p
  have h3 := checkCompleteAttitude_budget
    (checkCompleteStatus now last (checkCompleteInformation g p).1 p).1 p
  simp only [probedOutput, probedRecord, List.filter_append, List.length_append]
  omega


theorem updated_budget (s : State α) (p : GimbalPairId) (g : Gimbal α)
    (hu : Updated ((Table.find s.potentialGimbals p).getD Gimbal.new) g) :
    g.probeBudget ≤ pairBudget s p := by
  have hI := hu.information
  have hS := hu.status
  have hA := hu.attitude
  have hr := hu.received
  have r1 := hu.informationRetries
  have r2 := hu.statusRetries
  have r3 := hu.attitudeRetries
  unfold pairBudget
  cases hf : Table.find s.potentialGimbals p with
  | none =>
    simp only [hf, Option.getD_none, Gimbal.new] at hI hS hA r1 r2 r3
    simp only [Gimbal.probeBudget, r1, r2, r3]
    rcases hr with h | h | h <;> simp only [h, if_true] <;> (try split_ifs) <;> omega
  | some g0 =>
    simp only [hf, Option.getD_some] at hI hS hA r1 r2 r3
    simp only [Gimbal.probeBudget, r1, r2, r3]
    cases h1 : g0.receivedGimbalManagerInformation <;>
      cases h2 : g0.receivedGimbalManagerStatus <;>
      cases h3 : g0.receivedGimbalDeviceAttitudeStatus <;>
      simp only [h1, h2, h3, forall_true_left] at hI hS hA <;>
      simp only [hI, hS, hA, if_true, Bool.false_eq_true, if_false] <;>
      (try split_ifs) <;> omega

theorem pairBudget_set_self (s s2 : State α) (p : GimbalPairId) (r : Gimbal α)
    (h : s2.potentialGimbals = Table.set s.potentialGimbals p r) :
    pairBudget s2 p = r.probeBudget := by
  simp only [pairBudget, h, Table.find_set_self]

theorem pairBudget_set_ne (s s2 : State α) (p q : GimbalPairId) (r : Gimbal α)
    (h : s2.potentialGimbals = Table.set s.potentialGimbals p r) (hq : p ≠ q) :
    pairBudget s2 q = pairBudget s q := by
  simp only [pairBudget, h, Table.find_set_ne _ _ _ _ hq]

theorem pairBudget_of_eq (s s2 : State α) (q : GimbalPairId)
    (h : s2.potentialGimbals = s.potentialGimbals) : pairBudget s2 q = pairBudget s q := by
  simp only [pairBudget, h]

theorem managerBudget_of_eq (s s2 : State α) (c : Nat)
    (h : s2.potentialGimbalManagers = s.potentialGimbalManagers) :
    managerBudget s2 c = managerBudget s c := by
  simp only [managerBudget, h]

/-- The probes `_checkComplete` emits for a record are paid for by the record's
probe budget. -/
theorem checkComplete_budget (env : Env α) (s1 : State α) (g : Gimbal α) (p : GimbalPairId) :
    ((checkComplete env s1 g p).2.filter isProbe).length +
      pairBudget (checkComplete env s1 g p).1 p ≤ g.probeBudget := by
  rw [pairBudget_set_self s1 _ p _ (checkComplete_potentialGimbals env s1 g p)]
  cases hc : g.isComplete with
  | true =>
    rw [checkComplete_of_complete env s1 g p hc]
    simp [checkCompleteRecord, hc]
  | false =>
    have hb := probed_budget env.now s1.lastRequestStatusMessage g p
    obtain ⟨x, ri, rs, ra, hform⟩ :=
      checkCompleteRecord_form env.now s1.lastRequestStatusMessage g p
    have hrec : (checkCompleteRecord env.now s1.lastRequestStatusMessage g p).probeBudget =
        (probedRecord env.now s1.lastRequestStatusMessage g p).probeBudget := by
      unfold checkCompleteRecord
      rw [if_neg (by rw [hc]; simp)]
      simp only [probedRecord]
      split_ifs <;> rfl
    rw [hrec]
    cases hall : g.allReceived with
    | false =>
      rw [checkComplete_of_pending env s1 g p hc hall]
      exact hb
    | true =>
      rw [checkComplete_of_completing env s1 g p hc hall]
      have hx : ((if s1.activeGimbal = none then [Output.activeGimbalChanged] else []) ++
          [Output.addFactGroup p] : List (Output α)).filter isProbe = [] := by
        split_ifs <;> rfl
      simp only [List.append_assoc, List.filter_append, hx, List.append_nil]
      exact hb

theorem checkComplete_budget_ne (env : Env α) (s1 : State α) (g : Gimbal α)
    (p q : GimbalPairId) (hq : p ≠ q) :
    pairBudget (checkComplete env s1 g p).1 q = pairBudget s1 q :=
  pairBudget_set_ne s1 _ p q _ (checkComplete_potentialGimbals env s1 g p) hq

theorem managerBudget_informationManagers (s : State α) (c c2 : Nat) :
    managerBudget ({ s with potentialGimbalManagers := informationManagers s c } : State α) c2 ≤
      managerBudget s c2 := by
  by_cases h : c = c2
  · subst h
    simp [managerBudget, informationManagers, Table.find_set_self]
  · simp [managerBudget, informationManagers, Table.find_set_ne _ _ _ _ h]

theorem handleHeartbeat_budget (s : State α) (c c2 : Nat) :
    (if c = c2 then ((handleHeartbeat s c).2.filter isProbe).length else 0) +
      managerBudget (handleHeartbeat s c).1 c2 ≤ managerBudget s c2 ∧
    (handleHeartbeat s c).1.potentialGimbals = s.potentialGimbals := by
  by_cases hc : ((Table.find s.potentialGimbalManagers c).getD
      PotentialGimbalManager.new).receivedGimbalManagerInformation = false ∧
      0 < ((Table.find s.potentialGimbalManagers c).getD
        PotentialGimbalManager.new).requestGimbalManagerInformationRetries
  · unfold handleHeartbeat
    simp only [if_pos hc]
    refine ⟨?_, trivial⟩
    by_cases h : c = c2
    · subst h
      simp only [managerBudget, Table.find_set_self, Option.getD_some, hc.1, if_true,
        isProbe_requestGimbalInformation, List.filter_cons_of_pos, List.filter_nil,
        List.length_singleton, Bool.false_eq_true, if_false]
      omega
    · simp only [managerBudget, Table.find_set_ne _ _ _ _ h, if_neg h]
      omega
  · unfold handleHeartbeat
    simp only [if_neg hc]
    refine ⟨?_, trivial⟩
    by_cases h : c = c2
    · subst h
      simp [managerBudget, Table.find_set_self]
    · simp [managerBudget, Table.find_set_ne _ _ _ _ h, h]


theorem checkComplete_frame_budget (env : Env α) (s s1 : State α) (g : Gimbal α)
    (p0 p : GimbalPairId) (ht : s1.potentialGimbals = s.potentialGimbals)
    (hu : Updated ((Table.find s.potentialGimbals p0).getD Gimbal.new) g) :
    (if decide (some p0 = some p) = true then
        ((checkComplete env s1 g p0).2.filter isProbe).length else 0) +
      pairBudget (checkComplete env s1 g p0).1 p ≤ pairBudget s p := by
  by_cases h : p0 = p
  · subst h
    simp only [decide_True, if_true]
    exact le_trans (checkComplete_budget env s1 g p0) (updated_budget s p0 g hu)
  · have h2 : ¬ (some p0 = some p) := fun hh => h (Option.some.inj hh)
    simp only [h2, decide_False, Bool.false_eq_true, if_false, Nat.zero_add]
    rw [checkComplete_budget_ne env s1 g p0 p h, pairBudget_of_eq s s1 p ht]

/-- One frame: the probes it emits for the pair `p` are paid for by the budgets
of the pair and of its manager. -/
theorem mavlinkMessageReceived_budget (p : GimbalPairId) (env : Env α) (s : State α)
    (f : Frame α) :
    (if isAbout p s f = true then ((mavlinkMessageReceived env s f).2.filter isProbe).length
      else 0) +
      (managerBudget (mavlinkMessageReceived env s f).1 p.managerCompid +
        pairBudget (mavlinkMessageReceived env s f).1 p) ≤
      managerBudget s p.managerCompid + pairBudget s p := by
  by_cases hr : env.parametersReady = false
  · rw [mavlinkMessageReceived_notReady env s f hr]
    simp
  · have hr1 : env.parametersReady = true := by simpa using hr
    cases f with
    | heartbeat c =>
      rw [mavlinkMessageReceived_heartbeat env s c hr1]
      obtain ⟨h1, h2⟩ := handleHeartbeat_budget s c p.managerCompid
      rw [pairBudget_of_eq s _ p h2]
      simp only [isAbout, decide_eq_true_eq]
      omega
    | other i =>
      rw [mavlinkMessageReceived_other env s i hr1]
      simp
    | gimbalManagerInformation c d cap =>
      rw [mavlinkMessageReceived_information env s c d cap hr1]
      by_cases hd : d = 0
      · simp [handleGimbalManagerInformation, hd]
      · rw [handleGimbalManagerInformation_eq env s c d cap hd]
        have hm := managerBudget_informationManagers s c p.managerCompid
        rw [managerBudget_of_eq _ _ p.managerCompid (checkComplete_managers env _ _ _)]
        have hb := checkComplete_frame_budget env s
          { s with potentialGimbalManagers := informationManagers s c }
          (informationRecord ((Table.find s.potentialGimbals ⟨c, d⟩).getD Gimbal.new) c d cap)
          ⟨c, d⟩ p rfl (informationRecord_updated _ c d cap)
        simp only [isAbout, framePairId, hd, if_false]
        omega
    | gimbalManagerStatus c d ps pc =>
      rw [mavlinkMessageReceived_status env s c d ps pc hr1]
      by_cases hd : d = 0
      · simp [handleGimbalManagerStatus, hd]
      · rw [handleGimbalManagerStatus_eq env s c d ps pc hd]
        rw [managerBudget_of_eq _ _ p.managerCompid (checkComplete_managers env _ _ _)]
        have hb := checkComplete_frame_budget env s s
          (statusRecord env ((Table.find s.potentialGimbals ⟨c, d⟩).getD Gimbal.new) c d ps pc)
          ⟨c, d⟩ p rfl (statusRecord_updated env _ c d ps pc)
        simp only [isAbout, framePairId, hd, if_false]
        omega
    | gimbalDeviceAttitudeStatus c d fl q =>
      rw [mavlinkMessageReceived_attitude env s c d fl q hr1]
      cases hp : attitudePairId s c d with
      | none => simp [handleGimbalDeviceAttitudeStatus, hp]
      | some p0 =>
        rw [handleGimbalDeviceAttitudeStatus_eq env s c d fl q p0 hp]
        rw [managerBudget_of_eq _ _ p.managerCompid (checkComplete_managers env _ _ _)]
        have hb := checkComplete_frame_budget env s s
          (attitudeRecord env ((Table.find s.potentialGimbals p0).getD Gimbal.new) fl q)
          p0 p rfl (attitudeRecord_updated env _ fl q)
        simp only [isAbout, framePairId, hp]
        omega

theorem probesFor_le_budget (p : GimbalPairId) (s : State α) (evs : List (Env α × Frame α)) :
    probesFor p s evs ≤ managerBudget s p.managerCompid + pairBudget s p := by
  induction evs generalizing s with
  | nil => simp [probesFor]
  | cons ev rest ih =>
    obtain ⟨env, f⟩ := ev
    have h1 := ih (mavlinkMessageReceived env s f).1
    have h2 := mavlinkMessageReceived_budget p env s f
    simp only [probesFor]
    omega

/-- C7 (retry bound).  For every sequence of inbound frames delivered to the empty
controller, with any clock values, and every pair (manager_compid, device_id),
the REQUEST_MESSAGE and SET_MESSAGE_INTERVAL commands emitted for that pair — by
every `_checkComplete` run for it and by the heartbeats of its manager — number
at most 15. -/
theorem retry_bound (p : GimbalPairId) (evs : List (Env α × Frame α)) :
    probesFor p (State.empty : State α) evs ≤ 15 := by
  have h := probesFor_le_budget p (State.empty : State α) evs
  have h1 : managerBudget (State.empty : State α) p.managerCompid = 5 := by
    simp [managerBudget, State.empty, Table.find, PotentialGimbalManager.new]
  have h2 : pairBudget (State.empty : State α) p = 10 := by
    simp [pairBudget, State.empty, Table.find]
  omega


/-! ## The first discovery of a gimbal -/

theorem checkComplete_gimbals (env : Env α) (s : State α) (g : Gimbal α) (p : GimbalPairId) :
    (checkComplete env s g p).1.gimbals =
      if g.isComplete = false ∧ g.allReceived = true then s.gimbals ++ [p] else s.gimbals := by
  cases hc : g.isComplete with
  | true => simp [checkComplete_of_complete env s g p hc]
  | false =>
    cases hall : g.allReceived with
    | false => simp [checkComplete_of_pending env s g p hc hall]
    | true => simp [checkComplete_of_completing env s g p hc hall]

theorem checkComplete_activeGimbal (env : Env α) (s : State α) (g : Gimbal α)
    (p : GimbalPairId) :
    (checkComplete env s g p).1.activeGimbal =
      if g.isComplete = false ∧ g.allReceived = true ∧ s.activeGimbal = none then some p
      else s.activeGimbal := by
  cases hc : g.isComplete with
  | true => simp [checkComplete_of_complete env s g p hc]
  | false =>
    cases hall : g.allReceived with
    | false => simp [checkComplete_of_pending env s g p hc hall]
    | true =>
      rw [checkComplete_of_completing env s g p hc hall]
      cases ha : s.activeGimbal <;> simp

/-- Fields of the record that `_checkComplete` does not touch. -/
theorem checkCompleteRecord_keeps (now last : Int) (g : Gimbal α) (p : GimbalPairId) :
    (checkCompleteRecord now last g p).managerCompid = g.managerCompid ∧
    (checkCompleteRecord now last g p).deviceId = g.deviceId ∧
    (checkCompleteRecord now last g p).capabilityFlags = g.capabilityFlags ∧
    (checkCompleteRecord now last g p).absoluteRoll = g.absoluteRoll ∧
    (checkCompleteRecord now last g p).absolutePitch = g.absolutePitch ∧
    (checkCompleteRecord now last g p).bodyYaw = g.bodyYaw ∧
    (checkCompleteRecord now last g p).absoluteYaw = g.absoluteYaw ∧
    (checkCompleteRecord now last g p).pitchRate = g.pitchRate ∧
    (checkCompleteRecord now last g p).yawRate = g.yawRate ∧
    (checkCompleteRecord now last g p).yawLock = g.yawLock ∧
    (checkCompleteRecord now last g p).retracted = g.retracted ∧
    (checkCompleteRecord now last g p).neutral = g.neutral := by
  obtain ⟨x, ri, rs, ra, h⟩ := checkCompleteRecord_form now last g p
  rw [h]
  exact ⟨rfl, rfl, rfl, rfl, rfl, rfl, rfl, rfl, rfl, rfl, rfl, rfl⟩

theorem receiveAll_cons_fst (s : State α) (env : Env α) (f : Frame α)
    (rest : List (Env α × Frame α)) :
    (receiveAll s ((env, f) :: rest)).1 =
      (receiveAll (mavlinkMessageReceived env s f).1 rest).1 := rfl

theorem yawInVehicleFrame_vehicle :
    yawInVehicleFrame GIMBAL_DEVICE_FLAGS_YAW_IN_VEHICLE_FRAME = true := by decide


theorem Table.set_single {κ β : Type} [DecidableEq κ] (k : κ) (a b : β) :
    Table.set [(k, a)] k b = [(k, b)] := by
  simp [Table.set]

theorem Table.find_single {κ β : Type} [DecidableEq κ] (k : κ) (a : β) :
    Table.find [(k, a)] k = some a := by
  simp [Table.find]

theorem statusRecord_fields (env : Env α) (g0 : Gimbal α) (c d ps pc : Nat) :
    (statusRecord env g0 c d ps pc).isComplete = g0.isComplete ∧
    (statusRecord env g0 c d ps pc).receivedGimbalManagerInformation =
      g0.receivedGimbalManagerInformation ∧
    (statusRecord env g0 c d ps pc).receivedGimbalManagerStatus = true ∧
    (statusRecord env g0 c d ps pc).receivedGimbalDeviceAttitudeStatus =
      g0.receivedGimbalDeviceAttitudeStatus ∧
    (statusRecord env g0 c d ps pc).capabilityFlags = g0.capabilityFlags ∧
    (statusRecord env g0 c d ps pc).deviceId = (if g0.deviceId = 0 then d else g0.deviceId) ∧
    (statusRecord env g0 c d ps pc).managerCompid =
      (if g0.managerCompid = 0 then c else g0.managerCompid) ∧
    (statusRecord env g0 c d ps pc).gimbalHaveControl =
      (decide (ps = env.systemId) && decide (pc = env.componentId)) ∧
    (statusRecord env g0 c d ps pc).gimbalOthersHaveControl =
      (!(decide (ps = env.systemId) && decide (pc = env.componentId)) &&
        (decide (ps ≠ 0) && decide (pc ≠ 0))) := by
  refine ⟨?_, ?_, ?_, ?_, ?_, ?_, ?_, ?_, ?_⟩ <;> simp only [statusRecord] <;>
    (try split_ifs) <;> rfl

theorem attitudeRecord_fields (env : Env α) (g0 : Gimbal α) (q : Quat α) :
    (attitudeRecord env g0 GIMBAL_DEVICE_FLAGS_YAW_IN_VEHICLE_FRAME q).isComplete
      = g0.isComplete ∧
    (attitudeRecord env g0 GIMBAL_DEVICE_FLAGS_YAW_IN_VEHICLE_FRAME q).receivedGimbalManagerInformation
      = g0.receivedGimbalManagerInformation ∧
    (attitudeRecord env g0 GIMBAL_DEVICE_FLAGS_YAW_IN_VEHICLE_FRAME q).receivedGimbalManagerStatus
      = g0.receivedGimbalManagerStatus ∧
    (attitudeRecord env g0 GIMBAL_DEVICE_FLAGS_YAW_IN_VEHICLE_FRAME q).receivedGimbalDeviceAttitudeStatus
      = true ∧
    (attitudeRecord env g0 GIMBAL_DEVICE_FLAGS_YAW_IN_VEHICLE_FRAME q).capabilityFlags
      = g0.capabilityFlags ∧
    (attitudeRecord env g0 GIMBAL_DEVICE_FLAGS_YAW_IN_VEHICLE_FRAME q).deviceId = g0.deviceId ∧
    (attitudeRecord env g0 GIMBAL_DEVICE_FLAGS_YAW_IN_VEHICLE_FRAME q).managerCompid
      = g0.managerCompid ∧
    (attitudeRecord env g0 GIMBAL_DEVICE_FLAGS_YAW_IN_VEHICLE_FRAME q).gimbalHaveControl
      = g0.gimbalHaveControl ∧
    (attitudeRecord env g0 GIMBAL_DEVICE_FLAGS_YAW_IN_VEHICLE_FRAME q).gimbalOthersHaveControl
      = g0.gimbalOthersHaveControl ∧
    (attitudeRecord env g0 GIMBAL_DEVICE_FLAGS_YAW_IN_VEHICLE_FRAME q).absoluteRoll
      = (env.eulerDegrees q).1 ∧
    (attitudeRecord env g0 GIMBAL_DEVICE_FLAGS_YAW_IN_VEHICLE_FRAME q).absolutePitch
      = (env.eulerDegrees q).2.1 ∧
    (attitudeRecord env g0 GIMBAL_DEVICE_FLAGS_YAW_IN_VEHICLE_FRAME q).bodyYaw
      = (env.eulerDegrees q).2.2 ∧
    (attitudeRecord env g0 GIMBAL_DEVICE_FLAGS_YAW_IN_VEHICLE_FRAME q).absoluteYaw
      = (if 180 < env.roundFloat ((env.eulerDegrees q).2.2 + env.heading) then
          env.roundFloat (env.roundFloat ((env.eulerDegrees q).2.2 + env.heading) - 360)
         else env.roundFloat ((env.eulerDegrees q).2.2 + env.heading)) := by
  refine ⟨?_, ?_, ?_, ?_, ?_, ?_, ?_, ?_, ?_, ?_, ?_, ?_, ?_⟩ <;>
    simp only [attitudeRecord, yawInVehicleFrame_vehicle, if_true]

/-- The controller after the four frames of `happyFrames`, from the empty
controller: one record, keyed `(c, d)`, complete, exposed and active, with the
identity, capabilities and control flags of the frames and the pose of the
attitude frame; the absolute yaw is the `float` sum of body yaw and heading,
less 360 when that rounded sum exceeds 180 (lines 259-262). -/
theorem happyFrames_result (c d caps : Nat) (q : Quat α) (e1 e2 e3 e4 : Env α)
    (hd1 : 1 ≤ d) (hd6 : d ≤ 6)
    (hr1 : e1.parametersReady = true) (hr2 : e2.parametersReady = true)
    (hr3 : e3.parametersReady = true) (hr4 : e4.parametersReady = true)
    (hid : ¬ (e3.systemId = 0 ∧ e3.componentId = 0)) :
    ∃ g, (receiveAll State.empty (happyFrames e1 e2 e3 e4 c d caps q)).1.potentialGimbals
          = [({ managerCompid := c, deviceId := d }, g)] ∧
      (receiveAll State.empty (happyFrames e1 e2 e3 e4 c d caps q)).1.gimbals
          = [{ managerCompid := c, deviceId := d }] ∧
      (receiveAll State.empty (happyFrames e1 e2 e3 e4 c d caps q)).1.activeGimbal
          = some { managerCompid := c, deviceId := d } ∧
      g.isComplete = true ∧ g.managerCompid = c ∧ g.deviceId = d ∧ g.capabilityFlags = caps ∧
      g.gimbalHaveControl = false ∧ g.gimbalOthersHaveControl = false ∧
      g.absoluteRoll = (e4.eulerDegrees q).1 ∧ g.absolutePitch = (e4.eulerDegrees q).2.1 ∧
      g.bodyYaw = (e4.eulerDegrees q).2.2 ∧
      g.absoluteYaw =
        (if 180 < e4.roundFloat ((e4.eulerDegrees q).2.2 + e4.heading) then
          e4.roundFloat (e4.roundFloat ((e4.eulerDegrees q).2.2 + e4.heading) - 360)
         else e4.roundFloat ((e4.eulerDegrees q).2.2 + e4.heading)) := by
  have hd0 : d ≠ 0 := by omega
  have hp4 : ∀ s : State α, attitudePairId s c d = some ⟨c, d⟩ := by
    intro s
    simp only [attitudePairId, hd0, hd6, if_false, if_true]
  simp only [happyFrames, receiveAll_cons_fst]
  -- heartbeat
  obtain ⟨m1, o1, hs1, _⟩ := handleHeartbeat_shape (State.empty : State α) c
  rw [mavlinkMessageReceived_heartbeat _ _ c hr1, hs1]
  obtain ⟨s1, hs1d⟩ : ∃ s1 : State α, s1 = { (State.empty : State α) with
    potentialGimbalManagers := m1 } := ⟨_, rfl⟩
  rw [← hs1d]
  have h1p : s1.potentialGimbals = [] := by rw [hs1d]; rfl
  have h1g : s1.gimbals = [] := by rw [hs1d]; rfl
  have h1a : s1.activeGimbal = none := by rw [hs1d]; rfl
  -- information
  rw [mavlinkMessageReceived_information _ _ c d caps hr2,
    handleGimbalManagerInformation_eq _ _ c d caps hd0]
  obtain ⟨s1m, hs1m⟩ : ∃ s1m : State α, s1m = { s1 with
    potentialGimbalManagers := informationManagers s1 c } := ⟨_, rfl⟩
  rw [← hs1m]
  have h1mp : s1m.potentialGimbals = [] := by rw [hs1m]; exact h1p
  have h1mg : s1m.gimbals = [] := by rw [hs1m]; exact h1g
  have h1ma : s1m.activeGimbal = none := by rw [hs1m]; exact h1a
  have hf1 : (Table.find s1.potentialGimbals (⟨c, d⟩ : GimbalPairId)).getD Gimbal.new
      = Gimbal.new := by rw [h1p]; rfl
  rw [hf1]
  obtain ⟨i2, hi2⟩ : ∃ i2 : Gimbal α, i2 = informationRecord Gimbal.new c d caps := ⟨_, rfl⟩
  rw [← hi2]
  obtain ⟨s2, hs2⟩ : ∃ s2 : State α, s2 = (checkComplete e2 s1m i2 ⟨c, d⟩).1 := ⟨_, rfl⟩
  rw [← hs2]
  have hi2c : i2.isComplete = false := by rw [hi2]; rfl
  have hi2a : i2.allReceived = false := by rw [hi2]; rfl
  have h2p := checkComplete_potentialGimbals e2 s1m i2 ⟨c, d⟩
  have h2g := checkComplete_gimbals e2 s1m i2 ⟨c, d⟩
  have h2a := checkComplete_activeGimbal e2 s1m i2 ⟨c, d⟩
  rw [← hs2] at h2p h2g h2a
  rw [h1mp] at h2p
  rw [hi2c, hi2a, h1mg] at h2g
  rw [hi2c, hi2a, h1ma] at h2a
  simp only [Bool.false_eq_true, and_false, false_and, if_false] at h2g h2a
  obtain ⟨g2, hg2⟩ : ∃ g2 : Gimbal α,
    g2 = checkCompleteRecord e2.now s1m.lastRequestStatusMessage i2 ⟨c, d⟩ := ⟨_, rfl⟩
  rw [← hg2] at h2p
  have h2p1 : s2.potentialGimbals = [(⟨c, d⟩, g2)] := by rw [h2p]; rfl
  have k2 := checkCompleteRecord_keeps e2.now s1m.lastRequestStatusMessage i2 ⟨c, d⟩
  have f2 := checkCompleteRecord_fields e2.now s1m.lastRequestStatusMessage i2 ⟨c, d⟩
  rw [← hg2] at k2 f2
  -- status
  rw [mavlinkMessageReceived_status _ _ c d 0 0 hr3,
    handleGimbalManagerStatus_eq _ _ c d 0 0 hd0]
  have hf2 : (Table.find s2.potentialGimbals (⟨c, d⟩ : GimbalPairId)).getD Gimbal.new = g2 := by
    rw [h2p1, Table.find_single]; rfl
  rw [hf2]
  obtain ⟨i3, hi3⟩ : ∃ i3 : Gimbal α, i3 = statusRecord e3 g2 c d 0 0 := ⟨_, rfl⟩
  rw [← hi3]
  obtain ⟨s3, hs3⟩ : ∃ s3 : State α, s3 = (checkComplete e3 s2 i3 ⟨c, d⟩).1 := ⟨_, rfl⟩
  rw [← hs3]
  have t3 := statusRecord_fields e3 g2 c d 0 0
  rw [← hi3] at t3
  obtain ⟨k2m, k2d, k2c, -⟩ := k2
  obtain ⟨f2i, f2s, f2a, -, -, f2c⟩ := f2
  obtain ⟨t3c, t3i, t3s, t3a, t3cap, t3d, t3m, t3h, t3o⟩ := t3
  have hi2m : i2.managerCompid = c := by rw [hi2]; rfl
  have hi2d : i2.deviceId = d := by rw [hi2]; rfl
  have hi2cap : i2.capabilityFlags = caps := by rw [hi2]; rfl
  have hi2i : i2.receivedGimbalManagerInformation = true := by rw [hi2]; rfl
  have hi2att : i2.receivedGimbalDeviceAttitudeStatus = false := by rw [hi2]; rfl
  rw [hi2c, hi2a] at f2c
  rw [f2c] at t3c
  rw [f2i, hi2i] at t3i
  rw [f2a, hi2att] at t3a
  rw [k2c, hi2cap] at t3cap
  rw [k2d, hi2d, if_neg hd0] at t3d
  rw [k2m, hi2m, ite_self] at t3m
  have t3h1 : i3.gimbalHaveControl = false := by
    rw [t3h]
    by_cases hsys : 0 = e3.systemId
    · have hcomp : ¬ 0 = e3.componentId := fun hc => hid ⟨hsys.symm, hc.symm⟩
      simp [hcomp]
    · simp [hsys]
  have t3o1 : i3.gimbalOthersHaveControl = false := by
    rw [t3o]; simp
  have hi3a : i3.allReceived = false := by
    simp only [Gimbal.allReceived, t3i, t3s, t3a]; rfl
  have h3p := checkComplete_potentialGimbals e3 s2 i3 ⟨c, d⟩
  have h3g := checkComplete_gimbals e3 s2 i3 ⟨c, d⟩
  have h3a := checkComplete_activeGimbal e3 s2 i3 ⟨c, d⟩
  rw [← hs3] at h3p h3g h3a
  rw [h2p1, Table.set_single] at h3p
  rw [t3c, hi3a, h2g] at h3g
  rw [t3c, hi3a, h2a] at h3a
  simp only [Bool.false_eq_true, and_false, false_and, if_false] at h3g h3a
  obtain ⟨g3, hg3⟩ : ∃ g3 : Gimbal α,
    g3 = checkCompleteRecord e3.now s2.lastRequestStatusMessage i3 ⟨c, d⟩ := ⟨_, rfl⟩
  rw [← hg3] at h3p
  have k3 := checkCompleteRecord_keeps e3.now s2.lastRequestStatusMessage i3 ⟨c, d⟩
  have f3 := checkCompleteRecord_fields e3.now s2.lastRequestStatusMessage i3 ⟨c, d⟩
  rw [← hg3] at k3 f3
  obtain ⟨k3m, k3d, k3c, -⟩ := k3
  obtain ⟨f3i, f3s, f3a, f3h, f3o, f3c⟩ := f3
  -- attitude
  rw [mavlinkMessageReceived_attitude _ _ c d _ q hr4,
    handleGimbalDeviceAttitudeStatus_eq _ _ c d _ q ⟨c, d⟩ (hp4 s3)]
  have hf3 : (Table.find s3.potentialGimbals (⟨c, d⟩ : GimbalPairId)).getD Gimbal.new = g3 := by
    rw [h3p, Table.find_single]; rfl
  rw [hf3]
  obtain ⟨i4, hi4⟩ : ∃ i4 : Gimbal α,
    i4 = attitudeRecord e4 g3 GIMBAL_DEVICE_FLAGS_YAW_IN_VEHICLE_FRAME q := ⟨_, rfl⟩
  rw [← hi4]
  have t4 := attitudeRecord_fields e4 g3 q
  rw [← hi4] at t4
  obtain ⟨t4c, t4i, t4s, t4a, t4cap, t4d, t4m, t4h, t4o, t4r, t4p, t4b, t4y⟩ := t4
  rw [hi3a, t3c] at f3c
  rw [f3c] at t4c
  rw [f3i, t3i] at t4i
  rw [f3s, t3s] at t4s
  have hi4a : i4.allReceived = true := by
    simp only [Gimbal.allReceived, t4i, t4s, t4a]; rfl
  have h4p := checkComplete_potentialGimbals e4 s3 i4 ⟨c, d⟩
  have h4g := checkComplete_gimbals e4 s3 i4 ⟨c, d⟩
  have h4a := checkComplete_activeGimbal e4 s3 i4 ⟨c, d⟩
  rw [h3p, Table.set_single] at h4p
  rw [t4c, hi4a, h3g] at h4g
  rw [t4c, hi4a, h3a] at h4a
  simp only [and_self, if_true, List.nil_append] at h4g h4a
  have k4 := checkCompleteRecord_keeps e4.now s3.lastRequestStatusMessage i4 ⟨c, d⟩
  have f4 := checkCompleteRecord_fields e4.now s3.lastRequestStatusMessage i4 ⟨c, d⟩
  obtain ⟨k4m, k4d, k4c, k4r, k4p, k4b, k4y, -⟩ := k4
  obtain ⟨-, -, -, f4h, f4o, f4c⟩ := f4
  refine ⟨_, h4p, h4g, h4a, ?_, ?_, ?_, ?_, ?_, ?_, ?_, ?_, ?_, ?_⟩
  · rw [f4c, hi4a, t4c]; rfl
  · rw [k4m, t4m, k3m, t3m]
  · rw [k4d, t4d, k3d, t3d]
  · rw [k4c, t4cap, k3c, t3cap]
  · rw [f4h, t4h, f3h, t3h1]
  · rw [f4o, t4o, f3o, t3o1]
  · rw [k4r, t4r]
  · rw [k4p, t4p]
  · rw [k4b, t4b]
  · rw [k4y, t4y]

/-- C11 (amended): for every manager compid `c`, device id `1 ≤ d ≤ 6`,
capabilities and attitude, delivering HEARTBEAT, GIMBAL_MANAGER_INFORMATION,
GIMBAL_MANAGER_STATUS(c, d, 0, 0) and GIMBAL_DEVICE_ATTITUDE_STATUS (yaw in
vehicle frame) to the empty controller with parameters ready, our station's two
ids not both 0, leaves exactly one record, keyed `(c, d)`; it is complete, the
only member of the exposed list and the active gimbal, stores the capabilities,
has neither control flag set, has roll, pitch and body yaw as decoded, and
absolute yaw equal to the `float` sum of body yaw and heading (the exact sum
rounded to a `float`) if that rounded sum is at most 180, and to the rounded
sum less 360, again rounded, otherwise. -/
theorem happy_path_discovery (c d caps : Nat) (q : Quat α) (e1 e2 e3 e4 : Env α)
    (hd1 : 1 ≤ d) (hd6 : d ≤ 6)
    (hr1 : e1.parametersReady = true) (hr2 : e2.parametersReady = true)
    (hr3 : e3.parametersReady = true) (hr4 : e4.parametersReady = true)
    (hid : ¬ (e3.systemId = 0 ∧ e3.componentId = 0)) :
    ∃ g, (receiveAll State.empty (happyFrames e1 e2 e3 e4 c d caps q)).1.potentialGimbals
          = [({ managerCompid := c, deviceId := d }, g)] ∧
      (receiveAll State.empty (happyFrames e1 e2 e3 e4 c d caps q)).1.gimbals
          = [{ managerCompid := c, deviceId := d }] ∧
      (receiveAll State.empty (happyFrames e1 e2 e3 e4 c d caps q)).1.activeGimbal
          = some { managerCompid := c, deviceId := d } ∧
      g.isComplete = true ∧ g.managerCompid = c ∧ g.deviceId = d ∧ g.capabilityFlags = caps ∧
      g.gimbalHaveControl = false ∧ g.gimbalOthersHaveControl = false ∧
      g.absoluteRoll = (e4.eulerDegrees q).1 ∧ g.absolutePitch = (e4.eulerDegrees q).2.1 ∧
      g.bodyYaw = (e4.eulerDegrees q).2.2 ∧
      g.absoluteYaw =
        (if 180 < e4.roundFloat ((e4.eulerDegrees q).2.2 + e4.heading) then
          e4.roundFloat (e4.roundFloat ((e4.eulerDegrees q).2.2 + e4.heading) - 360)
         else e4.roundFloat ((e4.eulerDegrees q).2.2 + e4.heading)) :=
  happyFrames_result c d caps q e1 e2 e3 e4 hd1 hd6 hr1 hr2 hr3 hr4 hid

/-- C11, the scenario of the specification: c = 154, d = 1, identity attitude,
heading 90 give one complete, active record with pitch 0, body yaw 0 and
absolute yaw 90; and at the edge of the wrap test, decoded yaw 90 with heading
90 + 2^-17, whose sum rounds to the `float` 180, the stored absolute yaw is 180:
the test is made on the rounded sum. -/
theorem happy_path_discovery_witness :
    (∃ g, (receiveAll State.empty (happyFrames (Example.env 0) (Example.env 100)
          (Example.env 200) (Example.env 300) 154 1 127 Example.qIdentity)).1.potentialGimbals
          = [({ managerCompid := 154, deviceId := 1 }, g)] ∧
      (receiveAll State.empty (happyFrames (Example.env 0) (Example.env 100)
          (Example.env 200) (Example.env 300) 154 1 127 Example.qIdentity)).1.activeGimbal
          = some { managerCompid := 154, deviceId := 1 } ∧
      g.isComplete = true ∧ g.capabilityFlags = 127 ∧
      g.absolutePitch = 0 ∧ g.bodyYaw = 0 ∧ g.absoluteYaw = 90) ∧
    (∃ g, (receiveAll State.empty (happyFrames (Example.env 0) (Example.env 100)
          (Example.env 200) Example.roundingEnv 154 1 127 Example.qIdentity)).1.potentialGimbals
          = [({ managerCompid := 154, deviceId := 1 }, g)] ∧
      g.bodyYaw = 90 ∧ g.absoluteYaw = 180) := by
  constructor
  · obtain ⟨g, hp, -, ha, hc, -, -, hcap, -, -, -, hpitch, hb, hy⟩ :=
      happy_path_discovery 154 1 127 Example.qIdentity (Example.env 0) (Example.env 100)
        (Example.env 200) (Example.env 300) (by decide) (by decide) rfl rfl rfl rfl (by decide)
    refine ⟨g, hp, ha, hc, hcap, hpitch, hb, ?_⟩
    rw [hy]
    have he : ((Example.env 300).eulerDegrees Example.qIdentity).2.2 = 0 := rfl
    have hh : (Example.env 300).heading = 90 := rfl
    have hr : ∀ x : ℚ, (Example.env 300).roundFloat x = x := fun _ => rfl
    rw [he, hh]
    simp only [hr]
    norm_num
  · obtain ⟨g, hp, -, -, -, -, -, -, -, -, -, -, hb, hy⟩ :=
      happy_path_discovery 154 1 127 Example.qIdentity (Example.env 0) (Example.env 100)
        (Example.env 200) Example.roundingEnv (by decide) (by decide) rfl rfl rfl rfl (by decide)
    have he : (Example.roundingEnv.eulerDegrees Example.qIdentity).2.2 = 90 := rfl
    have hh : Example.roundingEnv.heading = 90 + 1 / 131072 := rfl
    have hr : Example.roundingEnv.roundFloat (90 + (90 + 1 / 131072)) = 180 := by
      show (if (90 + (90 + 1 / 131072) : ℚ) = 180 + 1 / 131072 then (180 : ℚ)
        else 90 + (90 + 1 / 131072)) = 180
      norm_num
    rw [he] at hb
    rw [he, hh, hr] at hy
    refine ⟨g, hp, hb, ?_⟩
    rw [hy]
    norm_num

/-- C11 as stated fails: with heading 270 and the identity attitude the stored
absolute yaw is -90, not body yaw + heading = 270 (0, 270 and -90 are floats
and both operations are exact on them). -/
theorem happy_path_discovery_counterexample :
    ∃ g, (receiveAll State.empty (happyFrames (Example.env 0) (Example.env 0)
          (Example.env 0) (Example.headingEnv 270) 154 1 127
          Example.qIdentity)).1.potentialGimbals
          = [({ managerCompid := 154, deviceId := 1 }, g)] ∧
      g.bodyYaw = 0 ∧ g.absoluteYaw = -90 ∧
      g.absoluteYaw ≠ g.bodyYaw + (Example.headingEnv 270).heading := by
  obtain ⟨g, hp, -, -, -, -, -, -, -, -, -, -, hb, hy⟩ :=
    happyFrames_result 154 1 127 Example.qIdentity (Example.env 0) (Example.env 0)
      (Example.env 0) (Example.headingEnv 270) (by decide) (by decide) rfl rfl rfl rfl
      (by decide)
  have he : ((Example.headingEnv 270).eulerDegrees Example.qIdentity).2.2 = 0 := rfl
  have hh : (Example.headingEnv 270).heading = 270 := rfl
  have hr : ∀ x : ℚ, (Example.headingEnv 270).roundFloat x = x := fun _ => rfl
  rw [he, hh] at hy
  simp only [hr] at hy
  rw [he] at hb
  have hy2 : g.absoluteYaw = -90 := by rw [hy]; norm_num
  refine ⟨g, hp, hb, hy2, ?_⟩
  rw [hy2, hb, hh]
  norm_num

/-! ## Frames that are dropped, and one that is not -/

theorem attitudePairId_unknown (s : State α) (c : Nat)
    (h : ∀ kv ∈ s.potentialGimbals, kv.2.deviceId ≠ c) : attitudePairId s c 0 = none := by
  have hf : s.potentialGimbals.find? (fun kv => decide (kv.2.deviceId = c)) = none := by
    rw [List.find?_eq_none]
    intro kv hkv
    simpa using h kv hkv
  simp only [attitudePairId, if_true, hf]

theorem attitudePairId_invalid (s : State α) (c d : Nat) (h : 6 < d) :
    attitudePairId s c d = none := by
  have h1 : ¬ d = 0 := by omega
  have h2 : ¬ d ≤ 6 := by omega
  simp only [attitudePairId, h1, h2, if_false]

/-- C12: in every controller state, a GIMBAL_MANAGER_INFORMATION or
GIMBAL_MANAGER_STATUS frame with device id 0, a GIMBAL_DEVICE_ATTITUDE_STATUS
frame with device id field above 6, and one with device id field 0 whose sender
compid is the stored device id of no record, each leave the whole controller
unchanged and emit nothing. -/
theorem invalid_frames_dropped (env : Env α) (s : State α) (c d cap ps pc fl : Nat) (q : Quat α) :
    mavlinkMessageReceived env s (Frame.gimbalManagerInformation c 0 cap) = (s, []) ∧
    mavlinkMessageReceived env s (Frame.gimbalManagerStatus c 0 ps pc) = (s, []) ∧
    (6 < d → mavlinkMessageReceived env s (Frame.gimbalDeviceAttitudeStatus c d fl q) = (s, [])) ∧
    ((∀ kv ∈ s.potentialGimbals, kv.2.deviceId ≠ c) →
      mavlinkMessageReceived env s (Frame.gimbalDeviceAttitudeStatus c 0 fl q) = (s, [])) := by
  by_cases hr : env.parametersReady = false
  · simp only [mavlinkMessageReceived_notReady env s _ hr, implies_true, and_self]
  · have hr1 : env.parametersReady = true := by simpa using hr
    refine ⟨?_, ?_, ?_, ?_⟩
    · rw [mavlinkMessageReceived_information env s c 0 cap hr1]
      simp only [handleGimbalManagerInformation, if_true]
    · rw [mavlinkMessageReceived_status env s c 0 ps pc hr1]
      simp only [handleGimbalManagerStatus, if_true]
    · intro hd
      rw [mavlinkMessageReceived_attitude env s c d fl q hr1]
      simp only [handleGimbalDeviceAttitudeStatus, attitudePairId_invalid s c d hd]
    · intro hu
      rw [mavlinkMessageReceived_attitude env s c 0 fl q hr1]
      simp only [handleGimbalDeviceAttitudeStatus, attitudePairId_unknown s c hu]

/-- C12 at the controller `Example.free` (one record, stored device id 1):
device id field 9 is invalid, sender 7 is the device id of no record. -/
theorem invalid_frames_dropped_witness :
    mavlinkMessageReceived (Example.env 5000) Example.free
        (Frame.gimbalDeviceAttitudeStatus 7 9 0 Example.qIdentity) = (Example.free, []) ∧
    mavlinkMessageReceived (Example.env 5000) Example.free
        (Frame.gimbalDeviceAttitudeStatus 7 0 0 Example.qIdentity) = (Example.free, []) :=
  ⟨(invalid_frames_dropped (Example.env 5000) Example.free 7 9 0 0 0 0
      Example.qIdentity).2.2.1 (by decide),
   (invalid_frames_dropped (Example.env 5000) Example.free 7 9 0 0 0 0
      Example.qIdentity).2.2.2 (by decide)⟩

/-- C13 fails: two attitude frames from the empty controller, the first from
component 5 with device id field 1, the second from component 0 with device id
field 0, leave a record under the key (5, 0).  The first frame stores a fresh
record, whose stored device id is still 0, under (5, 1); the reverse lookup of
the second frame (lines 213-228) looks for stored device id 0 = its sender
compid, finds that record and builds the key (5, 0). -/
theorem zero_device_key_stored :
    (receiveAll State.empty Example.zeroKeyFrames).1.potentialGimbals.map (fun kv => kv.1) =
      [{ managerCompid := 5, deviceId := 1 }, { managerCompid := 5, deviceId := 0 }] := by
  decide

/-! ## Retracting the gimbal -/

/-- What the control test emits when it passes. -/
theorem tryGetGimbalControl_snd (env : Env α) (s : State α) (g : Gimbal α)
    (hg : s.activeRecord = some g) (ho : g.gimbalOthersHaveControl = false) :
    (tryGetGimbalControl env s).2 =
      if g.gimbalHaveControl = false then acquireGimbalControl env s else [] := by
  cases hh : g.gimbalHaveControl <;> simp [tryGetGimbalControl, hg, ho, hh]

/-- What `setGimbalRetract` does once the control test has passed. -/
theorem setGimbalRetract_eq (env : Env α) (s : State α) (set : Bool) (g : Gimbal α)
    (hg : s.activeRecord = some g) (ho : g.gimbalOthersHaveControl = false) :
    setGimbalRetract env s set =
      some (s, (if g.gimbalHaveControl = false then acquireGimbalControl env s else []) ++
        [pitchYawCommand g true (Param.num g.absolutePitch) (Param.num g.bodyYaw) Param.nan
          Param.nan (if set = true then GIMBAL_DEVICE_FLAGS_RETRACT else 0)]) := by
  have h1 : ¬ (tryGetGimbalControl env s).1 = false := by
    rw [tryGetGimbalControl_fst env s g hg ho]
    simp
  rw [← tryGetGimbalControl_snd env s g hg ho]
  cases set
  · simp only [setGimbalRetract, h1, if_false, sendPitchYawFlags, hg, Option.map_some']
    rfl
  · simp only [setGimbalRetract, h1, if_false, sendPitchYawFlags, hg, Option.map_some']
    rfl

/-- C20 (amended): in every state where the control test passes (an active
gimbal that no other station controls) and for both values of `set`,
`setGimbalRetract(set)` returns with the controller unchanged and emits, after
the acquire command of the control test if we did not hold control, exactly one
DO_GIMBAL_MANAGER_PITCHYAW (stored absolute pitch, stored body yaw, no rates)
whose flags parameter is RETRACT when `set` is true and 0 when it is false: it
contains RETRACT if and only if `set`, and never ROLL_LOCK, PITCH_LOCK or
YAW_LOCK (lines 563-570 start from `flags = 0`). -/
theorem retract_flags (env : Env α) (s : State α) (set : Bool) (g : Gimbal α)
    (hg : s.activeRecord = some g) (ho : g.gimbalOthersHaveControl = false) :
    ∃ flags : Nat,
      setGimbalRetract env s set =
        some (s, (if g.gimbalHaveControl = false then acquireGimbalControl env s else []) ++
          [pitchYawCommand g true (Param.num g.absolutePitch) (Param.num g.bodyYaw) Param.nan
            Param.nan flags]) ∧
      flags = (if set = true then GIMBAL_DEVICE_FLAGS_RETRACT else 0) ∧
      (flags &&& GIMBAL_DEVICE_FLAGS_RETRACT ≠ 0 ↔ set = true) ∧
      flags &&& GIMBAL_DEVICE_FLAGS_ROLL_LOCK = 0 ∧
      flags &&& GIMBAL_DEVICE_FLAGS_PITCH_LOCK = 0 ∧
      flags &&& GIMBAL_DEVICE_FLAGS_YAW_LOCK = 0 := by
  refine ⟨_, setGimbalRetract_eq env s set g hg ho, rfl, ?_⟩
  cases set <;> decide

/-- C20 at the controller `Example.free`, retracting. -/
theorem retract_flags_witness :
    ∃ flags : Nat,
      setGimbalRetract (Example.env 3000) Example.free true =
        some (Example.free,
          (if Example.freeRecord.gimbalHaveControl = false then
            acquireGimbalControl (Example.env 3000) Example.free else []) ++
          [pitchYawCommand Example.freeRecord true (Param.num Example.freeRecord.absolutePitch)
            (Param.num Example.freeRecord.bodyYaw) Param.nan Param.nan flags]) ∧
      flags = (if true = true then GIMBAL_DEVICE_FLAGS_RETRACT else 0) ∧
      (flags &&& GIMBAL_DEVICE_FLAGS_RETRACT ≠ 0 ↔ true = true) ∧
      flags &&& GIMBAL_DEVICE_FLAGS_ROLL_LOCK = 0 ∧
      flags &&& GIMBAL_DEVICE_FLAGS_PITCH_LOCK = 0 ∧
      flags &&& GIMBAL_DEVICE_FLAGS_YAW_LOCK = 0 :=
  retract_flags (Example.env 3000) Example.free true Example.freeRecord rfl (by decide)

/-- C20 as stated fails: at `Example.free`, `setGimbalRetract(true)` sends the
acquire command and one DO_GIMBAL_MANAGER_PITCHYAW whose flags are RETRACT alone,
without ROLL_LOCK and PITCH_LOCK. -/
theorem retract_flags_counterexample :
    setGimbalRetract (Example.env 3000) Example.free true =
      some (Example.free, acquireGimbalControl (Example.env 3000) Example.free ++
        [pitchYawCommand Example.freeRecord true (Param.num Example.freeRecord.absolutePitch)
          (Param.num Example.freeRecord.bodyYaw) Param.nan Param.nan
          GIMBAL_DEVICE_FLAGS_RETRACT]) ∧
    GIMBAL_DEVICE_FLAGS_RETRACT &&& GIMBAL_DEVICE_FLAGS_ROLL_LOCK = 0 ∧
    GIMBAL_DEVICE_FLAGS_RETRACT &&& GIMBAL_DEVICE_FLAGS_PITCH_LOCK = 0 := by
  refine ⟨?_, by decide, by decide⟩
  rw [setGimbalRetract_eq (Example.env 3000) Example.free true Example.freeRecord rfl
    (by decide)]
  have hh : Example.freeRecord.gimbalHaveControl = false := by decide
  rw [if_pos hh]
  rfl

/-! ## The joystick sender -/

/-- What a sender tick does once the control test has passed and the link is there. -/
theorem sendJoystickGimbalCommand_passed (env : Env α) (s : State α) (g : Gimbal α) (chan : Nat)
    (hg : s.activeRecord = some g) (ho : g.gimbalOthersHaveControl = false)
    (hl : env.primaryLink = some chan) :
    sendJoystickGimbalCommand env s =
      if joystickIdle env s then
        ({ s with
            joystickSmoothedPitch := nextSmoothedPitch env s
            joystickSmoothedYaw := nextSmoothedYaw env s
            joystickGimbalSendTimerActive := false
            joystickGimbalActive := false },
         (tryGetGimbalControl env s).2)
      else
        ({ s with
            joystickSmoothedPitch := nextSmoothedPitch env s
            joystickSmoothedYaw := nextSmoothedYaw env s
            gimbalMessageLog := addMessageLog s.gimbalMessageLog (joystickLogEntry env s) },
         (tryGetGimbalControl env s).2 ++
           [Output.gimbalDeviceSetAttitude (joystickMessage env s g chan),
            Output.gimbalMessageLogChanged]) := by
  have h1 : ¬ (tryGetGimbalControl env s).1 = false := by
    rw [tryGetGimbalControl_fst env s g hg ho]
    simp
  simp only [sendJoystickGimbalCommand, hg, h1, if_false, hl]
  rfl

/-- A sender tick that does not pass the control test, or finds no link, leaves
the controller as it is. -/
theorem sendJoystickGimbalCommand_refused (env : Env α) (s : State α)
    (h : s.activeRecord = none ∨ (tryGetGimbalControl env s).1 = false ∨
      env.primaryLink = none) :
    (sendJoystickGimbalCommand env s).1 = s := by
  unfold sendJoystickGimbalCommand
  cases hg : s.activeRecord with
  | none => rfl
  | some g =>
    by_cases h1 : (tryGetGimbalControl env s).1 = false
    · simp only [h1, if_true]
    · cases hl : env.primaryLink with
      | none => simp [h1]
      | some chan =>
        rcases h with h | h | h
        · rw [hg] at h; exact absurd h (by simp)
        · exact absurd h h1
        · rw [hl] at h; exact absurd h (by simp)

/-- The two shapes of a controller after a sender tick: untouched, or with the
new smoothed values. -/
theorem sendJoystickGimbalCommand_cases (env : Env α) (s : State α) :
    (sendJoystickGimbalCommand env s).1 = s ∨
    ((sendJoystickGimbalCommand env s).1.joystickPitchInput = s.joystickPitchInput ∧
     (sendJoystickGimbalCommand env s).1.joystickYawInput = s.joystickYawInput ∧
     (sendJoystickGimbalCommand env s).1.joystickSmoothedPitch = nextSmoothedPitch env s ∧
     (sendJoystickGimbalCommand env s).1.joystickSmoothedYaw = nextSmoothedYaw env s) := by
  cases hg : s.activeRecord with
  | none => exact Or.inl (sendJoystickGimbalCommand_refused env s (Or.inl hg))
  | some g =>
    by_cases h1 : (tryGetGimbalControl env s).1 = false
    · exact Or.inl (sendJoystickGimbalCommand_refused env s (Or.inr (Or.inl h1)))
    · cases hl : env.primaryLink with
      | none => exact Or.inl (sendJoystickGimbalCommand_refused env s (Or.inr (Or.inr hl)))
      | some chan =>
        have h2 : (tryGetGimbalControl env s).1 = true := by simpa using h1
        obtain ⟨g2, hg2, ho⟩ := tryGetGimbalControl_true env s h2
        right
        rw [sendJoystickGimbalCommand_passed env s g2 chan hg2 ho hl]
        by_cases hi : joystickIdle env s
        · rw [if_pos hi]; exact ⟨rfl, rfl, rfl, rfl⟩
        · rw [if_neg hi]; exact ⟨rfl, rfl, rfl, rfl⟩

/-- What `_handleJoystickGimbalInput` does with a sample whose two axis reads
succeed, the feature being enabled. -/
theorem handleJoystickGimbalInput_eq (env : Env α) (s : State α) (axisValues : List α)
    (pitchAxis yawAxis : α) (he : env.settings.joystickGimbalEnabled = true)
    (hp : axisValue env.settings.joystickGimbalPitchAxisIndex axisValues = some pitchAxis)
    (hy : axisValue env.settings.joystickGimbalYawAxisIndex axisValues = some yawAxis) :
    ∃ t a : Bool, handleJoystickGimbalInput env s axisValues =
      some ({ s with
        joystickPitchInput := processedAxis env.settings pitchAxis
        joystickYawInput := processedAxis env.settings yawAxis
        joystickGimbalSendTimerActive := t
        joystickGimbalActive := a }, []) := by
  simp only [handleJoystickGimbalInput, he, Bool.true_eq_false, if_false, hp, hy]
  split_ifs
  · exact ⟨true, true, rfl⟩
  · exact ⟨s.joystickGimbalSendTimerActive, s.joystickGimbalActive, rfl⟩

/-- The squared norm of the sender's quaternion is the product of the three
`cos² + sin²` of the half angles. -/
theorem joystickQuaternion_normSq (env : Env α)
    (hcs : ∀ x, env.cos x * env.cos x + env.sin x * env.sin x = 1) (pitchAngle yawAngle : α) :
    (joystickQuaternion env pitchAngle yawAngle).normSq = 1 := by
  have h1 := hcs ((0 : α) / 2)
  have h2 := hcs (env.degreesToRadians pitchAngle / 2)
  have h3 := hcs (env.degreesToRadians yawAngle / 2)
  simp only [joystickQuaternion, Quat.normSq]
  linear_combination
    ((env.cos (env.degreesToRadians pitchAngle / 2) * env.cos (env.degreesToRadians pitchAngle / 2)
      + env.sin (env.degreesToRadians pitchAngle / 2) * env.sin (env.degreesToRadians pitchAngle / 2))
      * (env.cos (env.degreesToRadians yawAngle / 2) * env.cos (env.degreesToRadians yawAngle / 2)
      + env.sin (env.degreesToRadians yawAngle / 2) * env.sin (env.degreesToRadians yawAngle / 2)))
      * h1
    + (env.cos (env.degreesToRadians yawAngle / 2) * env.cos (env.degreesToRadians yawAngle / 2)
      + env.sin (env.degreesToRadians yawAngle / 2) * env.sin (env.degreesToRadians yawAngle / 2))
      * h2
    + h3

/-- The control test emits no GIMBAL_DEVICE_SET_ATTITUDE message. -/
theorem tryGetGimbalControl_no_message (env : Env α) (s : State α)
    (msg : GimbalDeviceSetAttitude α) :
    Output.gimbalDeviceSetAttitude msg ∉ (tryGetGimbalControl env s).2 := by
  unfold tryGetGimbalControl
  cases hg : s.activeRecord with
  | none => simp
  | some g =>
    by_cases ho : g.gimbalOthersHaveControl = true
    · simp [ho]
    · by_cases hh : g.gimbalHaveControl = false
      · simp [ho, hh, acquireGimbalControl_eq env s g hg]
      · simp [ho, hh]

/-- Every GIMBAL_DEVICE_SET_ATTITUDE message of a sender tick is the one packed
from the angles of that tick. -/
theorem sendJoystickGimbalCommand_message (env : Env α) (s : State α)
    (msg : GimbalDeviceSetAttitude α)
    (h : Output.gimbalDeviceSetAttitude msg ∈ (sendJoystickGimbalCommand env s).2) :
    ∃ g chan, s.activeRecord = some g ∧ env.primaryLink = some chan ∧
      msg = joystickMessage env s g chan := by
  have hno := tryGetGimbalControl_no_message env s msg
  cases hg : s.activeRecord with
  | none =>
    simp only [sendJoystickGimbalCommand, hg] at h
    exact absurd h (by simp)
  | some g =>
    by_cases h1 : (tryGetGimbalControl env s).1 = false
    · simp only [sendJoystickGimbalCommand, hg, h1, if_true] at h
      exact absurd h hno
    · cases hl : env.primaryLink with
      | none =>
        simp only [sendJoystickGimbalCommand, hg, h1, if_false, hl] at h
        exact absurd h hno
      | some chan =>
        have h2 : (tryGetGimbalControl env s).1 = true := by simpa using h1
        obtain ⟨g2, hg2, ho⟩ := tryGetGimbalControl_true env s h2
        rw [sendJoystickGimbalCommand_passed env s g2 chan hg2 ho hl] at h
        by_cases hi : joystickIdle env s
        · rw [if_pos hi] at h
          exact absurd h hno
        · rw [if_neg hi] at h
          simp only [List.mem_append, List.mem_cons, Output.gimbalDeviceSetAttitude.injEq,
            List.mem_singleton, List.not_mem_nil, or_false] at h
          rcases h with h | h | h
          · exact absurd h hno
          · rw [hg] at hg2
            exact ⟨g, chan, rfl, rfl, by rw [h, Option.some.inj hg2]⟩
          · exact absurd h (by simp)

/-- C14: for every pitch and yaw angle, the quaternion [w, x, y, z] the joystick
sender computes from the half-angle sines and cosines with roll 0 (lines
849-865) satisfies w² + x² + y² + z² = 1, for any cosine and sine with
cos² + sin² = 1 at every argument, as the real functions have; and every
GIMBAL_DEVICE_SET_ATTITUDE message a sender tick emits carries exactly that
quaternion, built from the angles of the tick. -/
theorem quaternion_unit_norm (env : Env α)
    (hcs : ∀ x, env.cos x * env.cos x + env.sin x * env.sin x = 1) :
    (∀ pitchAngle yawAngle : α, (joystickQuaternion env pitchAngle yawAngle).normSq = 1) ∧
    (∀ (s : State α) (msg : GimbalDeviceSetAttitude α),
      Output.gimbalDeviceSetAttitude msg ∈ (sendJoystickGimbalCommand env s).2 →
      ∃ q : Quat α, q = joystickQuaternion env (joystickPitchAngle env s) (joystickYawAngle env s) ∧
        msg.q = [Param.num q.w, Param.num q.x, Param.num q.y, Param.num q.z] ∧
        q.w * q.w + q.x * q.x + q.y * q.y + q.z * q.z = 1) := by
  refine ⟨joystickQuaternion_normSq env hcs, ?_⟩
  intro s msg h
  obtain ⟨g, chan, -, -, hm⟩ := sendJoystickGimbalCommand_message env s msg h
  refine ⟨_, rfl, ?_, joystickQuaternion_normSq env hcs _ _⟩
  rw [hm]
  rfl

/-! ## Bounds on the joystick pipeline -/

theorem abs_copysign (y value : α) : |copysign y value| = |y| := by
  unfold copysign
  split_ifs
  · rw [abs_neg, abs_abs]
  · rw [abs_abs]

theorem abs_applyDeadband_le (value deadband : α) (hv : |value| ≤ 1) (hd1 : deadband < 1) : |applyDeadband value deadband| ≤ 1 := by
  unfold applyDeadband
  split_ifs with h
  · simp
  · have hpos : 0 < 1 - deadband := by linarith
    have hnum : 0 ≤ |value| - deadband := by linarith [not_le.mp h]
    rw [abs_copysign, abs_of_nonneg (div_nonneg hnum hpos.le), div_le_one hpos]
    linarith

theorem abs_applyExpo_le (value expo : α) (hv : |value| ≤ 1) (he0 : 0 ≤ expo) (he1 : expo ≤ 1) :
    |applyExpo value expo| ≤ 1 := by
  unfold applyExpo
  have hv0 := abs_nonneg value
  have h3 : |value * value * value| ≤ 1 := by
    rw [abs_mul, abs_mul]
    have h2 : |value| * |value| ≤ 1 := by nlinarith
    nlinarith [mul_nonneg hv0 hv0]
  have h1e : 0 ≤ 1 - expo := by linarith
  calc |(1 - expo) * value + expo * (value * value * value)|
      ≤ |(1 - expo) * value| + |expo * (value * value * value)| := abs_add _ _
    _ = (1 - expo) * |value| + expo * |value * value * value| := by
        rw [abs_mul, abs_mul, abs_of_nonneg h1e, abs_of_nonneg he0]
    _ ≤ (1 - expo) * 1 + expo * 1 := by
        have a := mul_le_mul_of_nonneg_left hv h1e
        have b := mul_le_mul_of_nonneg_left h3 he0
        linarith
    _ = 1 := by ring

theorem abs_processedAxis_le (settings : GimbalControllerSettings α) (axis : α)
    (hok : JoystickSettingsOk settings) (ha : |axis| ≤ 1) : |processedAxis settings axis| ≤ 1 := by
  obtain ⟨-, hd1, he0, he1, -⟩ := hok
  exact abs_applyExpo_le _ _ (abs_applyDeadband_le axis _ ha hd1) he0 he1

/-- One step of the low-pass filter stays in [-1, 1]. -/
theorem abs_smooth_le (a input smoothed : α) (ha0 : 0 < a) (ha1 : a ≤ 1) (hi : |input| ≤ 1)
    (hs : |smoothed| ≤ 1) : |a * input + (1 - a) * smoothed| ≤ 1 := by
  have h1a : 0 ≤ 1 - a := by linarith
  calc |a * input + (1 - a) * smoothed|
      ≤ |a * input| + |(1 - a) * smoothed| := abs_add _ _
    _ = a * |input| + (1 - a) * |smoothed| := by
        rw [abs_mul, abs_mul, abs_of_pos ha0, abs_of_nonneg h1a]
    _ ≤ a * 1 + (1 - a) * 1 := by
        have x := mul_le_mul_of_nonneg_left hi ha0.le
        have y := mul_le_mul_of_nonneg_left hs h1a
        linarith
    _ = 1 := by ring

theorem abs_nextSmoothed_le (env : Env α) (s : State α) (hok : JoystickSettingsOk env.settings)
    (hb : JoystickBounded s) :
    |nextSmoothedPitch env s| ≤ 1 ∧ |nextSmoothedYaw env s| ≤ 1 := by
  obtain ⟨-, -, -, -, ha0, ha1, -⟩ := hok
  obtain ⟨hp, hy, hsp, hsy⟩ := hb
  exact ⟨abs_smooth_le _ _ _ ha0 ha1 hp hsp, abs_smooth_le _ _ _ ha0 ha1 hy hsy⟩

theorem abs_joystickAngles_le (env : Env α) (s : State α) (hok : JoystickSettingsOk env.settings)
    (hb : JoystickBounded s) :
    |joystickPitchAngle env s| ≤ env.settings.joystickGimbalPitchLimit ∧
    |joystickYawAngle env s| ≤ env.settings.joystickGimbalYawLimit := by
  obtain ⟨hp, hy⟩ := abs_nextSmoothed_le env s hok hb
  obtain ⟨-, -, -, -, -, -, hpl, hyl⟩ := hok
  unfold joystickPitchAngle joystickYawAngle
  constructor
  · rw [abs_mul, abs_neg, abs_of_nonneg hpl]
    exact mul_le_of_le_one_left hpl hp
  · rw [abs_mul, abs_of_nonneg hyl]
    exact mul_le_of_le_one_left hyl hy

/-- An axis read that succeeds returns an element of the sample, or 0. -/
theorem axisValue_mem (idx : Int) (axisValues : List α) (a : α)
    (h : axisValue idx axisValues = some a) : a ∈ axisValues ∨ a = 0 := by
  unfold axisValue at h
  split_ifs at h with h1 h2
  · exact Or.inl (List.mem_iff_getElem?.mpr ⟨_, h⟩)
  · exact Or.inr (Option.some.inj h).symm

theorem axisValue_isSome (idx : Int) (axisValues : List α) (h0 : 0 ≤ idx) :
    ∃ a, axisValue idx axisValues = some a := by
  unfold axisValue
  split_ifs with h1
  · have hlt : idx.toNat < axisValues.length := by omega
    exact ⟨axisValues[idx.toNat], List.getElem?_eq_getElem hlt⟩
  · exact ⟨0, rfl⟩

theorem abs_axisValue_le (idx : Int) (axisValues : List α) (a : α)
    (h : axisValue idx axisValues = some a) (hall : ∀ x ∈ axisValues, |x| ≤ 1) : |a| ≤ 1 := by
  rcases axisValue_mem idx axisValues a h with hm | h0
  · exact hall a hm
  · rw [h0]; simp

/-- A joystick sample keeps the stored inputs and smoothed values in [-1, 1]. -/
theorem handleJoystickGimbalInput_bounded (env : Env α) (s : State α) (axisValues : List α)
    (r : State α × List (Output α)) (hok : JoystickSettingsOk env.settings)
    (hall : ∀ x ∈ axisValues, |x| ≤ 1) (hb : JoystickBounded s)
    (h : handleJoystickGimbalInput env s axisValues = some r) : JoystickBounded r.1 := by
  by_cases he : env.settings.joystickGimbalEnabled = false
  · simp only [handleJoystickGimbalInput, he, if_true, Option.some.injEq] at h
    rw [← h]
    exact hb
  · have he1 : env.settings.joystickGimbalEnabled = true := by simpa using he
    cases hp : axisValue env.settings.joystickGimbalPitchAxisIndex axisValues with
    | none =>
      simp only [handleJoystickGimbalInput, he1, Bool.true_eq_false, if_false, hp] at h
      exact absurd h (by simp)
    | some pitchAxis =>
      cases hy : axisValue env.settings.joystickGimbalYawAxisIndex axisValues with
      | none =>
        simp only [handleJoystickGimbalInput, he1, Bool.true_eq_false, if_false, hp, hy] at h
        exact absurd h (by simp)
      | some yawAxis =>
        obtain ⟨t, a, heq⟩ := handleJoystickGimbalInput_eq env s axisValues pitchAxis yawAxis
          he1 hp hy
        rw [heq] at h
        rw [← Option.some.inj h]
        obtain ⟨-, -, hsp, hsy⟩ := hb
        exact ⟨abs_processedAxis_le _ _ hok (abs_axisValue_le _ _ _ hp hall),
          abs_processedAxis_le _ _ hok (abs_axisValue_le _ _ _ hy hall), hsp, hsy⟩

/-- A joystick sample returns when both axis indices are non-negative. -/
theorem handleJoystickGimbalInput_isSome (env : Env α) (s : State α) (axisValues : List α)
    (hidx : AxisIndicesOk env.settings) :
    ∃ r, handleJoystickGimbalInput env s axisValues = some r := by
  by_cases he : env.settings.joystickGimbalEnabled = false
  · exact ⟨(s, []), by simp only [handleJoystickGimbalInput, he, if_true]⟩
  · have he1 : env.settings.joystickGimbalEnabled = true := by simpa using he
    obtain ⟨p, hp⟩ := axisValue_isSome env.settings.joystickGimbalPitchAxisIndex axisValues hidx.1
    obtain ⟨y, hy⟩ := axisValue_isSome env.settings.joystickGimbalYawAxisIndex axisValues hidx.2
    obtain ⟨t, a, heq⟩ := handleJoystickGimbalInput_eq env s axisValues p y he1 hp hy
    exact ⟨_, heq⟩

/-- A sender tick keeps the stored inputs and smoothed values in [-1, 1]. -/
theorem sendJoystickGimbalCommand_bounded (env : Env α) (s : State α)
    (hok : JoystickSettingsOk env.settings) (hb : JoystickBounded s) :
    JoystickBounded (sendJoystickGimbalCommand env s).1 := by
  rcases sendJoystickGimbalCommand_cases env s with h | ⟨h1, h2, h3, h4⟩
  · rw [h]; exact hb
  · obtain ⟨hp, hy⟩ := abs_nextSmoothed_le env s hok hb
    unfold JoystickBounded
    rw [h1, h2, h3, h4]
    exact ⟨hb.1, hb.2.1, hp, hy⟩

theorem step_joystick_bounded (c : Env α × Call α) (s : State α) (r : State α × List (Output α))
    (hc : JoystickCall c) (hb : JoystickBounded s) (h : step c.1 s c.2 = some r) :
    JoystickBounded r.1 := by
  obtain ⟨env, call⟩ := c
  cases call with
  | handleJoystickGimbalInput axisValues =>
    exact handleJoystickGimbalInput_bounded env s _ r hc.1 hc.2 hb h
  | joystickGimbalSendTimeout =>
    simp only [step, joystickGimbalSendTimeout, Option.some.injEq] at h
    rw [← h]
    exact sendJoystickGimbalCommand_bounded env s hc hb
  | _ => exact False.elim hc

theorem step_joystick_isSome (c : Env α × Call α) (s : State α)
    (hc : JoystickCall c) (hidx : AxisIndicesOk c.1.settings) :
    ∃ r, step c.1 s c.2 = some r := by
  obtain ⟨env, call⟩ := c
  cases call with
  | handleJoystickGimbalInput axisValues => exact handleJoystickGimbalInput_isSome env s _ hidx
  | joystickGimbalSendTimeout => exact ⟨_, rfl⟩
  | _ => exact False.elim hc

theorem runCalls_joystick_bounded (calls : List (Env α × Call α)) :
    ∀ (s : State α) (r : State α × List (Output α)), (∀ c ∈ calls, JoystickCall c) →
      JoystickBounded s → runCalls s calls = some r → JoystickBounded r.1 := by
  induction calls with
  | nil =>
    intro s r _ hb h
    simp only [runCalls, Option.some.injEq] at h
    rw [← h]
    exact hb
  | cons c rest ih =>
    intro s r hc hb h
    obtain ⟨env, call⟩ := c
    simp only [runCalls] at h
    cases h1 : step env s call with
    | none => rw [h1] at h; exact absurd h (by simp)
    | some r1 =>
      rw [h1] at h
      simp only at h
      cases h2 : runCalls r1.1 rest with
      | none => rw [h2] at h; exact absurd h (by simp)
      | some r2 =>
        rw [h2] at h
        simp only [Option.some.injEq] at h
        rw [← h]
        exact ih r1.1 r2 (fun c hc2 => hc c (List.mem_cons_of_mem _ hc2))
          (step_joystick_bounded (env, call) s r1 (hc _ (List.mem_cons_self _ _)) hb h1) h2

theorem runCalls_joystick_isSome (calls : List (Env α × Call α)) :
    ∀ (s : State α), (∀ c ∈ calls, JoystickCall c) → (∀ c ∈ calls, AxisIndicesOk c.1.settings) →
      ∃ r, runCalls s calls = some r := by
  induction calls with
  | nil => intro s _ _; exact ⟨_, rfl⟩
  | cons c rest ih =>
    intro s hc hidx
    obtain ⟨env, call⟩ := c
    obtain ⟨r1, h1⟩ := step_joystick_isSome (env, call) s (hc _ (List.mem_cons_self _ _))
      (hidx _ (List.mem_cons_self _ _))
    obtain ⟨r2, h2⟩ := ih r1.1 (fun c hc2 => hc c (List.mem_cons_of_mem _ hc2))
      (fun c hc2 => hidx c (List.mem_cons_of_mem _ hc2))
    refine ⟨(r2.1, r1.2 ++ r2.2), ?_⟩
    simp only [runCalls]
    simp only at h1
    rw [h1]
    simp only
    rw [h2]

/-- C15: from a controller whose stored inputs and smoothed values lie in
[-1, 1] (in particular all 0), after every sequence of joystick samples with
axis values in [-1, 1] and sender ticks, under settings with deadband in [0, 1),
expo in [0, 1], smoothing in (0, 1] and non-negative limits, the stored
(processed) inputs and the smoothed values lie in [-1, 1], and the smoothed
values and angles the next tick computes satisfy |smoothed| ≤ 1,
|pitch_deg| ≤ pitch_limit and |yaw_deg| ≤ yaw_limit.  The sequence does run to
its end when the configured axis indices are non-negative. -/
theorem joystick_angle_bounds (s : State α) (calls : List (Env α × Call α))
    (hb : JoystickBounded s) (hc : ∀ c ∈ calls, JoystickCall c) :
    (∀ r, runCalls s calls = some r →
      JoystickBounded r.1 ∧
      ∀ env : Env α, JoystickSettingsOk env.settings →
        |nextSmoothedPitch env r.1| ≤ 1 ∧ |nextSmoothedYaw env r.1| ≤ 1 ∧
        |joystickPitchAngle env r.1| ≤ env.settings.joystickGimbalPitchLimit ∧
        |joystickYawAngle env r.1| ≤ env.settings.joystickGimbalYawLimit) ∧
    ((∀ c ∈ calls, AxisIndicesOk c.1.settings) → ∃ r, runCalls s calls = some r) := by
  refine ⟨?_, runCalls_joystick_isSome calls s hc⟩
  intro r hr
  have hbr := runCalls_joystick_bounded calls s r hc hb hr
  refine ⟨hbr, ?_⟩
  intro env hok
  obtain ⟨h1, h2⟩ := abs_nextSmoothed_le env r.1 hok hbr
  obtain ⟨h3, h4⟩ := abs_joystickAngles_le env r.1 hok hbr
  exact ⟨h1, h2, h3, h4⟩

/-! ## The joystick scenario -/

theorem processedAxis_example :
    processedAxis Example.settings (1 / 2) = 220 / 729 ∧
    processedAxis Example.settings (-1 / 4) = -11 / 108 := by
  constructor
  · norm_num [processedAxis, applyExpo, applyDeadband, copysign, Example.settings, abs_of_pos]
  · norm_num [processedAxis, applyExpo, applyDeadband, copysign, Example.settings, abs_of_pos,
      abs_of_neg]

theorem axisValue_example :
    axisValue 1 ([0, 1 / 2, -1 / 4] : List ℚ) = some (1 / 2) ∧
    axisValue 2 ([0, 1 / 2, -1 / 4] : List ℚ) = some (-1 / 4) := by
  constructor <;> rfl

/-- The sample `[0, 0.5, -0.25]` under the scenario's settings: what is stored,
and what the next tick computes from it when the smoothed values were 0. -/
theorem joystick_scenario_values (env1 env2 : Env ℚ) (s : State ℚ)
    (h1 : env1.settings = Example.settings) (h2 : env2.settings = Example.settings)
    (hsp : s.joystickSmoothedPitch = 0) (hsy : s.joystickSmoothedYaw = 0) :
    ∃ s1, handleJoystickGimbalInput env1 s Example.sample = some (s1, []) ∧
      s1.activeRecord = s.activeRecord ∧
      s1.joystickPitchInput = 220 / 729 ∧ s1.joystickYawInput = -11 / 108 ∧
      nextSmoothedPitch env2 s1 = 44 / 729 ∧ nextSmoothedYaw env2 s1 = -11 / 540 ∧
      joystickPitchAngle env2 s1 = -220 / 81 ∧ joystickYawAngle env2 s1 = -11 / 6 ∧
      ¬ joystickIdle env2 s1 := by
  have hp : axisValue env1.settings.joystickGimbalPitchAxisIndex Example.sample
      = some (1 / 2) := by rw [h1]; exact axisValue_example.1
  have hy : axisValue env1.settings.joystickGimbalYawAxisIndex Example.sample
      = some (-1 / 4) := by rw [h1]; exact axisValue_example.2
  have he : env1.settings.joystickGimbalEnabled = true := by rw [h1]; rfl
  obtain ⟨t, a, heq⟩ := handleJoystickGimbalInput_eq env1 s Example.sample _ _ he hp hy
  rw [h1, processedAxis_example.1, processedAxis_example.2] at heq
  refine ⟨_, heq, rfl, rfl, rfl, ?_, ?_, ?_, ?_, ?_⟩
  · norm_num [nextSmoothedPitch, h2, Example.settings, hsp]
  · norm_num [nextSmoothedYaw, h2, Example.settings, hsy]
  · norm_num [joystickPitchAngle, nextSmoothedPitch, h2, Example.settings, hsp]
  · norm_num [joystickYawAngle, nextSmoothedYaw, h2, Example.settings, hsy]
  · intro hidle
    have h := hidle.1
    norm_num [abs_of_pos] at h

/-- C16 (amended): with enabled = true, pitch_idx = 1, yaw_idx = 2, deadband 0.1,
expo 0.4, smoothing 0.2, limits 45 and 90, smoothed values 0 and an active
gimbal that passes the control test, handling the sample [0, 0.5, -0.25] and
then one sender tick gives processed pitch 220/729 (0.3018 to four decimals),
smoothed pitch 44/729 (0.0604) and pitch_deg -220/81 (-2.716 to three
decimals); processed yaw is -11/108, smoothed yaw -11/540, yaw_deg -11/6; the
tick emits the GIMBAL_DEVICE_SET_ATTITUDE message built from these angles. -/
theorem joystick_sender_scenario (env1 env2 : Env ℚ) (s : State ℚ) (g : Gimbal ℚ) (chan : Nat)
    (h1 : env1.settings = Example.settings) (h2 : env2.settings = Example.settings)
    (hsp : s.joystickSmoothedPitch = 0) (hsy : s.joystickSmoothedYaw = 0)
    (hg : s.activeRecord = some g) (ho : g.gimbalOthersHaveControl = false)
    (hl : env2.primaryLink = some chan) :
    ∃ s1 s2, handleJoystickGimbalInput env1 s Example.sample = some (s1, []) ∧
      sendJoystickGimbalCommand env2 s1 =
        (s2, (tryGetGimbalControl env2 s1).2 ++
          [Output.gimbalDeviceSetAttitude (joystickMessage env2 s1 g chan),
           Output.gimbalMessageLogChanged]) ∧
      s1.joystickPitchInput = 220 / 729 ∧ s1.joystickYawInput = -11 / 108 ∧
      s2.joystickSmoothedPitch = 44 / 729 ∧ s2.joystickSmoothedYaw = -11 / 540 ∧
      joystickPitchAngle env2 s1 = -220 / 81 ∧ joystickYawAngle env2 s1 = -11 / 6 ∧
      |s1.joystickPitchInput - 3018 / 10000| ≤ 1 / 20000 ∧
      |s2.joystickSmoothedPitch - 604 / 10000| ≤ 1 / 20000 ∧
      |joystickPitchAngle env2 s1 - (-2716 / 1000)| ≤ 1 / 2000 := by
  obtain ⟨s1, hh, hrec, hpi, hyi, hnp, hny, hpa, hya, hidle⟩ :=
    joystick_scenario_values env1 env2 s h1 h2 hsp hsy
  rw [hg] at hrec
  have hsend := sendJoystickGimbalCommand_passed env2 s1 g chan hrec ho hl
  rw [if_neg hidle] at hsend
  refine ⟨s1, _, hh, hsend, hpi, hyi, hnp, hny, hpa, hya, ?_, ?_, ?_⟩
  · rw [hpi, abs_le]; constructor <;> norm_num
  · show |nextSmoothedPitch env2 s1 - 604 / 10000| ≤ 1 / 20000
    rw [hnp, abs_le]; constructor <;> norm_num
  · rw [hpa, abs_le]; constructor <;> norm_num

/-- C16 at the controller `Example.free`. -/
theorem joystick_sender_scenario_witness :
    ∃ s1 s2, handleJoystickGimbalInput (Example.env 3000) Example.free Example.sample
        = some (s1, []) ∧
      sendJoystickGimbalCommand (Example.env 3020) s1 =
        (s2, (tryGetGimbalControl (Example.env 3020) s1).2 ++
          [Output.gimbalDeviceSetAttitude
            (joystickMessage (Example.env 3020) s1 Example.freeRecord 0),
           Output.gimbalMessageLogChanged]) ∧
      s1.joystickPitchInput = 220 / 729 ∧ s1.joystickYawInput = -11 / 108 ∧
      s2.joystickSmoothedPitch = 44 / 729 ∧ s2.joystickSmoothedYaw = -11 / 540 ∧
      joystickPitchAngle (Example.env 3020) s1 = -220 / 81 ∧
      joystickYawAngle (Example.env 3020) s1 = -11 / 6 ∧
      |s1.joystickPitchInput - 3018 / 10000| ≤ 1 / 20000 ∧
      |s2.joystickSmoothedPitch - 604 / 10000| ≤ 1 / 20000 ∧
      |joystickPitchAngle (Example.env 3020) s1 - (-2716 / 1000)| ≤ 1 / 2000 :=
  joystick_sender_scenario (Example.env 3000) (Example.env 3020) Example.free Example.freeRecord 0
    rfl rfl rfl rfl rfl (by decide) rfl

/-- C16 as stated fails: in the scenario the processed pitch is 220/729, the
smoothed pitch 44/729 and pitch_deg -220/81, none of which rounds to the
0.2983, 0.0597 and -2.686 of the claim. -/
theorem joystick_sender_scenario_counterexample :
    ∃ s1, handleJoystickGimbalInput (Example.env 3000) Example.free Example.sample
        = some (s1, []) ∧
      s1.joystickPitchInput = 220 / 729 ∧
      nextSmoothedPitch (Example.env 3020) s1 = 44 / 729 ∧
      joystickPitchAngle (Example.env 3020) s1 = -220 / 81 ∧
      ¬ |s1.joystickPitchInput - 2983 / 10000| ≤ 1 / 20000 ∧
      ¬ |nextSmoothedPitch (Example.env 3020) s1 - 597 / 10000| ≤ 1 / 20000 ∧
      ¬ |joystickPitchAngle (Example.env 3020) s1 - (-2686 / 1000)| ≤ 1 / 2000 := by
  obtain ⟨s1, hh, -, hpi, -, hnp, -, hpa, -, -⟩ :=
    joystick_scenario_values (Example.env 3000) (Example.env 3020) Example.free rfl rfl rfl rfl
  refine ⟨s1, hh, hpi, hnp, hpa, ?_, ?_, ?_⟩
  · rw [hpi, abs_le]; norm_num
  · rw [hnp, abs_le]; norm_num
  · rw [hpa, abs_le]; norm_num

/-- C14 over the real numbers, with the real cosine and sine and degrees
converted by π / 180, at pitch -30 and yaw 45. -/
theorem quaternion_unit_norm_witness :
    (∀ x : ℝ, Real.cos x * Real.cos x + Real.sin x * Real.sin x = 1) ∧
    (joystickQuaternion (Example.trigEnv Real.cos Real.sin (fun x => x * Real.pi / 180))
      (-30) 45).normSq = 1 :=
  ⟨fun x => by rw [← sq, ← sq]; exact Real.cos_sq_add_sin_sq x,
   (quaternion_unit_norm (Example.trigEnv Real.cos Real.sin (fun x => x * Real.pi / 180))
      (fun x => by rw [← sq, ← sq]; exact Real.cos_sq_add_sin_sq x)).1 (-30) 45⟩

/-- The scenario settings are in range. -/
theorem exampleSettings_ok : JoystickSettingsOk Example.settings := by
  norm_num [JoystickSettingsOk, Example.settings]

/-- C15 on the run `Example.joystickCalls` from `Example.free`. -/
theorem joystick_angle_bounds_witness :
    JoystickBounded Example.free ∧ (∀ c ∈ Example.joystickCalls, JoystickCall c) ∧
    ∃ r, runCalls Example.free Example.joystickCalls = some r ∧ JoystickBounded r.1 ∧
      |joystickPitchAngle (Example.env 3080) r.1| ≤ 45 ∧
      |joystickYawAngle (Example.env 3080) r.1| ≤ 90 := by
  have hb : JoystickBounded Example.free := by
    have h1 : Example.free.joystickPitchInput = 0 := rfl
    have h2 : Example.free.joystickYawInput = 0 := rfl
    have h3 : Example.free.joystickSmoothedPitch = 0 := rfl
    have h4 : Example.free.joystickSmoothedYaw = 0 := rfl
    simp [JoystickBounded, h1, h2, h3, h4]
  have hc : ∀ c ∈ Example.joystickCalls, JoystickCall c := by
    intro c hmem
    simp only [Example.joystickCalls, List.mem_cons, List.mem_singleton, List.not_mem_nil,
      or_false] at hmem
    rcases hmem with h | h | h | h | h <;> rw [h]
    · refine ⟨exampleSettings_ok, ?_⟩
      intro a ha
      simp only [List.mem_cons, List.mem_singleton, List.not_mem_nil, or_false] at ha
      rcases ha with h | h | h <;> rw [h] <;> norm_num [abs_le]
    · exact exampleSettings_ok
    · refine ⟨exampleSettings_ok, ?_⟩
      intro a ha
      simp only [Example.sample, List.mem_cons, List.mem_singleton, List.not_mem_nil,
        or_false] at ha
      rcases ha with h | h | h <;> rw [h] <;> norm_num [abs_le]
    · exact exampleSettings_ok
    · exact exampleSettings_ok
  obtain ⟨r, hr⟩ := (joystick_angle_bounds Example.free Example.joystickCalls hb hc).2
    (by
      intro c hmem
      simp only [Example.joystickCalls, List.mem_cons, List.mem_singleton, List.not_mem_nil,
        or_false] at hmem
      rcases hmem with h | h | h | h | h <;> rw [h] <;> exact ⟨by decide, by decide⟩)
  obtain ⟨hbr, hang⟩ := (joystick_angle_bounds Example.free Example.joystickCalls hb hc).1 r hr
  exact ⟨hb, hc, r, hr, hbr, (hang (Example.env 3080) exampleSettings_ok).2.2.1,
    (hang (Example.env 3080) exampleSettings_ok).2.2.2⟩

/-! ## Latest sample wins -/

/-- A sender tick reads neither of the two joystick timer flags. -/
theorem sendJoystickGimbalCommand_flags (env : Env α) (s : State α) (t a : Bool) :
    (sendJoystickGimbalCommand env
        { s with joystickGimbalSendTimerActive := t, joystickGimbalActive := a }).2 =
      (sendJoystickGimbalCommand env s).2 ∧
    (sendJoystickGimbalCommand env
        { s with joystickGimbalSendTimerActive := t, joystickGimbalActive := a }).1.joystickSmoothedPitch =
      (sendJoystickGimbalCommand env s).1.joystickSmoothedPitch ∧
    (sendJoystickGimbalCommand env
        { s with joystickGimbalSendTimerActive := t, joystickGimbalActive := a }).1.joystickSmoothedYaw =
      (sendJoystickGimbalCommand env s).1.joystickSmoothedYaw ∧
    (sendJoystickGimbalCommand env
        { s with joystickGimbalSendTimerActive := t, joystickGimbalActive := a }).1.gimbalMessageLog =
      (sendJoystickGimbalCommand env s).1.gimbalMessageLog := by
  obtain ⟨s2, hs2⟩ : ∃ s2 : State α, s2 =
    { s with joystickGimbalSendTimerActive := t, joystickGimbalActive := a } := ⟨_, rfl⟩
  rw [← hs2]
  have hrec : s2.activeRecord = s.activeRecord := by rw [hs2]; rfl
  have htry : tryGetGimbalControl env s2 = tryGetGimbalControl env s := by rw [hs2]; rfl
  cases hg : s.activeRecord with
  | none =>
    rw [hg] at hrec
    simp only [sendJoystickGimbalCommand, hg, hrec]
    rw [hs2]
    simp
  | some g =>
    rw [hg] at hrec
    by_cases h1 : (tryGetGimbalControl env s).1 = false
    · have h2 : (tryGetGimbalControl env s2).1 = false := by rw [htry]; exact h1
      simp only [sendJoystickGimbalCommand, hg, hrec, h1, h2, if_true, htry]
      rw [hs2]
      simp
    · have h2 : ¬ (tryGetGimbalControl env s2).1 = false := by rw [htry]; exact h1
      cases hl : env.primaryLink with
      | none =>
        simp only [sendJoystickGimbalCommand, hg, hrec, h1, h2, if_false, hl, htry]
        rw [hs2]
        simp
      | some chan =>
        have h3 : (tryGetGimbalControl env s).1 = true := by simpa using h1
        obtain ⟨g2, hg2, ho⟩ := tryGetGimbalControl_true env s h3
        have hg3 : s2.activeRecord = some g2 := by rw [hrec, ← hg2, hg]
        rw [sendJoystickGimbalCommand_passed env s g2 chan hg2 ho hl,
          sendJoystickGimbalCommand_passed env s2 g2 chan hg3 ho hl, htry]
        have hidle : joystickIdle env s2 ↔ joystickIdle env s := by rw [hs2]; rfl
        by_cases hi : joystickIdle env s
        · rw [if_pos hi, if_pos (hidle.mpr hi), hs2]
          exact ⟨rfl, rfl, rfl, rfl⟩
        · rw [if_neg hi, if_neg (fun h => hi (hidle.mp h)), hs2]
          exact ⟨rfl, rfl, rfl, rfl⟩

/-- C17: when two samples are handled with no sender tick in between, the
feature being enabled for the second, the stored inputs afterwards are those
after handling the second sample alone, the smoothed values are untouched, and
so the smoothed values, angles, emitted outputs (the quaternion among them) and
log of the next sender tick are the same as if the first sample had never
arrived. -/
theorem joystick_latest_wins (env1 env2 env3 : Env α) (s : State α) (sample1 sample2 : List α)
    (r1 r2 : State α × List (Output α))
    (he : env2.settings.joystickGimbalEnabled = true)
    (h1 : handleJoystickGimbalInput env1 s sample1 = some r1)
    (h2 : handleJoystickGimbalInput env2 s sample2 = some r2) :
    ∃ r12, handleJoystickGimbalInput env2 r1.1 sample2 = some r12 ∧
      r12.1.joystickPitchInput = r2.1.joystickPitchInput ∧
      r12.1.joystickYawInput = r2.1.joystickYawInput ∧
      r12.1.joystickSmoothedPitch = r2.1.joystickSmoothedPitch ∧
      r12.1.joystickSmoothedYaw = r2.1.joystickSmoothedYaw ∧
      nextSmoothedPitch env3 r12.1 = nextSmoothedPitch env3 r2.1 ∧
      nextSmoothedYaw env3 r12.1 = nextSmoothedYaw env3 r2.1 ∧
      joystickPitchAngle env3 r12.1 = joystickPitchAngle env3 r2.1 ∧
      joystickYawAngle env3 r12.1 = joystickYawAngle env3 r2.1 ∧
      (sendJoystickGimbalCommand env3 r12.1).2 = (sendJoystickGimbalCommand env3 r2.1).2 ∧
      (sendJoystickGimbalCommand env3 r12.1).1.joystickSmoothedPitch =
        (sendJoystickGimbalCommand env3 r2.1).1.joystickSmoothedPitch ∧
      (sendJoystickGimbalCommand env3 r12.1).1.joystickSmoothedYaw =
        (sendJoystickGimbalCommand env3 r2.1).1.joystickSmoothedYaw ∧
      (sendJoystickGimbalCommand env3 r12.1).1.gimbalMessageLog =
        (sendJoystickGimbalCommand env3 r2.1).1.gimbalMessageLog := by
  have he0 : ¬ env2.settings.joystickGimbalEnabled = false := by simp [he]
  cases hp : axisValue env2.settings.joystickGimbalPitchAxisIndex sample2 with
  | none =>
    simp only [handleJoystickGimbalInput, he, Bool.true_eq_false, if_false, hp] at h2
    exact absurd h2 (by simp)
  | some pitchAxis =>
    cases hy : axisValue env2.settings.joystickGimbalYawAxisIndex sample2 with
    | none =>
      simp only [handleJoystickGimbalInput, he, Bool.true_eq_false, if_false, hp, hy] at h2
      exact absurd h2 (by simp)
    | some yawAxis =>
      obtain ⟨t2, a2, e2⟩ := handleJoystickGimbalInput_eq env2 s sample2 pitchAxis yawAxis he hp hy
      obtain ⟨t12, a12, e12⟩ :=
        handleJoystickGimbalInput_eq env2 r1.1 sample2 pitchAxis yawAxis he hp hy
      rw [e2] at h2
      have hr2 := (Option.some.inj h2).symm
      -- the first sample changes nothing but the stored inputs and the two flags
      have hs1 : ∃ (p y : α) (t a : Bool), r1.1 = { s with
          joystickPitchInput := p
          joystickYawInput := y
          joystickGimbalSendTimerActive := t
          joystickGimbalActive := a } := by
        by_cases he1 : env1.settings.joystickGimbalEnabled = false
        · simp only [handleJoystickGimbalInput, he1, if_true, Option.some.injEq] at h1
          exact ⟨s.joystickPitchInput, s.joystickYawInput, s.joystickGimbalSendTimerActive,
            s.joystickGimbalActive, by rw [← h1]⟩
        · have he1t : env1.settings.joystickGimbalEnabled = true := by simpa using he1
          cases hp1 : axisValue env1.settings.joystickGimbalPitchAxisIndex sample1 with
          | none =>
            simp only [handleJoystickGimbalInput, he1t, Bool.true_eq_false, if_false, hp1] at h1
            exact absurd h1 (by simp)
          | some p1 =>
            cases hy1 : axisValue env1.settings.joystickGimbalYawAxisIndex sample1 with
            | none =>
              simp only [handleJoystickGimbalInput, he1t, Bool.true_eq_false, if_false, hp1,
                hy1] at h1
              exact absurd h1 (by simp)
            | some y1 =>
              obtain ⟨t1, a1, e1⟩ :=
                handleJoystickGimbalInput_eq env1 s sample1 p1 y1 he1t hp1 hy1
              rw [e1] at h1
              exact ⟨_, _, t1, a1, by rw [← Option.some.inj h1]⟩
      obtain ⟨p, y, t, a, hr1⟩ := hs1
      have h12 : ∃ t3 a3, ({ r1.1 with
          joystickPitchInput := processedAxis env2.settings pitchAxis
          joystickYawInput := processedAxis env2.settings yawAxis
          joystickGimbalSendTimerActive := t12
          joystickGimbalActive := a12 } : State α) =
          { r2.1 with joystickGimbalSendTimerActive := t3, joystickGimbalActive := a3 } := by
        refine ⟨t12, a12, ?_⟩
        rw [hr1, hr2]
      obtain ⟨t3, a3, h3⟩ := h12
      rw [h3] at e12
      refine ⟨_, e12, rfl, rfl, rfl, rfl, rfl, rfl, rfl, rfl, ?_⟩
      exact sendJoystickGimbalCommand_flags env3 r2.1 t3 a3

/-- C17 at `Example.free`: a full deflection followed by the scenario's sample. -/
theorem joystick_latest_wins_witness :
    ∃ r1 r2 r12,
      handleJoystickGimbalInput (Example.env 3000) Example.free [1, -1, 1 / 3] = some r1 ∧
      handleJoystickGimbalInput (Example.env 3010) Example.free Example.sample = some r2 ∧
      handleJoystickGimbalInput (Example.env 3010) r1.1 Example.sample = some r12 ∧
      r12.1.joystickPitchInput = r2.1.joystickPitchInput ∧
      r12.1.joystickYawInput = r2.1.joystickYawInput ∧
      (sendJoystickGimbalCommand (Example.env 3020) r12.1).2 =
        (sendJoystickGimbalCommand (Example.env 3020) r2.1).2 := by
  obtain ⟨r1, h1⟩ := handleJoystickGimbalInput_isSome (Example.env 3000) Example.free
    [1, -1, 1 / 3] ⟨by decide, by decide⟩
  obtain ⟨r2, h2⟩ := handleJoystickGimbalInput_isSome (Example.env 3010) Example.free
    Example.sample ⟨by decide, by decide⟩
  obtain ⟨r12, h12, hp, hy, -, -, -, -, -, -, hout, -⟩ :=
    joystick_latest_wins (Example.env 3000) (Example.env 3010) (Example.env 3020) Example.free
      [1, -1, 1 / 3] Example.sample r1 r2 rfl h1 h2
  exact ⟨r1, r2, r12, h1, h2, h12, hp, hy, hout⟩

/-! ## Refusal of the joystick sender -/

/-- C18 (amended): a sender tick is refused, leaving the whole controller
(smoothed values, stored inputs, timer state) unchanged, when there is no
active gimbal (nothing is emitted), when another station has control of the
active gimbal (only the `showAcquireGimbalControlPopup` signal is raised), and
when the primary link is absent (nothing is emitted but the acquire command
that the control test, which runs first, sends if nobody had control). -/
theorem joystick_sender_refusal (env : Env α) (s : State α) :
    (s.activeRecord = none → sendJoystickGimbalCommand env s = (s, [])) ∧
    (∀ g, s.activeRecord = some g → g.gimbalOthersHaveControl = true →
      sendJoystickGimbalCommand env s = (s, [Output.showAcquireGimbalControlPopup])) ∧
    (∀ g, s.activeRecord = some g → g.gimbalOthersHaveControl = false →
      env.primaryLink = none →
      sendJoystickGimbalCommand env s =
        (s, if g.gimbalHaveControl = false then acquireGimbalControl env s else [])) := by
  refine ⟨?_, ?_, ?_⟩
  · intro h
    simp only [sendJoystickGimbalCommand, h]
  · intro g hg ho
    simp only [sendJoystickGimbalCommand, hg, tryGetGimbalControl_contested env s g hg ho,
      if_true]
  · intro g hg ho hl
    have h1 : ¬ (tryGetGimbalControl env s).1 = false := by
      rw [tryGetGimbalControl_fst env s g hg ho]
      simp
    rw [← tryGetGimbalControl_snd env s g hg ho]
    simp only [sendJoystickGimbalCommand, hg, h1, if_false, hl, ite_self]

/-- C18 at the empty controller, at `Example.contested` and at `Example.free`
without a link. -/
theorem joystick_sender_refusal_witness :
    sendJoystickGimbalCommand (Example.env 3000) (State.empty : State ℚ) = (State.empty, []) ∧
    sendJoystickGimbalCommand (Example.env 3000) Example.contested =
      (Example.contested, [Output.showAcquireGimbalControlPopup]) ∧
    sendJoystickGimbalCommand (Example.linkDownEnv 3000) Example.free =
      (Example.free, if Example.freeRecord.gimbalHaveControl = false then
        acquireGimbalControl (Example.linkDownEnv 3000) Example.free else []) :=
  ⟨(joystick_sender_refusal (Example.env 3000) State.empty).1 rfl,
   (joystick_sender_refusal (Example.env 3000) Example.contested).2.1 Example.contestedRecord
     rfl (by decide),
   (joystick_sender_refusal (Example.linkDownEnv 3000) Example.free).2.2 Example.freeRecord
     rfl (by decide) rfl⟩

/-- C18 as stated fails: at `Example.free` our station does not have control
(nobody has), yet after the scenario's sample the tick is not refused: it sends
the acquire command and a GIMBAL_DEVICE_SET_ATTITUDE message and moves the
smoothed pitch from 0 to 44/729. -/
theorem joystick_sender_refusal_counterexample :
    Example.free.activeRecord = some Example.freeRecord ∧
    Example.freeRecord.gimbalHaveControl = false ∧
    ∃ s1 s2, handleJoystickGimbalInput (Example.env 3000) Example.free Example.sample
        = some (s1, []) ∧
      sendJoystickGimbalCommand (Example.env 3020) s1 =
        (s2, acquireGimbalControl (Example.env 3020) s1 ++
          [Output.gimbalDeviceSetAttitude
            (joystickMessage (Example.env 3020) s1 Example.freeRecord 0),
           Output.gimbalMessageLogChanged]) ∧
      acquireGimbalControl (Example.env 3020) s1 ≠ [] ∧
      s1.joystickSmoothedPitch = 0 ∧ s2.joystickSmoothedPitch = 44 / 729 := by
  refine ⟨rfl, by decide, ?_⟩
  obtain ⟨s1, hh, hrec, -, -, hnp, -, -, -, hidle⟩ :=
    joystick_scenario_values (Example.env 3000) (Example.env 3020) Example.free rfl rfl rfl rfl
  have hrec1 : s1.activeRecord = some Example.freeRecord := hrec
  have ho : Example.freeRecord.gimbalOthersHaveControl = false := by decide
  have hsend := sendJoystickGimbalCommand_passed (Example.env 3020) s1 Example.freeRecord 0
    hrec1 ho rfl
  rw [if_neg hidle, tryGetGimbalControl_snd (Example.env 3020) s1 Example.freeRecord hrec1 ho,
    if_pos (by decide)] at hsend
  refine ⟨s1, _, hh, hsend, ?_, ?_, hnp⟩
  · rw [acquireGimbalControl_eq (Example.env 3020) s1 Example.freeRecord hrec1]
    simp
  · obtain ⟨t, a, heq⟩ := handleJoystickGimbalInput_eq (Example.env 3000) Example.free
      Example.sample (1 / 2) (-1 / 4) rfl axisValue_example.1 axisValue_example.2
    rw [heq] at hh
    rw [← (Prod.mk.inj (Option.some.inj hh)).1]
    rfl

/-! ## The rate keep-alive timer -/

/-- What `sendRate` does once the control test has passed. -/
theorem sendRate_eq (env : Env α) (s : State α) (g : Gimbal α)
    (hg : s.activeRecord = some g) (ho : g.gimbalOthersHaveControl = false) :
    sendRate env s =
      ({ s with rateSenderTimerActive := !decide (g.pitchRate = 0 ∧ g.yawRate = 0) },
       (tryGetGimbalControl env s).2 ++
         [pitchYawCommand g false Param.nan Param.nan (Param.num g.pitchRate)
           (Param.num g.yawRate)
           (if g.yawLock = true then
              GIMBAL_MANAGER_FLAGS_ROLL_LOCK ||| GIMBAL_MANAGER_FLAGS_PITCH_LOCK |||
                GIMBAL_MANAGER_FLAGS_YAW_LOCK
            else GIMBAL_MANAGER_FLAGS_ROLL_LOCK ||| GIMBAL_MANAGER_FLAGS_PITCH_LOCK)]) := by
  have h1 : ¬ (tryGetGimbalControl env s).1 = false := by
    rw [tryGetGimbalControl_fst env s g hg ho]
    simp
  simp only [sendRate, h1, if_false, hg]
  by_cases hz : g.pitchRate = 0 ∧ g.yawRate = 0
  · rw [if_pos hz]
    simp [hz]
  · rw [if_neg hz]
    simp [hz]

/-- When another station has control `sendRate` returns at the control test:
the timer is left as it was. -/
theorem sendRate_refused (env : Env α) (s : State α) (g : Gimbal α)
    (hg : s.activeRecord = some g) (ho : g.gimbalOthersHaveControl = true) :
    sendRate env s = (s, [Output.showAcquireGimbalControlPopup]) := by
  simp only [sendRate, tryGetGimbalControl_contested env s g hg ho, if_true]

theorem activeGimbal_of_activeRecord (s : State α) (g : Gimbal α)
    (hg : s.activeRecord = some g) : ∃ k, s.activeGimbal = some k := by
  cases ha : s.activeGimbal with
  | none => simp only [State.activeRecord, ha] at hg; exact absurd hg (by simp)
  | some k => exact ⟨k, rfl⟩

theorem gimbalPitchStop_eq (env : Env α) (s : State α) (g : Gimbal α)
    (hg : s.activeRecord = some g) :
    gimbalPitchStop env s = sendRate env (s.modifyActive (fun g => { g with pitchRate := 0 })) := by
  obtain ⟨k, hk⟩ := activeGimbal_of_activeRecord s g hg
  simp only [gimbalPitchStop, hk]

theorem gimbalYawStop_eq (env : Env α) (s : State α) (g : Gimbal α)
    (hg : s.activeRecord = some g) :
    gimbalYawStop env s = sendRate env (s.modifyActive (fun g => { g with yawRate := 0 })) := by
  obtain ⟨k, hk⟩ := activeGimbal_of_activeRecord s g hg
  simp only [gimbalYawStop, hk]

/-- The controller after `gimbalPitchStop` when the control test passes. -/
theorem gimbalPitchStop_passed (env : Env α) (s : State α) (g : Gimbal α)
    (hg : s.activeRecord = some g) (ho : g.gimbalOthersHaveControl = false) :
    (gimbalPitchStop env s).1.activeRecord = some { g with pitchRate := 0 } ∧
    (gimbalPitchStop env s).1.rateSenderTimerActive = !decide (g.yawRate = 0) := by
  have hm : (s.modifyActive (fun g => { g with pitchRate := 0 })).activeRecord
      = some { g with pitchRate := 0 } := by
    rw [modifyActive_activeRecord, hg]; rfl
  rw [gimbalPitchStop_eq env s g hg, sendRate_eq env _ _ hm ho]
  refine ⟨hm, ?_⟩
  simp

/-- The controller after `gimbalYawStop` when the control test passes. -/
theorem gimbalYawStop_passed (env : Env α) (s : State α) (g : Gimbal α)
    (hg : s.activeRecord = some g) (ho : g.gimbalOthersHaveControl = false) :
    (gimbalYawStop env s).1.activeRecord = some { g with yawRate := 0 } ∧
    (gimbalYawStop env s).1.rateSenderTimerActive = !decide (g.pitchRate = 0) := by
  have hm : (s.modifyActive (fun g => { g with yawRate := 0 })).activeRecord
      = some { g with yawRate := 0 } := by
    rw [modifyActive_activeRecord, hg]; rfl
  rw [gimbalYawStop_eq env s g hg, sendRate_eq env _ _ hm ho]
  refine ⟨hm, ?_⟩
  simp

/-- C19 (amended): in every state with an active gimbal that passes the control
test (no other station has control), whenever `gimbalPitchStop()` or
`gimbalYawStop()` returns with both stored rates of the active gimbal equal to
0, the rate keep-alive timer is stopped; after `gimbalPitchStop()` the timer is
stopped exactly when the stored yaw rate is 0, after `gimbalYawStop()` exactly
when the stored pitch rate is 0. -/
theorem rate_keepalive_stops (env : Env α) (s : State α) (g : Gimbal α)
    (hg : s.activeRecord = some g) (ho : g.gimbalOthersHaveControl = false) :
    (∀ g2, (gimbalPitchStop env s).1.activeRecord = some g2 →
      g2.pitchRate = 0 → g2.yawRate = 0 →
      (gimbalPitchStop env s).1.rateSenderTimerActive = false) ∧
    (∀ g2, (gimbalYawStop env s).1.activeRecord = some g2 →
      g2.pitchRate = 0 → g2.yawRate = 0 →
      (gimbalYawStop env s).1.rateSenderTimerActive = false) ∧
    ((gimbalPitchStop env s).1.rateSenderTimerActive = false ↔ g.yawRate = 0) ∧
    ((gimbalYawStop env s).1.rateSenderTimerActive = false ↔ g.pitchRate = 0) := by
  obtain ⟨hp1, hp2⟩ := gimbalPitchStop_passed env s g hg ho
  obtain ⟨hy1, hy2⟩ := gimbalYawStop_passed env s g hg ho
  refine ⟨?_, ?_, ?_, ?_⟩
  · intro g2 h2 _ hyz
    rw [hp1] at h2
    rw [← Option.some.inj h2] at hyz
    rw [hp2]
    simpa using hyz
  · intro g2 h2 hpz _
    rw [hy1] at h2
    rw [← Option.some.inj h2] at hpz
    rw [hy2]
    simpa using hpz
  · rw [hp2]; simp
  · rw [hy2]; simp

/-- The controller `Example.rateRunning` in closed form. -/
theorem rateRunning_eq :
    Example.rateRunning =
      { Example.free.modifyActive (fun g => { g with pitchRate := 30 }) with
        rateSenderTimerActive := true } := by
  have hstart : gimbalPitchStart (Example.env 3000) Example.free 1 =
      sendRate (Example.env 3000)
        (Example.free.modifyActive (fun g => { g with pitchRate := 30 })) := by
    have h30 : (((1 : Int) : ℚ)) * ((Example.env 3000).settings.joystickButtonsSpeed : ℚ)
        = 30 := by
      have : (Example.env 3000).settings.joystickButtonsSpeed = 30 := rfl
      rw [this]; norm_num
    have ha : Example.free.activeGimbal = some { managerCompid := 154, deviceId := 1 } := rfl
    simp only [gimbalPitchStart, ha, h30]
  have hm : (Example.free.modifyActive (fun g => { g with pitchRate := 30 })).activeRecord
      = some { Example.freeRecord with pitchRate := 30 } := by
    rw [modifyActive_activeRecord]; rfl
  rw [Example.rateRunning, hstart, sendRate_eq _ _ _ hm (by decide)]
  simp

/-- C19 in the scenario of the specification: `gimbalPitchStart(+1)` with button
speed 30 at `Example.free`, then `gimbalPitchStop()`. -/
theorem rate_keepalive_stops_witness :
    (gimbalPitchStop (Example.env 4200) Example.rateRunning).1.rateSenderTimerActive = false := by
  have hg : Example.rateRunning.activeRecord = some { Example.freeRecord with pitchRate := 30 } := by
    rw [rateRunning_eq]; rfl
  exact (rate_keepalive_stops (Example.env 4200) Example.rateRunning _ hg (by decide)).2.2.1.mpr
    rfl

/-- C19 as stated fails: the button is pressed at `Example.free` (the timer
starts), a GIMBAL_MANAGER_STATUS frame then names station (9, 200) as primary,
and `gimbalPitchStop()` returns with both stored rates 0 and the keep-alive
timer still running: `sendRate` returned at the control test, before the lines
that stop the timer (599-604). -/
theorem rate_keepalive_stops_counterexample :
    Example.rateRunning = (gimbalPitchStart (Example.env 3000) Example.free 1).1 ∧
    Example.rateRunning.rateSenderTimerActive = true ∧
    ∃ r g, runCalls Example.rateRunning Example.takenOverCalls = some r ∧
      r.1.activeRecord = some g ∧ g.pitchRate = 0 ∧ g.yawRate = 0 ∧
      r.1.rateSenderTimerActive = true := by
  refine ⟨rfl, by rw [rateRunning_eq], ?_⟩
  rw [rateRunning_eq]
  have h : (runCalls ({ Example.free.modifyActive (fun g => { g with pitchRate := 30 }) with
        rateSenderTimerActive := true } : State ℚ) Example.takenOverCalls).map
      (fun r => (r.1.rateSenderTimerActive,
        r.1.activeRecord.map (fun g => (decide (g.pitchRate = 0), decide (g.yawRate = 0)))))
      = some (true, some (true, true)) := by decide
  cases hr : runCalls ({ Example.free.modifyActive (fun g => { g with pitchRate := 30 }) with
        rateSenderTimerActive := true } : State ℚ) Example.takenOverCalls with
  | none => rw [hr] at h; exact absurd h (by simp)
  | some r =>
    rw [hr] at h
    simp only [Option.map_some', Option.some.injEq, Prod.mk.injEq] at h
    obtain ⟨ht, hrec⟩ := h
    cases hg : r.1.activeRecord with
    | none => rw [hg] at hrec; exact absurd hrec (by simp)
    | some g =>
      rw [hg] at hrec
      simp only [Option.map_some', Option.some.injEq, Prod.mk.injEq, decide_eq_true_eq] at hrec
      exact ⟨r, g, rfl, hg, hrec.1, hrec.2, ht⟩

/-! ## Stored keys -/

theorem framePairId_deviceId (s : State α) (f : Frame α) (p : GimbalPairId)
    (hf : NonZeroSender f) (h : framePairId s f = some p) : p.deviceId ≠ 0 := by
  cases f with
  | heartbeat c => simp [framePairId] at h
  | other id => simp [framePairId] at h
  | gimbalManagerInformation c d cap =>
    simp only [framePairId] at h
    split_ifs at h with hd
    rw [← Option.some.inj h]
    exact hd
  | gimbalManagerStatus c d ps pc =>
    simp only [framePairId] at h
    split_ifs at h with hd
    rw [← Option.some.inj h]
    exact hd
  | gimbalDeviceAttitudeStatus c d fl q =>
    simp only [framePairId, attitudePairId] at h
    by_cases hd : d = 0
    · have hc : c ≠ 0 := hf hd
      rw [if_pos hd] at h
      cases hfind : s.potentialGimbals.find? (fun kv => decide (kv.2.deviceId = c)) with
      | none => rw [hfind] at h; exact absurd h (by simp)
      | some kv =>
        rw [hfind] at h
        rw [← Option.some.inj h]
        exact hc
    · rw [if_neg hd] at h
      split_ifs at h
      rw [← Option.some.inj h]
      exact hd

/-- A frame other than an attitude status from component 0 with device id field
0 stores no key with device id 0. -/
theorem mavlinkMessageReceived_keys (env : Env α) (s : State α) (f : Frame α)
    (hf : NonZeroSender f) (hs : ∀ kv ∈ s.potentialGimbals, kv.1.deviceId ≠ 0) :
    ∀ kv ∈ (mavlinkMessageReceived env s f).1.potentialGimbals, kv.1.deviceId ≠ 0 := by
  rcases mavlinkMessageReceived_shape env s f with ⟨-, m, out, h, -⟩ | ⟨p, m, g, -, hp, h, -⟩
  · rw [h]; exact hs
  · rw [h, checkComplete_potentialGimbals]
    intro kv hkv
    rcases Table.mem_set _ _ _ kv hkv with hk | hk
    · rw [hk]
      exact framePairId_deviceId s f p hf hp
    · exact hs kv hk

/-- Outside the failing input of C13 the invariant holds: if no attitude frame
with device id field 0 comes from component id 0, every key stored after any
sequence of frames from the empty controller has a device id other than 0. -/
theorem stored_keys_nonzero (frames : List (Env α × Frame α))
    (hf : ∀ ef ∈ frames, NonZeroSender ef.2) :
    ∀ kv ∈ (receiveAll State.empty frames).1.potentialGimbals, kv.1.deviceId ≠ 0 := by
  have key : ∀ (frames : List (Env α × Frame α)) (s : State α),
      (∀ ef ∈ frames, NonZeroSender ef.2) →
      (∀ kv ∈ s.potentialGimbals, kv.1.deviceId ≠ 0) →
      ∀ kv ∈ (receiveAll s frames).1.potentialGimbals, kv.1.deviceId ≠ 0 := by
    intro frames
    induction frames with
    | nil => intro s _ hs; exact hs
    | cons ef rest ih =>
      intro s hf hs
      obtain ⟨env, f⟩ := ef
      exact ih _ (fun x hx => hf x (List.mem_cons_of_mem _ hx))
        (mavlinkMessageReceived_keys env s f (hf _ (List.mem_cons_self _ _)) hs)
  exact key frames State.empty hf (by intro kv hkv; exact absurd hkv (List.not_mem_nil _))

/-! ## The active gimbal -/

theorem receiveAll_append (s : State α) (evs more : List (Env α × Frame α)) :
    (receiveAll s (evs ++ more)).1 = (receiveAll (receiveAll s evs).1 more).1 := by
  induction evs generalizing s with
  | nil => rfl
  | cons ev rest ih =>
    obtain ⟨env, f⟩ := ev
    exact ih _

/-- One frame keeps the active gimbal at the head of the exposed list, and never
re-points an active gimbal that exists. -/
theorem active_step (env : Env α) (s : State α) (f : Frame α)
    (hA : s.activeGimbal = s.gimbals.head?) :
    (mavlinkMessageReceived env s f).1.activeGimbal =
        (mavlinkMessageReceived env s f).1.gimbals.head? ∧
    ∀ p, s.activeGimbal = some p → (mavlinkMessageReceived env s f).1.activeGimbal = some p := by
  rcases mavlinkMessageReceived_shape env s f with ⟨_, m, out, h, _⟩ | ⟨p, m, g, _, _, h, _⟩
  · rw [h]
    exact ⟨hA, fun p hp => hp⟩
  · rw [h, checkComplete_activeGimbal, checkComplete_gimbals]
    by_cases hc : g.isComplete = false ∧ g.allReceived = true
    · rw [if_pos hc]
      cases ha : s.activeGimbal with
      | none =>
        have hg : s.gimbals = [] := by
          rw [ha] at hA
          exact List.head?_eq_none_iff.mp hA.symm
        simp [hc, ha, hg]
      | some q =>
        rw [ha] at hA
        obtain ⟨tl, htl⟩ : ∃ tl, s.gimbals = q :: tl := by
          cases hl : s.gimbals with
          | nil => rw [hl] at hA; exact absurd hA (by simp)
          | cons a tl =>
            rw [hl] at hA
            simp only [List.head?_cons, Option.some.injEq] at hA
            exact ⟨tl, by rw [hA]⟩
        simp [hc, ha, htl]
    · rw [if_neg hc]
      have hc2 : ¬ (g.isComplete = false ∧ g.allReceived = true ∧ s.activeGimbal = none) :=
        fun h3 => hc ⟨h3.1, h3.2.1⟩
      simp only [hc2, if_false]
      exact ⟨hA, fun p hp => hp⟩

theorem receiveAll_active_kept (more : List (Env α × Frame α)) :
    ∀ (s : State α) (p : GimbalPairId), s.activeGimbal = s.gimbals.head? →
      s.activeGimbal = some p → (receiveAll s more).1.activeGimbal = some p := by
  induction more with
  | nil => intro s p _ hp; exact hp
  | cons ev rest ih =>
    intro s p hA hp
    obtain ⟨env, f⟩ := ev
    obtain ⟨h1, h2⟩ := active_step env s f hA
    exact ih _ p h1 (h2 p hp)

/-- C22: in every run from the empty controller driven only by inbound frames,
the active gimbal is the head of the exposed list, which is in order of
completion: it is absent exactly as long as no record is complete, it is then
the first record that became complete, it is a complete record whenever it
exists, and once it exists no further frames, however many records they
complete, change it. -/
theorem active_gimbal_selection (evs more : List (Env α × Frame α)) :
    (receiveAll State.empty evs).1.activeGimbal = (receiveAll State.empty evs).1.gimbals.head? ∧
    ((receiveAll State.empty evs).1.activeGimbal = none ↔
      ∀ p, ¬ (receiveAll State.empty evs).1.isCompleteAt p) ∧
    (∀ p, (receiveAll State.empty evs).1.activeGimbal = some p →
      (receiveAll State.empty evs).1.isCompleteAt p ∧
      (receiveAll State.empty (evs ++ more)).1.activeGimbal = some p) := by
  have hinv : (receiveAll (State.empty : State α) evs).1.gimbals.Nodup ∧
      (∀ p, p ∈ (receiveAll (State.empty : State α) evs).1.gimbals ↔
        (receiveAll (State.empty : State α) evs).1.isCompleteAt p) ∧
      (receiveAll (State.empty : State α) evs).1.activeGimbal =
        (receiveAll (State.empty : State α) evs).1.gimbals.head? := by
    refine receiveAll_induct
      (fun s => s.gimbals.Nodup ∧ (∀ p, p ∈ s.gimbals ↔ s.isCompleteAt p) ∧
        s.activeGimbal = s.gimbals.head?) ?_ State.empty ?_ evs
    · intro env s f hs
      obtain ⟨h1, h2, _⟩ := exposed_step env s f hs.1 hs.2.1
      exact ⟨h1, h2, (active_step env s f hs.2.2).1⟩
    · refine ⟨by simp [State.empty], ?_, rfl⟩
      intro p
      simp [State.empty, State.isCompleteAt, Table.find]
  obtain ⟨-, hM, hA⟩ := hinv
  refine ⟨hA, ?_, ?_⟩
  · rw [hA, List.head?_eq_none_iff]
    constructor
    · intro hnil p hp
      have := (hM p).mpr hp
      rw [hnil] at this
      exact absurd this (List.not_mem_nil _)
    · intro hno
      cases hl : (receiveAll (State.empty : State α) evs).1.gimbals with
      | nil => rfl
      | cons a tl =>
        exact absurd ((hM a).mp (by rw [hl]; exact List.mem_cons_self _ _)) (hno a)
  · intro p hp
    refine ⟨(hM p).mp ?_, ?_⟩
    · rw [hA] at hp
      exact List.mem_of_mem_head? hp
    · rw [receiveAll_append]
      exact receiveAll_active_kept more _ p hA hp

/-! ## Stored identity -/

theorem agreesWith_new (k : GimbalPairId) : (Gimbal.new : Gimbal α).agreesWith k := by
  refine ⟨Or.inl rfl, Or.inl rfl, ?_⟩
  intro h
  rcases h with h | h <;> exact absurd h (by simp [Gimbal.new])

/-- The record a handler finds under `k` (or creates) agrees with `k`. -/
theorem agreesWith_getD (t : List (GimbalPairId × Gimbal α))
    (ht : ∀ kv ∈ t, kv.2.agreesWith kv.1) (k : GimbalPairId) :
    ((Table.find t k).getD Gimbal.new).agreesWith k := by
  cases h : Table.find t k with
  | none => exact agreesWith_new k
  | some g => exact ht (k, g) (Table.find_mem t k g h)

theorem agreesWith_checkCompleteRecord (now last : Int) (g : Gimbal α) (p k : GimbalPairId)
    (h : g.agreesWith k) : (checkCompleteRecord now last g p).agreesWith k := by
  obtain ⟨km, kd, -⟩ := checkCompleteRecord_keeps now last g p
  obtain ⟨fi, -, -, -, -, fc⟩ := checkCompleteRecord_fields now last g p
  obtain ⟨h1, h2, h3⟩ := h
  unfold Gimbal.agreesWith
  rw [km, kd, fi, fc]
  refine ⟨h1, h2, ?_⟩
  intro hh
  apply h3
  rcases hh with hh | hh
  · exact Or.inl hh
  · simp only [Bool.or_eq_true, Gimbal.allReceived, Bool.and_eq_true] at hh
    rcases hh with hh | hh
    · exact Or.inr hh
    · exact Or.inl hh.1.1

theorem agreesWith_informationRecord (g0 : Gimbal α) (c d cap : Nat) :
    (informationRecord g0 c d cap).agreesWith ⟨c, d⟩ :=
  ⟨Or.inr rfl, Or.inr rfl, fun _ => ⟨rfl, rfl⟩⟩

theorem agreesWith_statusRecord (env : Env α) (g0 : Gimbal α) (c d ps pc : Nat)
    (h : g0.agreesWith ⟨c, d⟩) : (statusRecord env g0 c d ps pc).agreesWith ⟨c, d⟩ := by
  obtain ⟨h1, h2, -⟩ := h
  obtain ⟨-, -, -, -, -, sd, sm, -, -⟩ := statusRecord_fields env g0 c d ps pc
  have hd : (statusRecord env g0 c d ps pc).deviceId = d := by
    rw [sd]
    rcases h2 with h2 | h2
    · rw [if_pos h2]
    · by_cases hz : g0.deviceId = 0
      · rw [if_pos hz]
      · rw [if_neg hz]; exact h2
  have hm : (statusRecord env g0 c d ps pc).managerCompid = c := by
    rw [sm]
    rcases h1 with h1 | h1
    · rw [if_pos h1]
    · by_cases hz : g0.managerCompid = 0
      · rw [if_pos hz]
      · rw [if_neg hz]; exact h1
  exact ⟨Or.inr hm, Or.inr hd, fun _ => ⟨hm, hd⟩⟩

theorem attitudeRecord_identity (env : Env α) (g0 : Gimbal α) (fl : Nat) (q : Quat α) :
    (attitudeRecord env g0 fl q).managerCompid = g0.managerCompid ∧
    (attitudeRecord env g0 fl q).deviceId = g0.deviceId ∧
    (attitudeRecord env g0 fl q).receivedGimbalManagerInformation =
      g0.receivedGimbalManagerInformation ∧
    (attitudeRecord env g0 fl q).isComplete = g0.isComplete := by
  refine ⟨?_, ?_, ?_, ?_⟩ <;> simp only [attitudeRecord] <;> split_ifs <;> rfl

theorem agreesWith_attitudeRecord (env : Env α) (g0 : Gimbal α) (fl : Nat) (q : Quat α)
    (k : GimbalPairId) (h : g0.agreesWith k) : (attitudeRecord env g0 fl q).agreesWith k := by
  obtain ⟨am, ad, ai, ac⟩ := attitudeRecord_identity env g0 fl q
  unfold Gimbal.agreesWith
  rw [am, ad, ai, ac]
  exact h

/-- One frame keeps every stored identity in agreement with its key. -/
theorem mavlinkMessageReceived_agrees (env : Env α) (s : State α) (f : Frame α)
    (hs : ∀ kv ∈ s.potentialGimbals, kv.2.agreesWith kv.1) :
    ∀ kv ∈ (mavlinkMessageReceived env s f).1.potentialGimbals, kv.2.agreesWith kv.1 := by
  by_cases hr : env.parametersReady = false
  · rw [mavlinkMessageReceived_notReady env s f hr]; exact hs
  · have hr1 : env.parametersReady = true := by simpa using hr
    have key : ∀ (s1 : State α) (g : Gimbal α) (p : GimbalPairId),
        s1.potentialGimbals = s.potentialGimbals → g.agreesWith p →
        ∀ kv ∈ (checkComplete env s1 g p).1.potentialGimbals, kv.2.agreesWith kv.1 := by
      intro s1 g p hs1 hg kv hkv
      rw [checkComplete_potentialGimbals, hs1] at hkv
      rcases Table.mem_set _ _ _ kv hkv with hk | hk
      · rw [hk]
        exact agreesWith_checkCompleteRecord _ _ g p p hg
      · exact hs kv hk
    cases f with
    | heartbeat c =>
      obtain ⟨m, o, h, -⟩ := handleHeartbeat_shape s c
      rw [mavlinkMessageReceived_heartbeat env s c hr1, h]
      exact hs
    | other id =>
      rw [mavlinkMessageReceived_other env s id hr1]; exact hs
    | gimbalManagerInformation c d cap =>
      rw [mavlinkMessageReceived_information env s c d cap hr1]
      by_cases hd : d = 0
      · simp only [handleGimbalManagerInformation, hd, if_true]; exact hs
      · rw [handleGimbalManagerInformation_eq env s c d cap hd]
        exact key _ _ _ rfl (agreesWith_informationRecord _ c d cap)
    | gimbalManagerStatus c d ps pc =>
      rw [mavlinkMessageReceived_status env s c d ps pc hr1]
      by_cases hd : d = 0
      · simp only [handleGimbalManagerStatus, hd, if_true]; exact hs
      · rw [handleGimbalManagerStatus_eq env s c d ps pc hd]
        exact key _ _ _ rfl (agreesWith_statusRecord env _ c d ps pc
          (agreesWith_getD _ hs ⟨c, d⟩))
    | gimbalDeviceAttitudeStatus c d fl q =>
      rw [mavlinkMessageReceived_attitude env s c d fl q hr1]
      cases hp : attitudePairId s c d with
      | none => simp only [handleGimbalDeviceAttitudeStatus, hp]; exact hs
      | some p =>
        rw [handleGimbalDeviceAttitudeStatus_eq env s c d fl q p hp]
        exact key _ _ _ rfl (agreesWith_attitudeRecord env _ fl q p (agreesWith_getD _ hs p))

/-- C28: in every state reached from the empty controller by inbound frames,
each record stored under the key (m, d) has stored manager compid 0 or m and
stored device id 0 or d, and both are the key's when the record is complete;
hence for every GIMBAL_MANAGER_STATUS frame the tests of the two "conflicting"
branches of `_handleGimbalManagerStatus` fail on the record it finds. -/
theorem stored_identity (evs : List (Env α × Frame α)) :
    (∀ kv ∈ (receiveAll State.empty evs).1.potentialGimbals,
      (kv.2.managerCompid = 0 ∨ kv.2.managerCompid = kv.1.managerCompid) ∧
      (kv.2.deviceId = 0 ∨ kv.2.deviceId = kv.1.deviceId) ∧
      (kv.2.isComplete = true →
        kv.2.managerCompid = kv.1.managerCompid ∧ kv.2.deviceId = kv.1.deviceId)) ∧
    (∀ c d : Nat, ¬ statusConflict
      ((Table.find (receiveAll State.empty evs).1.potentialGimbals ⟨c, d⟩).getD Gimbal.new) c d) := by
  have hinv : ∀ kv ∈ (receiveAll (State.empty : State α) evs).1.potentialGimbals,
      kv.2.agreesWith kv.1 := by
    refine receiveAll_induct (fun s => ∀ kv ∈ s.potentialGimbals, kv.2.agreesWith kv.1)
      ?_ State.empty ?_ evs
    · intro env s f hs
      exact mavlinkMessageReceived_agrees env s f hs
    · intro kv hkv
      exact absurd hkv (List.not_mem_nil _)
  constructor
  · intro kv hkv
    obtain ⟨h1, h2, h3⟩ := hinv kv hkv
    exact ⟨h1, h2, fun hc => h3 (Or.inr hc)⟩
  · intro c d hconf
    obtain ⟨h1, h2, -⟩ := agreesWith_getD _ hinv ⟨c, d⟩
    rcases hconf with ⟨hn0, hnd⟩ | ⟨hn0, hnc⟩
    · rcases h2 with h2 | h2
      · exact hn0 h2
      · exact hnd h2
    · have hm : ∀ g : Gimbal α, (if g.deviceId = 0 then { g with deviceId := d } else g).managerCompid
          = g.managerCompid := by
        intro g; split_ifs <;> rfl
      rw [hm] at hn0 hnc
      rcases h1 with h1 | h1
      · exact hn0 h1
      · exact hnc h1

/-! ## The status-interval schedule -/

theorem statusIntervals_append (a b : List (Output α)) :
    statusIntervals (a ++ b) = statusIntervals a ++ statusIntervals b := by
  induction a with
  | nil => rfl
  | cons o rest ih =>
    cases o with
    | mavCommand c =>
      simp only [List.cons_append, statusIntervals]
      split_ifs
      · split <;> simp [ih]
      · exact ih
    | _ => simpa [statusIntervals] using ih

theorem statusIntervals_requestGimbalInformation (c : Nat) :
    statusIntervals ([requestGimbalInformation c] : List (Output α)) = [] := by
  simp [statusIntervals, requestGimbalInformation]

theorem statusIntervals_requestAttitudeInterval (c : Nat) :
    statusIntervals ([requestAttitudeInterval c] : List (Output α)) = [] := by
  simp [statusIntervals, requestAttitudeInterval, MAVLINK_MSG_ID_GIMBAL_MANAGER_STATUS,
    MAVLINK_MSG_ID_GIMBAL_DEVICE_ATTITUDE_STATUS]

theorem statusIntervals_requestStatusInterval (c r : Nat) :
    statusIntervals ([requestStatusInterval c r] : List (Output α)) =
      [if 2 < r then 0 else 5000000] := by
  simp [statusIntervals, requestStatusInterval]

/-- The probe blocks emit no status-interval request and keep the status budget,
or emit one, with the interval line 315 chooses for the budget, and use up one
retry. -/
theorem probed_schedule (now last : Int) (g : Gimbal α) (p : GimbalPairId) :
    (statusIntervals (probedOutput now last g p) = [] ∧
      (probedRecord now last g p).requestStatusRetries = g.requestStatusRetries) ∨
    (0 < g.requestStatusRetries ∧
      statusIntervals (probedOutput now last g p) =
        [if 2 < g.requestStatusRetries then 0 else 5000000] ∧
      (probedRecord now last g p).requestStatusRetries = g.requestStatusRetries - 1) := by
  have hi : statusIntervals (checkCompleteInformation g p).2 = [] := by
    rcases checkCompleteInformation_snd g p with h | h <;> rw [h]
    · rfl
    · exact statusIntervals_requestGimbalInformation _
  have ha : ∀ g2 : Gimbal α, statusIntervals (checkCompleteAttitude g2 p).2 = [] := by
    intro g2
    rcases checkCompleteAttitude_snd g2 p with h | ⟨c, h⟩ <;> rw [h]
    · rfl
    · exact statusIntervals_requestAttitudeInterval _
  have h1 : (checkCompleteInformation g p).1.requestStatusRetries = g.requestStatusRetries ∧
      (checkCompleteInformation g p).1.receivedGimbalManagerStatus =
        g.receivedGimbalManagerStatus := by
    rw [checkCompleteInformation_fst]; exact ⟨rfl, rfl⟩
  have h3 : ∀ g2 : Gimbal α, (checkCompleteAttitude g2 p).1.requestStatusRetries
      = g2.requestStatusRetries := by
    intro g2; rw [checkCompleteAttitude_fst]
  simp only [probedOutput, probedRecord, statusIntervals_append, hi, ha, List.nil_append,
    List.append_nil, h3]
  obtain ⟨g1, hg1⟩ : ∃ g1 : Gimbal α, g1 = (checkCompleteInformation g p).1 := ⟨_, rfl⟩
  rw [← hg1] at h1 ⊢
  rw [← h1.1]
  by_cases hc : g1.receivedGimbalManagerStatus = false ∧ 0 < g1.requestStatusRetries ∧
      1000 < now - last
  · right
    unfold checkCompleteStatus
    rw [if_pos hc]
    exact ⟨hc.2.1, statusIntervals_requestStatusInterval _ _, rfl⟩
  · left
    unfold checkCompleteStatus
    rw [if_neg hc]
    exact ⟨rfl, rfl⟩

theorem checkComplete_schedule (env : Env α) (s : State α) (g : Gimbal α) (p : GimbalPairId) :
    (statusIntervals (checkComplete env s g p).2 = [] ∧
      (checkCompleteRecord env.now s.lastRequestStatusMessage g p).requestStatusRetries
        = g.requestStatusRetries) ∨
    (0 < g.requestStatusRetries ∧
      statusIntervals (checkComplete env s g p).2 =
        [if 2 < g.requestStatusRetries then 0 else 5000000] ∧
      (checkCompleteRecord env.now s.lastRequestStatusMessage g p).requestStatusRetries
        = g.requestStatusRetries - 1) := by
  cases hc : g.isComplete with
  | true =>
    left
    rw [checkComplete_of_complete env s g p hc]
    simp only [checkCompleteRecord, hc, if_true]
    exact ⟨rfl, trivial⟩
  | false =>
    have hrec : (checkCompleteRecord env.now s.lastRequestStatusMessage g p).requestStatusRetries
        = (probedRecord env.now s.lastRequestStatusMessage g p).requestStatusRetries := by
      simp only [checkCompleteRecord, hc, Bool.false_eq_true, if_false, probedRecord]
      split_ifs <;> rfl
    rw [hrec]
    cases hall : g.allReceived with
    | false =>
      rw [checkComplete_of_pending env s g p hc hall]
      exact probed_schedule _ _ g p
    | true =>
      rw [checkComplete_of_completing env s g p hc hall]
      have hx : ∀ l : List (Output α), statusIntervals
          (l ++ (if s.activeGimbal = none then [Output.activeGimbalChanged] else []) ++
            [Output.addFactGroup p]) = statusIntervals l := by
        intro l
        rw [statusIntervals_append, statusIntervals_append]
        split_ifs <;> simp [statusIntervals]
      simp only [hx]
      exact probed_schedule _ _ g p

/-- One frame, for the status budget of the pair `p`. -/
theorem mavlinkMessageReceived_schedule (env : Env α) (s : State α) (f : Frame α)
    (p : GimbalPairId) :
    ((if framePairId s f = some p then statusIntervals (mavlinkMessageReceived env s f).2
        else []) = [] ∧
      statusRetriesOf (mavlinkMessageReceived env s f).1 p = statusRetriesOf s p) ∨
    (0 < statusRetriesOf s p ∧
      (if framePairId s f = some p then statusIntervals (mavlinkMessageReceived env s f).2
        else []) = [if 2 < statusRetriesOf s p then 0 else 5000000] ∧
      statusRetriesOf (mavlinkMessageReceived env s f).1 p = statusRetriesOf s p - 1) := by
  rcases mavlinkMessageReceived_shape env s f with ⟨_, m, out, h, ho⟩ | ⟨q, m, g, _, hq, h, hu⟩
  · left
    rw [h]
    refine ⟨?_, rfl⟩
    split_ifs
    · rcases ho with ho | ⟨c, ho⟩ <;> rw [ho]
      · rfl
      · exact statusIntervals_requestGimbalInformation _
    · rfl
  · rw [h, hq]
    by_cases hpq : q = p
    · rw [hpq] at hu h ⊢
      simp only [if_true]
      have hr : statusRetriesOf (checkComplete env { s with potentialGimbalManagers := m } g p).1 p
          = (checkCompleteRecord env.now s.lastRequestStatusMessage g p).requestStatusRetries := by
        simp only [statusRetriesOf, checkComplete_potentialGimbals, Table.find_set_self]
        rfl
      rw [hr]
      have hg : g.requestStatusRetries = statusRetriesOf s p := hu.statusRetries
      rw [← hg]
      exact checkComplete_schedule env _ g p
    · left
      have hne : ¬ (some q = some p) := fun hh => hpq (Option.some.inj hh)
      simp only [hne, if_false]
      refine ⟨trivial, ?_⟩
      simp only [statusRetriesOf, checkComplete_potentialGimbals]
      rw [Table.find_set_ne _ _ _ _ hpq]

theorem statusIntervalsFor_prefix (p : GimbalPairId) (frames : List (Env α × Frame α)) :
    ∀ s : State α, statusIntervalsFor p s frames <+: statusSchedule (statusRetriesOf s p) := by
  induction frames with
  | nil => intro s; exact List.nil_prefix
  | cons ef rest ih =>
    intro s
    obtain ⟨env, f⟩ := ef
    simp only [statusIntervalsFor]
    rcases mavlinkMessageReceived_schedule env s f p with ⟨h1, h2⟩ | ⟨h0, h1, h2⟩
    · rw [h1, List.nil_append, ← h2]
      exact ih _
    · rw [h1]
      obtain ⟨r, hr⟩ : ∃ r, statusRetriesOf s p = r + 1 := ⟨statusRetriesOf s p - 1, by omega⟩
      have ih2 := ih (mavlinkMessageReceived env s f).1
      rw [h2, hr] at ih2
      rw [hr]
      simp only [statusSchedule, List.singleton_append]
      exact (List.prefix_cons_inj _).mpr ih2
/-- C24: for a pair whose status-retry budget is 5, whatever frames are
delivered, the intervals of the SET_MESSAGE_INTERVAL(GIMBAL_MANAGER_STATUS)
commands that `_checkComplete` emits for it form, in order, an initial part of
0, 0, 0, 5000000, 5000000: the k-th carries 0 for k = 1, 2, 3 and 5000000 for
k = 4, 5, and there is no sixth. -/
theorem status_interval_schedule (p : GimbalPairId) (s : State α)
    (frames : List (Env α × Frame α)) (h5 : statusRetriesOf s p = 5) :
    statusIntervalsFor p s frames <+: [0, 0, 0, 5000000, 5000000] ∧
    (statusIntervalsFor p s frames).length ≤ 5 ∧
    ∀ k x, (statusIntervalsFor p s frames)[k]? = some x →
      x = if k < 3 then 0 else 5000000 := by
  have hp := statusIntervalsFor_prefix p frames s
  rw [h5] at hp
  have hs : statusSchedule 5 = [0, 0, 0, 5000000, 5000000] := by decide
  rw [hs] at hp
  refine ⟨hp, by simpa using hp.length_le, ?_⟩
  intro k x hk
  obtain ⟨t, ht⟩ := hp
  have hk2 : ([0, 0, 0, 5000000, 5000000] : List Int)[k]? = some x := by
    rw [← ht]
    have hlt : k < (statusIntervalsFor p s frames).length := by
      by_contra hge
      rw [List.getElem?_eq_none (by omega)] at hk
      exact absurd hk (by simp)
    rw [List.getElem?_append_left hlt]
    exact hk
  match k, hk2 with
  | 0, h => simp at h; simp [h]
  | 1, h => simp at h; simp [h]
  | 2, h => simp at h; simp [h]
  | 3, h => simp at h; simp [h]
  | 4, h => simp at h; simp [h]
  | k + 5, h => simp at h

/-- C24 on a gimbal that is heard of every two seconds and never sends its
status: all five requests are emitted, the seventh frame emits none. -/
theorem status_interval_schedule_witness :
    statusIntervalsFor { managerCompid := 154, deviceId := 1 } State.empty
        Example.unansweredFrames = [0, 0, 0, 5000000, 5000000] ∧
    statusIntervalsFor { managerCompid := 154, deviceId := 1 } State.empty
        Example.unansweredFrames <+: [0, 0, 0, 5000000, 5000000] :=
  ⟨by decide,
   (status_interval_schedule { managerCompid := 154, deviceId := 1 } State.empty
      Example.unansweredFrames rfl).1⟩

/-! ## Button rates and absolute commands -/

/-- The control test when we hold control: it passes and emits nothing. -/
theorem tryGetGimbalControl_held (env : Env α) (s : State α) (g : Gimbal α)
    (hg : s.activeRecord = some g) (hh : g.gimbalHaveControl = true)
    (ho : g.gimbalOthersHaveControl = false) : tryGetGimbalControl env s = (true, []) := by
  simp [tryGetGimbalControl, hg, ho, hh]

/-- With an active gimbal `gimbalPitchStart` sets the rate and calls `sendRate`. -/
theorem gimbalPitchStart_eq (env : Env α) (s : State α) (g : Gimbal α) (direction : Int)
    (hg : s.activeRecord = some g) :
    gimbalPitchStart env s direction =
      sendRate env (s.modifyActive (fun g => { g with
        pitchRate := (direction : α) * (env.settings.joystickButtonsSpeed : α) })) := by
  obtain ⟨k, hk⟩ := activeGimbal_of_activeRecord s g hg
  simp only [gimbalPitchStart, hk]

/-- What `gimbalPitchStart` does on a gimbal we hold control of. -/
theorem gimbalPitchStart_held (env : Env α) (s : State α) (g : Gimbal α) (direction : Int)
    (hg : s.activeRecord = some g) (hh : g.gimbalHaveControl = true)
    (ho : g.gimbalOthersHaveControl = false) :
    (gimbalPitchStart env s direction).1.activeRecord =
      some { g with pitchRate := (direction : α) * (env.settings.joystickButtonsSpeed : α) } ∧
    (gimbalPitchStart env s direction).2 =
      [pitchYawCommand g false Param.nan Param.nan
        (Param.num ((direction : α) * (env.settings.joystickButtonsSpeed : α)))
        (Param.num g.yawRate)
        (if g.yawLock = true then
          GIMBAL_MANAGER_FLAGS_ROLL_LOCK ||| GIMBAL_MANAGER_FLAGS_PITCH_LOCK |||
            GIMBAL_MANAGER_FLAGS_YAW_LOCK
         else GIMBAL_MANAGER_FLAGS_ROLL_LOCK ||| GIMBAL_MANAGER_FLAGS_PITCH_LOCK)] ∧
    ((gimbalPitchStart env s direction).1.rateSenderTimerActive = true ↔
      ((direction : α) * (env.settings.joystickButtonsSpeed : α) ≠ 0 ∨ g.yawRate ≠ 0)) ∧
    (gimbalPitchStart env s direction).1 =
      { s.modifyActive (fun g => { g with
          pitchRate := (direction : α) * (env.settings.joystickButtonsSpeed : α) }) with
        rateSenderTimerActive :=
          !decide ((direction : α) * (env.settings.joystickButtonsSpeed : α) = 0 ∧
            g.yawRate = 0) } := by
  have hm : (s.modifyActive (fun g => { g with
      pitchRate := (direction : α) * (env.settings.joystickButtonsSpeed : α) })).activeRecord
      = some { g with
        pitchRate := (direction : α) * (env.settings.joystickButtonsSpeed : α) } := by
    rw [modifyActive_activeRecord, hg]; rfl
  rw [gimbalPitchStart_eq env s g direction hg, sendRate_eq env _ _ hm ho,
    tryGetGimbalControl_held env _ _ hm hh ho]
  refine ⟨hm, rfl, ?_, rfl⟩
  simp only [Bool.not_eq_true', decide_eq_false_iff_not, not_and_or]

/-- Method `modifyActive` touches the record table only. -/
theorem modifyActive_other (s : State α) (f : Gimbal α → Gimbal α) :
    (s.modifyActive f).rateSenderTimerActive = s.rateSenderTimerActive ∧
    (s.modifyActive f).gimbalMessageLog = s.gimbalMessageLog ∧
    (s.modifyActive f).activeGimbal = s.activeGimbal ∧
    (s.modifyActive f).gimbals = s.gimbals := by
  cases ha : s.activeGimbal with
  | none => simp [State.modifyActive, ha]
  | some k =>
    cases hk : Table.find s.potentialGimbals k with
    | none => simp [State.modifyActive, ha, hk]
    | some g => simp [State.modifyActive, ha, hk]

/-- The rate timer is stopped in `absoluteCommandState`. -/
theorem absoluteCommandState_timer (s : State α) :
    (absoluteCommandState s).rateSenderTimerActive = false := by
  simp only [absoluteCommandState, (modifyActive_other _ _).1]

/-- The controller after an absolute command that passes the control test. -/
theorem sendPitchBodyYaw_effect (env : Env α) (s : State α) (pitch yaw : α) (e : Bool)
    (g : Gimbal α) (hg : s.activeRecord = some g) (ho : g.gimbalOthersHaveControl = false) :
    (sendPitchBodyYaw env s pitch yaw e).1.rateSenderTimerActive = false ∧
    (sendPitchBodyYaw env s pitch yaw e).1.activeRecord =
      some { g with absolutePitch := 0, yawRate := 0 } := by
  have h1 : ¬ (tryGetGimbalControl env s).1 = false := by
    rw [tryGetGimbalControl_fst env s g hg ho]; simp
  rw [sendPitchBodyYaw_fst, if_neg h1, absoluteCommandState_activeRecord, hg]
  exact ⟨absoluteCommandState_timer s, rfl⟩

/-- The same for `sendPitchAbsoluteYaw`. -/
theorem sendPitchAbsoluteYaw_effect (env : Env α) (s : State α) (pitch yaw : α) (e : Bool)
    (g : Gimbal α) (hg : s.activeRecord = some g) (ho : g.gimbalOthersHaveControl = false) :
    (sendPitchAbsoluteYaw env s pitch yaw e).1.rateSenderTimerActive = false ∧
    (sendPitchAbsoluteYaw env s pitch yaw e).1.activeRecord =
      some { g with absolutePitch := 0, yawRate := 0 } := by
  have h1 : ¬ (tryGetGimbalControl env s).1 = false := by
    rw [tryGetGimbalControl_fst env s g hg ho]; simp
  rw [sendPitchAbsoluteYaw_fst, if_neg h1, absoluteCommandState_activeRecord, hg]
  exact ⟨absoluteCommandState_timer s, rfl⟩

/-- The controller after `gimbalPitchStart` on a gimbal we hold control of. -/
theorem gimbalPitchStart_held_state (env : Env α) (s : State α) (g : Gimbal α)
    (direction : Int) (hg : s.activeRecord = some g) (hh : g.gimbalHaveControl = true)
    (ho : g.gimbalOthersHaveControl = false) :
    (gimbalPitchStart env s direction).1 =
      { s.modifyActive (fun g => { g with
          pitchRate := (direction : α) * (env.settings.joystickButtonsSpeed : α) }) with
        rateSenderTimerActive :=
          !decide ((direction : α) * (env.settings.joystickButtonsSpeed : α) = 0 ∧
            g.yawRate = 0) } :=
  (gimbalPitchStart_held env s g direction hg hh ho).2.2.2

/-- The controller `Example.rateHeld` in closed form. -/
theorem rateHeld_eq :
    Example.rateHeld =
      { Example.held.modifyActive (fun g => { g with pitchRate := 30 }) with
        rateSenderTimerActive := true } := by
  have h30 : (((1 : Int) : ℚ)) * ((Example.env 3000).settings.joystickButtonsSpeed : ℚ)
      = 30 := by
    have : (Example.env 3000).settings.joystickButtonsSpeed = 30 := rfl
    rw [this]; norm_num
  have h := (gimbalPitchStart_held_state (Example.env 3000) Example.held Example.heldRecord 1 rfl
    (by decide) (by decide))
  rw [Example.rateHeld, h]
  simp only [h30]
  simp

/-- C21 fails on the code: at `Example.rateHeld` (we hold control, the gimbal is
pitched at -20 degrees, the pitch-up button has stored pitch rate 30 and started
the timer) `sendPitchBodyYaw(10, 20)` and `sendPitchAbsoluteYaw(10, 20)` stop the
timer and zero the yaw rate, but leave the stored pitch rate at 30 and set the
stored absolute pitch to 0: lines 497 and 526 call `setAbsolutePitch(0.0f)`. -/
theorem absolute_command_keeps_pitch_rate :
    Example.rateHeld.rateSenderTimerActive = true ∧
    Example.rateHeld.activeRecord.map (fun g => (g.pitchRate, g.yawRate, g.absolutePitch))
      = some (30, 0, -20) ∧
    (sendPitchBodyYaw (Example.env 3500) Example.rateHeld 10 20 false).1.rateSenderTimerActive
      = false ∧
    (sendPitchBodyYaw (Example.env 3500) Example.rateHeld 10 20 false).1.activeRecord.map
      (fun g => (g.pitchRate, g.yawRate, g.absolutePitch)) = some (30, 0, 0) ∧
    (sendPitchAbsoluteYaw (Example.env 3500) Example.rateHeld 10 20 false).1.activeRecord.map
      (fun g => (g.pitchRate, g.yawRate, g.absolutePitch)) = some (30, 0, 0) := by
  have hrec : Example.rateHeld.activeRecord = some { Example.heldRecord with pitchRate := 30 } := by
    rw [rateHeld_eq]; rfl
  have ho : ({ Example.heldRecord with pitchRate := 30 } : Gimbal ℚ).gimbalOthersHaveControl
      = false := by decide
  obtain ⟨hb1, hb2⟩ := sendPitchBodyYaw_effect (Example.env 3500) Example.rateHeld 10 20 false
    _ hrec ho
  obtain ⟨-, ha2⟩ := sendPitchAbsoluteYaw_effect (Example.env 3500) Example.rateHeld 10 20 false
    _ hrec ho
  refine ⟨by rw [rateHeld_eq], ?_, hb1, ?_, ?_⟩
  · rw [hrec]; rfl
  · rw [hb2]; rfl
  · rw [ha2]; rfl

/-! ## The yaw frame of a flags word -/

/-- A one-bit mask selects a non-zero value exactly when the bit is set. -/
theorem and_ne_zero_iff_testBit (flags i : Nat) :
    flags &&& 2 ^ i ≠ 0 ↔ flags.testBit i = true := by
  rw [Nat.and_two_pow]
  cases flags.testBit i <;> simp

/-- What `setGimbalYawLock` does once the control test has passed. -/
theorem setGimbalYawLock_eq (env : Env α) (s : State α) (set : Bool) (g : Gimbal α)
    (hg : s.activeRecord = some g) (ho : g.gimbalOthersHaveControl = false) :
    setGimbalYawLock env s set =
      some (s, (tryGetGimbalControl env s).2 ++
        [pitchYawCommand g true (Param.num g.absolutePitch)
          (Param.num (if set = true then g.absoluteYaw else g.bodyYaw)) Param.nan Param.nan
          (if set = true then
            GIMBAL_DEVICE_FLAGS_ROLL_LOCK ||| GIMBAL_DEVICE_FLAGS_PITCH_LOCK |||
              GIMBAL_DEVICE_FLAGS_YAW_LOCK
           else GIMBAL_DEVICE_FLAGS_ROLL_LOCK ||| GIMBAL_DEVICE_FLAGS_PITCH_LOCK)]) := by
  have h1 : ¬ (tryGetGimbalControl env s).1 = false := by
    rw [tryGetGimbalControl_fst env s g hg ho]
    simp
  cases set
  · simp only [setGimbalYawLock, h1, if_false, sendPitchYawFlags, hg, Option.map_some']
    rfl
  · simp only [setGimbalYawLock, h1, if_false, sendPitchYawFlags, hg, Option.map_some']
    rfl

/-- C25: for every flags word, `_yawInVehicleFrame(flags)` is true if and only if
the YAW_IN_VEHICLE_FRAME bit is set, or the YAW_IN_VEHICLE_FRAME, YAW_IN_EARTH_FRAME
and YAW_LOCK bits are all clear (stated with the masks and with bits 5, 6, 4);
consequently, once the control test has passed, `setGimbalYawLock(true)`
transmits the active gimbal's absolute yaw (flags ROLL_LOCK | PITCH_LOCK |
YAW_LOCK) and `setGimbalYawLock(false)` its body yaw (flags ROLL_LOCK |
PITCH_LOCK), each with the stored absolute pitch. -/
theorem yaw_frame_resolution (env : Env α) (s : State α) (g : Gimbal α) (flags : Nat)
    (hg : s.activeRecord = some g) (ho : g.gimbalOthersHaveControl = false) :
    (yawInVehicleFrame flags = true ↔
      (flags &&& GIMBAL_DEVICE_FLAGS_YAW_IN_VEHICLE_FRAME ≠ 0 ∨
        (flags &&& GIMBAL_DEVICE_FLAGS_YAW_IN_VEHICLE_FRAME = 0 ∧
          flags &&& GIMBAL_DEVICE_FLAGS_YAW_IN_EARTH_FRAME = 0 ∧
          flags &&& GIMBAL_DEVICE_FLAGS_YAW_LOCK = 0))) ∧
    (yawInVehicleFrame flags = true ↔
      (flags.testBit 5 = true ∨
        (flags.testBit 5 = false ∧ flags.testBit 6 = false ∧ flags.testBit 4 = false))) ∧
    setGimbalYawLock env s true =
      some (s, (tryGetGimbalControl env s).2 ++
        [pitchYawCommand g true (Param.num g.absolutePitch) (Param.num g.absoluteYaw)
          Param.nan Param.nan
          (GIMBAL_DEVICE_FLAGS_ROLL_LOCK ||| GIMBAL_DEVICE_FLAGS_PITCH_LOCK |||
            GIMBAL_DEVICE_FLAGS_YAW_LOCK)]) ∧
    setGimbalYawLock env s false =
      some (s, (tryGetGimbalControl env s).2 ++
        [pitchYawCommand g true (Param.num g.absolutePitch) (Param.num g.bodyYaw)
          Param.nan Param.nan
          (GIMBAL_DEVICE_FLAGS_ROLL_LOCK ||| GIMBAL_DEVICE_FLAGS_PITCH_LOCK)]) := by
  have hA : yawInVehicleFrame flags = true ↔
      (flags &&& GIMBAL_DEVICE_FLAGS_YAW_IN_VEHICLE_FRAME ≠ 0 ∨
        (flags &&& GIMBAL_DEVICE_FLAGS_YAW_IN_VEHICLE_FRAME = 0 ∧
          flags &&& GIMBAL_DEVICE_FLAGS_YAW_IN_EARTH_FRAME = 0 ∧
          flags &&& GIMBAL_DEVICE_FLAGS_YAW_LOCK = 0)) := by
    unfold yawInVehicleFrame
    by_cases hv : 0 < flags &&& GIMBAL_DEVICE_FLAGS_YAW_IN_VEHICLE_FRAME
    · rw [if_pos hv]
      simp only [true_iff]
      exact Or.inl (by omega)
    · rw [if_neg hv]
      have hv0 : flags &&& GIMBAL_DEVICE_FLAGS_YAW_IN_VEHICLE_FRAME = 0 := by omega
      by_cases he : 0 < flags &&& GIMBAL_DEVICE_FLAGS_YAW_IN_EARTH_FRAME
      · rw [if_pos he]
        simp only [Bool.false_eq_true, false_iff, not_or, not_not, not_and]
        exact ⟨hv0, fun _ h => absurd h (by omega)⟩
      · rw [if_neg he]
        have he0 : flags &&& GIMBAL_DEVICE_FLAGS_YAW_IN_EARTH_FRAME = 0 := by omega
        simp only [decide_eq_true_eq, hv0, he0, ne_eq, not_true_eq_false, true_and, false_or]
  refine ⟨hA, ?_, setGimbalYawLock_eq env s true g hg ho, setGimbalYawLock_eq env s false g hg ho⟩
  rw [hA]
  have h5 := and_ne_zero_iff_testBit flags 5
  have h6 := and_ne_zero_iff_testBit flags 6
  have h4 := and_ne_zero_iff_testBit flags 4
  have e5 : GIMBAL_DEVICE_FLAGS_YAW_IN_VEHICLE_FRAME = 2 ^ 5 := rfl
  have e6 : GIMBAL_DEVICE_FLAGS_YAW_IN_EARTH_FRAME = 2 ^ 6 := rfl
  have e4 : GIMBAL_DEVICE_FLAGS_YAW_LOCK = 2 ^ 4 := rfl
  rw [e5, e6, e4]
  have n5 : flags &&& 2 ^ 5 = 0 ↔ flags.testBit 5 = false := by
    rw [← not_iff_not, ← ne_eq, h5]; simp
  have n6 : flags &&& 2 ^ 6 = 0 ↔ flags.testBit 6 = false := by
    rw [← not_iff_not, ← ne_eq, h6]; simp
  have n4 : flags &&& 2 ^ 4 = 0 ↔ flags.testBit 4 = false := by
    rw [← not_iff_not, ← ne_eq, h4]; simp
  rw [h5, n5, n6, n4]

/-- C25 at `Example.held`, whose record has absolute yaw and body yaw stored. -/
theorem yaw_frame_resolution_witness :
    yawInVehicleFrame (GIMBAL_DEVICE_FLAGS_ROLL_LOCK ||| GIMBAL_DEVICE_FLAGS_PITCH_LOCK |||
      GIMBAL_DEVICE_FLAGS_YAW_LOCK) = false ∧
    yawInVehicleFrame (GIMBAL_DEVICE_FLAGS_ROLL_LOCK ||| GIMBAL_DEVICE_FLAGS_PITCH_LOCK) = true ∧
    setGimbalYawLock (Example.env 3000) Example.held true =
      some (Example.held, (tryGetGimbalControl (Example.env 3000) Example.held).2 ++
        [pitchYawCommand Example.heldRecord true (Param.num Example.heldRecord.absolutePitch)
          (Param.num Example.heldRecord.absoluteYaw) Param.nan Param.nan
          (GIMBAL_DEVICE_FLAGS_ROLL_LOCK ||| GIMBAL_DEVICE_FLAGS_PITCH_LOCK |||
            GIMBAL_DEVICE_FLAGS_YAW_LOCK)]) :=
  ⟨by decide, by decide,
   (yaw_frame_resolution (Example.env 3000) Example.held Example.heldRecord 0 rfl
      (by decide)).2.2.1⟩

/-! ## The axis read -/

/-- For a non-negative index the axis read returns: the element the index
addresses, or 0 when it is past the end. -/
theorem axisValue_nonneg (idx : Int) (axisValues : List α) (h0 : 0 ≤ idx) :
    axisValue idx axisValues = some (axisValues.getD idx.toNat 0) := by
  unfold axisValue
  split_ifs with h1
  · have hlt : idx.toNat < axisValues.length := by omega
    rw [List.getElem?_eq_getElem hlt, List.getD_eq_getElem _ _ hlt]
  · have hge : axisValues.length ≤ idx.toNat := by omega
    rw [List.getD_eq_default _ _ hge]

/-- For a negative index the test `idx < size` passes and the read falls before
the vector, whatever the sample. -/
theorem axisValue_negative (idx : Int) (axisValues : List α) (h : idx < 0) :
    axisValue idx axisValues = none := by
  unfold axisValue
  have h1 : idx < (axisValues.length : Int) := by omega
  have h2 : ¬ 0 ≤ idx := by omega
  rw [if_pos h1, if_neg h2]

/-- C27 fails on the code: with the pitch axis index set to -1 the handler reads
`axisValues[-1]` of the sample [0, 0.5, -0.25], and of the empty sample, outside
the vector (line 777 tests only `pitchIdx < axisValues.size()`). -/
theorem axis_read_negative_index :
    (Example.negativeIndexEnv 3000).settings.joystickGimbalPitchAxisIndex = -1 ∧
    axisValue (-1) Example.sample = none ∧
    handleJoystickGimbalInput (Example.negativeIndexEnv 3000) Example.free Example.sample
      = none ∧
    handleJoystickGimbalInput (Example.negativeIndexEnv 3000) Example.free [] = none := by
  have hi : (Example.negativeIndexEnv 3000).settings.joystickGimbalPitchAxisIndex = -1 := rfl
  have he : (Example.negativeIndexEnv 3000).settings.joystickGimbalEnabled = true := rfl
  refine ⟨hi, axisValue_negative _ _ (by decide), ?_, ?_⟩
  · simp only [handleJoystickGimbalInput, he, Bool.true_eq_false, if_false, hi,
      axisValue_negative (-1) Example.sample (by decide)]
  · simp only [handleJoystickGimbalInput, he, Bool.true_eq_false, if_false, hi,
      axisValue_negative (-1) ([] : List ℚ) (by decide)]

/-! ## The message log -/

/-- The loop of lines 899-901, given enough iterations, cuts the log to its first
100 entries. -/
theorem removeLastWhile_eq_take {μ : Type} (fuel : Nat) :
    ∀ l : List μ, l.length ≤ maxLogEntries + fuel →
      removeLastWhile fuel l = l.take maxLogEntries := by
  induction fuel with
  | zero =>
    intro l h
    simp only [removeLastWhile]
    exact (List.take_of_length_le (by omega)).symm
  | succ n ih =>
    intro l h
    simp only [removeLastWhile]
    split_ifs with hlt
    · rw [ih l.dropLast (by rw [List.length_dropLast]; omega), List.dropLast_eq_take,
        List.take_take]
      congr 1
      omega
    · exact (List.take_of_length_le (by omega)).symm

/-- Method `_addMessageLog` keeps the first 100 entries of the log with the new
message put in front. -/
theorem addMessageLog_eq {μ : Type} (log : List μ) (m : μ) :
    addMessageLog log m = m :: log.take (maxLogEntries - 1) := by
  unfold addMessageLog
  rw [removeLastWhile_eq_take _ _ (by omega)]
  rfl

theorem addMessageLog_length {μ : Type} (log : List μ) (m : μ) :
    (addMessageLog log m).length = min (log.length + 1) maxLogEntries := by
  rw [addMessageLog_eq, List.length_cons, List.length_take]
  simp only [maxLogEntries]
  omega

theorem checkComplete_log (env : Env α) (s : State α) (g : Gimbal α) (p : GimbalPairId) :
    (checkComplete env s g p).1.gimbalMessageLog = s.gimbalMessageLog := by
  cases hc : g.isComplete with
  | true => rw [checkComplete_of_complete env s g p hc]
  | false =>
    cases hall : g.allReceived with
    | false => rw [checkComplete_of_pending env s g p hc hall]
    | true => rw [checkComplete_of_completing env s g p hc hall]

theorem mavlinkMessageReceived_log (env : Env α) (s : State α) (f : Frame α) :
    (mavlinkMessageReceived env s f).1.gimbalMessageLog = s.gimbalMessageLog := by
  rcases mavlinkMessageReceived_shape env s f with ⟨_, m, out, h, _⟩ | ⟨p, m, g, _, _, h, _⟩
  · rw [h]
  · rw [h, checkComplete_log]

theorem sendRate_log (env : Env α) (s : State α) :
    (sendRate env s).1.gimbalMessageLog = s.gimbalMessageLog := by
  simp only [sendRate]
  split_ifs <;> (try rfl)
  all_goals (split <;> (try rfl))
  all_goals (split_ifs <;> rfl)

theorem absoluteCommandState_log (s : State α) :
    (absoluteCommandState s).gimbalMessageLog = s.gimbalMessageLog := by
  simp only [absoluteCommandState, (modifyActive_other _ _).2.1]

theorem sendPitchBodyYaw_log (env : Env α) (s : State α) (pitch yaw : α) (e : Bool) :
    (sendPitchBodyYaw env s pitch yaw e).1.gimbalMessageLog = s.gimbalMessageLog := by
  rw [sendPitchBodyYaw_fst]
  split_ifs
  · rfl
  · exact absoluteCommandState_log s

theorem sendPitchAbsoluteYaw_log (env : Env α) (s : State α) (pitch yaw : α) (e : Bool) :
    (sendPitchAbsoluteYaw env s pitch yaw e).1.gimbalMessageLog = s.gimbalMessageLog := by
  rw [sendPitchAbsoluteYaw_fst]
  split_ifs
  · rfl
  · exact absoluteCommandState_log s

theorem sendRate_modifyActive_log (env : Env α) (s : State α) (f : Gimbal α → Gimbal α) :
    (sendRate env (s.modifyActive f)).1.gimbalMessageLog = s.gimbalMessageLog := by
  rw [sendRate_log, (modifyActive_other s f).2.1]

theorem gimbalOnScreenControl_log (env : Env α) (s : State α) (a b : α) (c d : Bool) :
    (gimbalOnScreenControl env s a b c d).1.gimbalMessageLog = s.gimbalMessageLog := by
  simp only [gimbalOnScreenControl]
  split
  · rfl
  · split_ifs
    all_goals first
      | exact sendPitchAbsoluteYaw_log _ _ _ _ _
      | exact sendPitchBodyYaw_log _ _ _ _ _
      | rfl

/-- What a sender tick does to the log: nothing, or it adds its line. -/
theorem sendJoystickGimbalCommand_log (env : Env α) (s : State α) :
    (sendJoystickGimbalCommand env s).1.gimbalMessageLog = s.gimbalMessageLog ∨
    (sendJoystickGimbalCommand env s).1.gimbalMessageLog =
      addMessageLog s.gimbalMessageLog (joystickLogEntry env s) := by
  cases hg : s.activeRecord with
  | none => left; rw [sendJoystickGimbalCommand_refused env s (Or.inl hg)]
  | some g =>
    by_cases h1 : (tryGetGimbalControl env s).1 = false
    · left; rw [sendJoystickGimbalCommand_refused env s (Or.inr (Or.inl h1))]
    · cases hl : env.primaryLink with
      | none => left; rw [sendJoystickGimbalCommand_refused env s (Or.inr (Or.inr hl))]
      | some chan =>
        have h2 : (tryGetGimbalControl env s).1 = true := by simpa using h1
        obtain ⟨g2, hg2, ho⟩ := tryGetGimbalControl_true env s h2
        rw [sendJoystickGimbalCommand_passed env s g2 chan hg2 ho hl]
        by_cases hi : joystickIdle env s
        · rw [if_pos hi]; exact Or.inl rfl
        · rw [if_neg hi]; exact Or.inr rfl

/-- Every call leaves the log as it is, clears it, or adds one line to it. -/
theorem step_log (env : Env α) (s s2 : State α) (call : Call α) (out : List (Output α))
    (h : step env s call = some (s2, out)) :
    s2.gimbalMessageLog = s.gimbalMessageLog ∨ s2.gimbalMessageLog = [] ∨
      ∃ e, s2.gimbalMessageLog = addMessageLog s.gimbalMessageLog e := by
  cases call with
  | mavlinkMessageReceived f =>
    simp only [step, Option.some.injEq] at h
    rw [show s2 = (mavlinkMessageReceived env s f).1 by rw [h]]
    exact Or.inl (mavlinkMessageReceived_log env s f)
  | setActiveGimbal k =>
    simp only [step, Option.some.injEq] at h
    rw [show s2 = (setActiveGimbal s k).1 by rw [h]]
    left
    cases k with
    | none => rfl
    | some g =>
      simp only [setActiveGimbal]
      split_ifs <;> rfl
  | gimbalPitchStart dir =>
    simp only [step, Option.some.injEq] at h
    rw [show s2 = (gimbalPitchStart env s dir).1 by rw [h]]
    simp only [gimbalPitchStart]
    split
    · exact Or.inl rfl
    · exact Or.inl (sendRate_modifyActive_log env s _)
  | gimbalYawStart dir =>
    simp only [step, Option.some.injEq] at h
    rw [show s2 = (gimbalYawStart env s dir).1 by rw [h]]
    simp only [gimbalYawStart]
    split
    · exact Or.inl rfl
    · exact Or.inl (sendRate_modifyActive_log env s _)
  | gimbalPitchStop =>
    simp only [step, Option.some.injEq] at h
    rw [show s2 = (gimbalPitchStop env s).1 by rw [h]]
    simp only [gimbalPitchStop]
    split
    · exact Or.inl rfl
    · exact Or.inl (sendRate_modifyActive_log env s _)
  | gimbalYawStop =>
    simp only [step, Option.some.injEq] at h
    rw [show s2 = (gimbalYawStop env s).1 by rw [h]]
    simp only [gimbalYawStop]
    split
    · exact Or.inl rfl
    · exact Or.inl (sendRate_modifyActive_log env s _)
  | centerGimbal =>
    simp only [step, Option.some.injEq] at h
    rw [show s2 = (centerGimbal env s).1 by rw [h]]
    simp only [centerGimbal]
    split
    · exact Or.inl rfl
    · exact Or.inl (sendPitchBodyYaw_log _ _ _ _ _)
  | gimbalOnScreenControl a b c d =>
    simp only [step, Option.some.injEq] at h
    rw [show s2 = (gimbalOnScreenControl env s a b c d).1 by rw [h]]
    exact Or.inl (gimbalOnScreenControl_log env s a b c d)
  | sendPitchBodyYaw a b e =>
    simp only [step, Option.some.injEq] at h
    rw [show s2 = (sendPitchBodyYaw env s a b e).1 by rw [h]]
    exact Or.inl (sendPitchBodyYaw_log _ _ _ _ _)
  | sendPitchAbsoluteYaw a b e =>
    simp only [step, Option.some.injEq] at h
    rw [show s2 = (sendPitchAbsoluteYaw env s a b e).1 by rw [h]]
    exact Or.inl (sendPitchAbsoluteYaw_log _ _ _ _ _)
  | setGimbalRetract b =>
    simp only [step] at h
    rw [setGimbalRetract_fst env s s2 b out h]
    exact Or.inl rfl
  | sendRate =>
    simp only [step, Option.some.injEq] at h
    rw [show s2 = (sendRate env s).1 by rw [h]]
    exact Or.inl (sendRate_log env s)
  | sendGimbalRate a b =>
    simp only [step, Option.some.injEq] at h
    rw [show s2 = (sendGimbalRate env s a b).1 by rw [h]]
    left
    simp only [sendGimbalRate]
    split_ifs <;> rfl
  | rateSenderTimeout =>
    simp only [step, Option.some.injEq] at h
    rw [show s2 = (rateSenderTimeout env s).1 by rw [h]]
    exact Or.inl (sendRate_log env s)
  | setGimbalYawLock b =>
    simp only [step] at h
    rw [setGimbalYawLock_fst env s s2 b out h]
    exact Or.inl rfl
  | sendPitchYawFlags fl =>
    simp only [step] at h
    obtain ⟨o, _, ho⟩ := Option.map_eq_some'.mp h
    simp only [Prod.mk.injEq] at ho
    rw [← ho.1]
    exact Or.inl rfl
  | acquireGimbalControl =>
    simp only [step, Option.some.injEq, Prod.mk.injEq] at h
    rw [← h.1]
    exact Or.inl rfl
  | releaseGimbalControl =>
    simp only [step, Option.some.injEq, Prod.mk.injEq] at h
    rw [← h.1]
    exact Or.inl rfl
  | handleJoystickGimbalInput a =>
    simp only [step] at h
    left
    simp only [handleJoystickGimbalInput] at h
    split_ifs at h
    · simp only [Option.some.injEq, Prod.mk.injEq] at h
      rw [← h.1]
    · split at h
      · split_ifs at h <;>
          (simp only [Option.some.injEq, Prod.mk.injEq] at h; rw [← h.1])
      · exact absurd h (by simp)
  | joystickGimbalSendTimeout =>
    simp only [step, Option.some.injEq] at h
    rw [show s2 = (joystickGimbalSendTimeout env s).1 by rw [h]]
    rcases sendJoystickGimbalCommand_log env s with h1 | h1
    · exact Or.inl h1
    · exact Or.inr (Or.inr ⟨_, h1⟩)
  | clearMessageLog =>
    simp only [step, Option.some.injEq] at h
    rw [show s2 = (clearMessageLog s).1 by rw [h]]
    exact Or.inr (Or.inl rfl)

theorem runCalls_log_bounded (calls : List (Env α × Call α)) :
    ∀ (s : State α) (r : State α × List (Output α)),
      s.gimbalMessageLog.length ≤ maxLogEntries → runCalls s calls = some r →
      r.1.gimbalMessageLog.length ≤ maxLogEntries := by
  induction calls with
  | nil =>
    intro s r hs h
    simp only [runCalls, Option.some.injEq] at h
    rw [← h]; exact hs
  | cons c rest ih =>
    intro s r hs h
    obtain ⟨env, call⟩ := c
    simp only [runCalls] at h
    cases h1 : step env s call with
    | none => rw [h1] at h; exact absurd h (by simp)
    | some r1 =>
      rw [h1] at h
      simp only at h
      cases h2 : runCalls r1.1 rest with
      | none => rw [h2] at h; exact absurd h (by simp)
      | some r2 =>
        rw [h2] at h
        simp only [Option.some.injEq] at h
        rw [← h]
        refine ih r1.1 r2 ?_ h2
        rcases step_log env s r1.1 call r1.2 h1 with hk | hk | ⟨e, hk⟩
        · rw [hk]; exact hs
        · rw [hk]; simp
        · rw [hk, addMessageLog_length]; exact Nat.min_le_right _ _

/-- C23: for every log and every message, after `_addMessageLog(m)` the log is m
followed by the first 99 entries of the previous log: m is its first entry, the
rest is the previous log in its order cut at the end, and its length is
min(previous length + 1, 100); hence after every sequence of calls from the
empty controller the log holds at most 100 entries. -/
theorem bounded_message_log (log : List (LogEntry α)) (m : LogEntry α)
    (calls : List (Env α × Call α)) :
    addMessageLog log m = m :: log.take 99 ∧
    (addMessageLog log m).head? = some m ∧
    (addMessageLog log m).tail <+: log ∧
    (addMessageLog log m).length = min (log.length + 1) 100 ∧
    (∀ r, runCalls State.empty calls = some r → r.1.gimbalMessageLog.length ≤ 100) := by
  have h := addMessageLog_eq log m
  have h99 : maxLogEntries - 1 = 99 := rfl
  rw [h99] at h
  refine ⟨h, ?_, ?_, addMessageLog_length log m, ?_⟩
  · rw [h]; rfl
  · rw [h]; exact List.take_prefix _ _
  · intro r hr
    exact runCalls_log_bounded calls State.empty r (by simp [State.empty]) hr

end Lemmas

end GimbalController
